import Mathlib

/-!
# Advanced Vehicle System: network state queue, rest tracking and wheel step

A shallow embedding of `AVehicleSystemBase` (VehicleSystemBase.h / VehicleSystemBase.cpp),
`UVehicleSystemFunctions::FastDist` and `GetMeshRadius` (VehicleSystemFunctions.h / .cpp) and
the wheel records and configuration calls of `UVehicleWheelBase` (VehicleWheelBase.h / .cpp).

Conventions of the embedding
* `float` values are rationals: every statement is about exact arithmetic.
* `TArray<T>` is `List T`; an index `i` of the source is a position in the list.
* Values the source reads from the engine (world clocks, the network role, the chassis
  transform and velocity, ray query results) are explicit arguments or fields.
* `FVector::Size() > t` is expressed without a square root as `t < 0 ∨ t * t < SizeSquared`.
-/

namespace AVS

/-! ## Engine value types -/

/-- The engine's `FVector`, three floats. -/
structure FVector where
  X : ℚ
  Y : ℚ
  Z : ℚ
deriving DecidableEq

/-- The engine's `FRotator`, three angles in degrees. -/
structure FRotator where
  Pitch : ℚ
  Yaw : ℚ
  Roll : ℚ
deriving DecidableEq

namespace FVector

/-- `FVector::ZeroVector`. -/
def ZeroVector : FVector := ⟨0, 0, 0⟩

/-- `FVector::SizeSquared`. -/
def SizeSquared (v : FVector) : ℚ := v.X * v.X + v.Y * v.Y + v.Z * v.Z

/-- The test `v.Size() > t` in exact arithmetic. -/
def SizeGT (v : FVector) (t : ℚ) : Bool := decide (t < 0) || decide (t * t < v.SizeSquared)

/-- The test `v.Size() <= t` in exact arithmetic. -/
def SizeLE (v : FVector) (t : ℚ) : Bool := !(v.SizeGT t)

/-- Componentwise `A - B`. -/
def sub (a b : FVector) : FVector := ⟨a.X - b.X, a.Y - b.Y, a.Z - b.Z⟩

/-- Componentwise `A + B`. -/
def add (a b : FVector) : FVector := ⟨a.X + b.X, a.Y + b.Y, a.Z + b.Z⟩

/-- The product `V * k` of a vector and a scalar. -/
def scale (v : FVector) (k : ℚ) : FVector := ⟨v.X * k, v.Y * k, v.Z * k⟩

end FVector

/-- `FRotator::ZeroRotator`. -/
def FRotator.ZeroRotator : FRotator := ⟨0, 0, 0⟩

namespace FMath

/-- `FMath::Abs`. -/
def Abs (x : ℚ) : ℚ := if x < 0 then -x else x

/-- `FMath::Min`: `(A < B) ? A : B`. -/
def Min (a b : ℚ) : ℚ := if a < b then a else b

/-- `FMath::Max`: `(B < A) ? A : B`. -/
def Max (a b : ℚ) : ℚ := if b < a then a else b

/-- `FMath::Clamp(X, Min, Max)`, which the engine computes as `Max(Min(X, Max), Min)`; the
older form `X < Min ? Min : X < Max ? X : Max` gives the same value whenever `Min ≤ Max`. -/
def Clamp (x lo hi : ℚ) : ℚ := Max (Min x hi) lo

/-- `FMath::Sign`: 1, 0 or -1. -/
def Sign (x : ℚ) : ℚ := if 0 < x then 1 else if x < 0 then -1 else 0

/-- `FMath::IsNearlyEqual(A, B, Tolerance)`: `Abs(A - B) <= Tolerance`. -/
def IsNearlyEqual (a b tol : ℚ) : Bool := decide (Abs (a - b) ≤ tol)

end FMath

/-- Engine interpolation routines called by the network code. They are not part of this
plugin, so the embedding takes them as parameters. -/
structure Engine where
  /-- `UKismetMathLibrary::VLerp(A, B, Alpha)`. -/
  VLerp : FVector → FVector → ℚ → FVector
  /-- `UKismetMathLibrary::RLerp(A, B, Alpha, true)`. -/
  RLerp : FRotator → FRotator → ℚ → FRotator
  /-- `UKismetMathLibrary::VInterpTo(Current, Target, DeltaTime, InterpSpeed)`. -/
  VInterpTo : FVector → FVector → ℚ → ℚ → FVector
  /-- `UKismetMathLibrary::RInterpTo(Current, Target, DeltaTime, InterpSpeed)`. -/
  RInterpTo : FRotator → FRotator → ℚ → ℚ → FRotator

/-- A reference engine used to evaluate the model on concrete inputs: positions are
interpolated linearly, `A + Alpha * (B - A)`, rotations componentwise, and the `InterpTo`
routines move by the fraction `Clamp(DeltaTime * InterpSpeed, 0, 1)` of the remaining way. -/
def linearEngine : Engine where
  VLerp a b t := a.add ((b.sub a).scale t)
  RLerp a b t := ⟨a.Pitch + t * (b.Pitch - a.Pitch), a.Yaw + t * (b.Yaw - a.Yaw),
    a.Roll + t * (b.Roll - a.Roll)⟩
  VInterpTo c t dt sp := c.add ((t.sub c).scale (FMath.Clamp (dt * sp) 0 1))
  RInterpTo c t dt sp :=
    ⟨c.Pitch + FMath.Clamp (dt * sp) 0 1 * (t.Pitch - c.Pitch),
     c.Yaw + FMath.Clamp (dt * sp) 0 1 * (t.Yaw - c.Yaw),
     c.Roll + FMath.Clamp (dt * sp) 0 1 * (t.Roll - c.Roll)⟩

/-! ## Data model (VehicleSystemBase.h) -/

/-- The replicated snapshot `FNetState`. -/
structure FNetState where
  NetTimestamp : ℚ
  LocalTimestamp : ℚ
  position : FVector
  rotation : FRotator
  velocity : FVector
  angularVelocity : FVector
deriving DecidableEq

/-- The default constructor `FNetState()`. -/
def FNetState.default : FNetState :=
  ⟨0, 0, FVector.ZeroVector, FRotator.ZeroRotator, FVector.ZeroVector, FVector.ZeroVector⟩

/-- `enum class NetworkRoles`. -/
inductive NetworkRoles where
  | None
  | Owner
  | Server
  | Client
  | ClientSpawned
deriving DecidableEq

/-- Blueprint events raised by the network code; the embedding records them in order. -/
inductive Signal where
  | TeleportWheels
  | WakeWheelsForMovement
deriving DecidableEq

/-- The rigid body behind `VehicleMesh`, the root component of the actor: its world pose,
its velocities and whether any rigid body is awake. -/
structure Chassis where
  position : FVector
  rotation : FRotator
  velocity : FVector
  angularVelocity : FVector
  awake : Bool
deriving DecidableEq

/-! ## Wheel records (VehicleWheelBase.h) -/

/-- The engine's `FVector2D`. -/
structure FVector2D where
  X : ℚ
  Y : ℚ
deriving DecidableEq

/-- `enum class EWheelMode`. -/
inductive EWheelMode where
  | Raycast
  | Physics
deriving DecidableEq

/-- The members of the engine's `FHitResult` the plugin reads. `PhysMaterialFriction` is the
friction of `PhysMaterial` when that pointer is valid. -/
structure FHitResult where
  bBlockingHit : Bool
  Distance : ℚ
  Location : FVector
  ImpactPoint : FVector
  ImpactNormal : FVector
  PhysMaterialFriction : Option ℚ
deriving DecidableEq

/-- `FDebugForce`: a force applied to the vehicle, as recorded for debugging. -/
structure FDebugForce where
  Location : FVector
  Force : FVector
  WheelMode : EWheelMode
deriving DecidableEq

/-- `FAVS_Inputs`: the inputs handed to the physics thread each game tick. -/
structure FAVS_Inputs where
  Steering : ℚ
  Throttle : ℚ
  Brake : ℚ
  Handbrake : Bool
  Torque : ℚ
  ReverseTorque : Bool
deriving DecidableEq

/-- `FAVS1_Wheel_State`: the wheel state kept on the physics thread. -/
structure FAVS1_Wheel_State where
  Slip : FVector2D
  AngularVelocity : ℚ
deriving DecidableEq

/-- The default constructor `FAVS1_Wheel_State()`. -/
def FAVS1_Wheel_State.default : FAVS1_Wheel_State := ⟨⟨0, 0⟩, 0⟩

/-- `FAVS1_Wheel_Output`: the data a wheel gets back from the physics thread. -/
structure FAVS1_Wheel_Output where
  LastTrace : FHitResult
  AngularVelocity : ℚ
  CurrentSpringLength : ℚ
deriving DecidableEq

/-- `FAVS1_Wheel_Config`, without the members that only feed engine queries (the cached
local transform, the wheel primitive, the trace channel and ignore list, the editor
preview flag). -/
structure FAVS1_Wheel_Config where
  isLocked : Bool
  WheelMode : EWheelMode
  WheelMass : ℚ
  AutoWheelRadius : Bool
  WheelRadius : ℚ
  TireFriction : FVector2D
  IsDrivingWheel : Bool
  IsSteerableWheel : Bool
  MaxSteeringAngle : ℚ
  InvertTorque : Bool
  InvertSteering : Bool
  IsBrakingWheel : Bool
  BrakeTorque : ℚ
  RollingResistance : ℚ
  IsHandbrakeWheel : Bool
  SpringLength : ℚ
  SpringStrength : ℚ
  SpringDamping : ℚ
  WheelRadiusM : ℚ
  Inertia : ℚ
deriving DecidableEq

/-- `FAVS1_Wheel_Config::CalculateConstants`. -/
def FAVS1_Wheel_Config.CalculateConstants (c : FAVS1_Wheel_Config) : FAVS1_Wheel_Config :=
  let WheelRadiusM := c.WheelRadius * (1 / 100)
  { c with
    WheelRadiusM := WheelRadiusM
    Inertia := 1 / 2 * c.WheelMass * WheelRadiusM * WheelRadiusM }

/-- The default member initialisers of `FAVS1_Wheel_Config` followed by the constructor body,
which calls `CalculateConstants`. -/
def FAVS1_Wheel_Config.default : FAVS1_Wheel_Config :=
  FAVS1_Wheel_Config.CalculateConstants
    { isLocked := false
      WheelMode := EWheelMode.Raycast
      WheelMass := 15
      AutoWheelRadius := true
      WheelRadius := 30
      TireFriction := ⟨14 / 10, 14 / 10⟩
      IsDrivingWheel := false
      IsSteerableWheel := false
      MaxSteeringAngle := 30
      InvertTorque := false
      InvertSteering := false
      IsBrakingWheel := true
      BrakeTorque := 2500
      RollingResistance := 1 / 100
      IsHandbrakeWheel := false
      SpringLength := 25
      SpringStrength := 25
      SpringDamping := 1
      WheelRadiusM := 0
      Inertia := 0 }

/-- The class of a primitive component, as far as the casts in `GetMeshRadius` and
`UpdateWheelRadius` tell: a static mesh component, a sphere component (which is a shape
component), another shape component, or anything else. -/
inductive EComponentClass where
  | StaticMesh
  | Sphere
  | Shape
  | Other
deriving DecidableEq

/-- What the plugin reads from a valid `UPrimitiveComponent`: its class, the Z extent of its
bounds (of the static mesh for a static mesh component), the Z component of its scale, and
the Z extent of the bounds of its body instance when it has one. -/
structure UPrimitiveComponent where
  Class : EComponentClass
  BoxExtentZ : ℚ
  ComponentScaleZ : ℚ
  BodyBoundsExtentZ : Option ℚ
deriving DecidableEq

/-- The members of the component `UVehicleWheelBase` read or written by the vehicle tick and
the wheel configuration calls. `IsValid` is the engine's validity test of the object behind
the pointer; `WheelMeshComponent` is `none` when that pointer is not valid. -/
structure UVehicleWheelBase where
  IsValid : Bool
  isAttached : Bool
  SimulateSuspension : Bool
  WheelConfig : FAVS1_Wheel_Config
  WheelData : FAVS1_Wheel_Output
  WheelMeshComponent : Option UPrimitiveComponent
deriving DecidableEq

/-- `FVehiclePhysicsPhysicsInput`, without the engine handles. `WorldValid` tells whether the
weak pointer `World` still resolves. -/
structure FVehiclePhysicsPhysicsInput where
  WorldValid : Bool
  VehicleMass : ℚ
  VehicleInputs : FAVS_Inputs
  Wheels : List FAVS1_Wheel_Config

/-- `FVehiclePhysicsPhysicsOutput`. `DebugForces` is filled in builds that keep debug data;
`DebugTraces` repeats `LastTrace` of the outputs and `DebugTexts` is never written by the
tick, so neither is carried. -/
structure FVehiclePhysicsPhysicsOutput where
  ChaosDeltaTime : ℚ
  DebugForces : List FDebugForce
  WheelOutputs : List FAVS1_Wheel_Output

/-- A freshly reset output record, as the solver hands it to the callback. -/
def FVehiclePhysicsPhysicsOutput.empty (ChaosDeltaTime : ℚ) : FVehiclePhysicsPhysicsOutput :=
  ⟨ChaosDeltaTime, [], []⟩

/-- The fields of `AVehicleSystemBase` read or written by the network queue, the rest
tracker, `SetVehicleLocation` and the vehicle tick. `Signals` is the log of blueprint events raised so far,
newest last. -/
structure AVehicleSystemBase where
  ShouldSyncWithServer : Bool
  ReplicateMovement : Bool
  SyncLocation : Bool
  SyncRotation : Bool
  NetTimeBehind : ℚ
  NetLerpStart : ℚ
  NetPositionTolerance : ℚ
  NetSmoothing : ℚ
  RestVelocityThreshold : ℚ
  TickDeltaTime : ℚ
  RestState : FNetState
  RestThresh : Bool
  NetworkAtRest : Bool
  RestTimer : ℚ
  LocalVehicleAtRest : Bool
  StateQueue : List FNetState
  LerpStartState : FNetState
  CreateNewStartState : Bool
  LastActiveTimestamp : ℚ
  VehicleMesh : Chassis
  Signals : List Signal
  VehicleWheels : List UVehicleWheelBase

/-- The state set up by the constructor `AVehicleSystemBase()` and the in-class member
initialisers, for a chassis `c`. -/
def AVehicleSystemBase.init (c : Chassis) : AVehicleSystemBase where
  ShouldSyncWithServer := true
  ReplicateMovement := true
  SyncLocation := true
  SyncRotation := true
  NetTimeBehind := 15 / 100
  NetLerpStart := 35 / 100
  NetPositionTolerance := 1 / 10
  NetSmoothing := 10
  RestVelocityThreshold := 25
  TickDeltaTime := 0
  RestState := FNetState.default
  RestThresh := false
  NetworkAtRest := false
  RestTimer := 0
  LocalVehicleAtRest := false
  StateQueue := []
  LerpStartState := FNetState.default
  CreateNewStartState := true
  LastActiveTimestamp := 0
  VehicleMesh := c
  Signals := []
  VehicleWheels := []

/-! ## UVehicleSystemFunctions -/

/-- `UVehicleSystemFunctions::FastDist`: the Manhattan distance. -/
def FastDist (A B : FVector) : ℚ :=
  FMath.Abs (A.X - B.X) + FMath.Abs (A.Y - B.Y) + FMath.Abs (A.Z - B.Z)

/-! ## Network state queue (VehicleSystemBase.cpp) -/

/-- `AVehicleSystemBase::GetPercentBetweenValues`. -/
def GetPercentBetweenValues (Value Begin End : ℚ) : ℚ := (Value - Begin) / (End - Begin)

/-- The loop body of `CalculateTimestamps` for the entries after `prev`: each entry takes
the local timestamp of the entry before it, already updated, plus the difference of their
net timestamps. -/
def CalculateTimestamps.chain (prev : FNetState) : List FNetState → List FNetState
  | [] => []
  | e :: rest =>
    let e1 : FNetState :=
      { e with LocalTimestamp := prev.LocalTimestamp + (e.NetTimestamp - prev.NetTimestamp) }
    e1 :: CalculateTimestamps.chain e1 rest

/-- `AVehicleSystemBase::CalculateTimestamps` on the queue: index 0 is left as it is, every
later index is recomputed from its predecessor, in ascending order. -/
def CalculateTimestamps : List FNetState → List FNetState
  | [] => []
  | head :: rest => head :: CalculateTimestamps.chain head rest

/-- The descending scan of `AddStateToQueue`, `for (int8 i = lastindex; i >= 0; --i)`, with
`n = i + 1` indices left to visit: at the first index whose entry is strictly older than the
new snapshot, insert behind it, recompute the timestamps and stop. When no such index
exists the loop ends and the queue is returned as it was. -/
def AddStateToQueue.scan (StateToAdd : FNetState) (q : List FNetState) : Nat → List FNetState
  | 0 => q
  | i + 1 =>
    match q[i]? with
    | some e =>
      if e.NetTimestamp < StateToAdd.NetTimestamp then
        CalculateTimestamps (q.insertIdx (i + 1) StateToAdd)
      else AddStateToQueue.scan StateToAdd q i
    | none => AddStateToQueue.scan StateToAdd q i

/-- `AVehicleSystemBase::AddStateToQueue`. `role` is `GetNetworkRole()` and `now` is
`GetLocalWorldTime()` at the call. The assignment to `StateToAdd.LocalTimestamp` after the
insertion writes to the by-value parameter only and is not modelled. -/
def AddStateToQueue (role : NetworkRoles) (now : ℚ) (s : AVehicleSystemBase)
    (StateToAdd : FNetState) : AVehicleSystemBase :=
  if role ≠ NetworkRoles.Owner then
    if s.StateQueue.length < 10 then
      let StateToAdd : FNetState :=
        { StateToAdd with NetTimestamp := StateToAdd.NetTimestamp + s.NetTimeBehind }
      if StateToAdd.NetTimestamp < s.LastActiveTimestamp then s
      else
        match s.StateQueue with
        | _ :: _ =>
          { s with StateQueue :=
              AddStateToQueue.scan StateToAdd s.StateQueue s.StateQueue.length }
        | [] =>
          { s with StateQueue :=
              [{ StateToAdd with LocalTimestamp := now + s.NetTimeBehind }] }
    else s
  else s

/-- `AVehicleSystemBase::ClearQueue`. -/
def ClearQueue (s : AVehicleSystemBase) : AVehicleSystemBase :=
  { s with StateQueue := [], CreateNewStartState := true }

/-- `AVehicleSystemBase::CreateNetStateForNow`; `netNow` is `GetNetworkWorldTime()`. -/
def CreateNetStateForNow (netNow : ℚ) (s : AVehicleSystemBase) : FNetState where
  NetTimestamp := netNow
  LocalTimestamp := 0
  position := s.VehicleMesh.position
  rotation := s.VehicleMesh.rotation
  velocity := s.VehicleMesh.velocity
  angularVelocity := s.VehicleMesh.angularVelocity

/-- `AVehicleSystemBase::SetVehicleLocation`. `SetActorLocationAndRotation`, `SetActorLocation`
and `SetActorRotation` (no sweep) write the pose of the root component `VehicleMesh`;
`GetComponentVelocity` of the simulated root body is its linear velocity. -/
def SetVehicleLocation (E : Engine) (s : AVehicleSystemBase) (InNewPos : FVector)
    (InNewRot : FRotator) (WakeWheels : Bool) : AVehicleSystemBase :=
  let MoveDistance := FastDist s.VehicleMesh.position InNewPos
  if MoveDistance ≤ 3000 then
    let DistanceThreshold0 : ℚ := 15 / 100
    let raised : Bool := (s.NetworkAtRest && s.RestThresh) || decide (MoveDistance < DistanceThreshold0)
    let DistanceThreshold : ℚ := if raised then 10 else DistanceThreshold0
    let s1 : AVehicleSystemBase :=
      { s with RestThresh := if raised then decide (MoveDistance < 10) else false }
    if s.VehicleMesh.velocity.SizeGT s.RestVelocityThreshold || decide (MoveDistance > DistanceThreshold) then
      let s2 : AVehicleSystemBase :=
        if WakeWheels then { s1 with Signals := s1.Signals ++ [Signal.WakeWheelsForMovement] }
        else s1
      let IsSimulatingPhysics := s2.VehicleMesh.awake
      let NewPos :=
        if IsSimulatingPhysics then
          E.VInterpTo s2.VehicleMesh.position InNewPos s2.TickDeltaTime s2.NetSmoothing
        else InNewPos
      let NewRot :=
        if IsSimulatingPhysics then
          E.RInterpTo s2.VehicleMesh.rotation InNewRot s2.TickDeltaTime s2.NetSmoothing
        else InNewRot
      { s2 with VehicleMesh :=
          { s2.VehicleMesh with
            position := if s2.SyncLocation then NewPos else s2.VehicleMesh.position
            rotation := if s2.SyncRotation then NewRot else s2.VehicleMesh.rotation } }
    else s1
  else
    { s with
      VehicleMesh :=
        { s.VehicleMesh with
          position := if s.SyncLocation then InNewPos else s.VehicleMesh.position
          rotation := if s.SyncRotation then InNewRot else s.VehicleMesh.rotation
          velocity := FVector.ZeroVector
          angularVelocity := FVector.ZeroVector }
      Signals := s.Signals ++ [Signal.TeleportWheels] }

/-- `AVehicleSystemBase::ApplyExactNetState`. -/
def ApplyExactNetState (E : Engine) (s : AVehicleSystemBase) (State : FNetState) :
    AVehicleSystemBase :=
  let s1 := SetVehicleLocation E s State.position State.rotation false
  { s1 with VehicleMesh :=
      { s1.VehicleMesh with velocity := State.velocity, angularVelocity := State.angularVelocity } }

/-- The interpolation part of `SyncPhysics` (from `LastActiveTimestamp = ...` to the end of
the block), entered with the start state captured: `NextState` is the queue head and `rest`
the entries behind it. -/
def SyncPhysics.lerp (E : Engine) (CurrentTime : ℚ) (s : AVehicleSystemBase)
    (NextState : FNetState) (rest : List FNetState) : AVehicleSystemBase :=
  let s1 : AVehicleSystemBase := { s with LastActiveTimestamp := NextState.NetTimestamp }
  let lerpBeginTime := s1.LerpStartState.NetTimestamp
  let lerpPercent :=
    FMath.Clamp (GetPercentBetweenValues CurrentTime lerpBeginTime NextState.LocalTimestamp) 0 1
  let NewPosition := E.VLerp s1.LerpStartState.position NextState.position lerpPercent
  let NewRotation := E.RLerp s1.LerpStartState.rotation NextState.rotation lerpPercent
  let s2 := SetVehicleLocation E s1 NewPosition NewRotation false
  if lerpPercent ≥ 99 / 100 ∨ lerpBeginTime > NextState.LocalTimestamp then
    let s3 := ApplyExactNetState E s2 NextState
    { s3 with StateQueue := rest, CreateNewStartState := true }
  else s2

/-- The body of `if (StateQueue.IsValidIndex(0))` in `SyncPhysics`: `NextState` is the queue
head `StateQueue[0]` and `rest` the entries behind it. -/
def SyncPhysics.head (E : Engine) (now netNow : ℚ) (s : AVehicleSystemBase)
    (NextState : FNetState) (rest : List FNetState) : AVehicleSystemBase :=
  let CurrentTime := now
  if CurrentTime ≥ NextState.LocalTimestamp - s.NetLerpStart then
    if s.CreateNewStartState then
      let s1 : AVehicleSystemBase :=
        { s with LerpStartState := CreateNetStateForNow netNow s, CreateNewStartState := false }
      if FMath.IsNearlyEqual s1.LerpStartState.position.X NextState.position.X
            s1.NetPositionTolerance
          && FMath.IsNearlyEqual s1.LerpStartState.position.Y NextState.position.Y
            s1.NetPositionTolerance
          && FMath.IsNearlyEqual s1.LerpStartState.position.Z NextState.position.Z
            s1.NetPositionTolerance then
        { s1 with StateQueue := rest, CreateNewStartState := true }
      else SyncPhysics.lerp E CurrentTime s1 NextState rest
    else SyncPhysics.lerp E CurrentTime s NextState rest
  else s

/-- `AVehicleSystemBase::SyncPhysics`. `now` is `GetLocalWorldTime()` and `netNow` is
`GetNetworkWorldTime()` at the call. A lerp window of zero width divides by zero in the
source; the embedding's division then yields 0. -/
def SyncPhysics (E : Engine) (now netNow : ℚ) (s : AVehicleSystemBase) : AVehicleSystemBase :=
  if s.NetworkAtRest then
    let s1 := SetVehicleLocation E s s.RestState.position s.RestState.rotation true
    if s1.StateQueue.length > 0 then ClearQueue s1 else s1
  else
    match s.StateQueue with
    | [] => s
    | NextState :: rest => SyncPhysics.head E now netNow s NextState rest

/-! ## Rest tracking -/

/-- `AVehicleSystemBase::DetermineLocalRestState`; the step is `TickDeltaTime` and the speed
is the size of the chassis linear velocity. -/
def DetermineLocalRestState (s : AVehicleSystemBase) : AVehicleSystemBase :=
  let WithinRestThreshold := s.VehicleMesh.velocity.SizeLE s.RestVelocityThreshold
  if WithinRestThreshold then
    if !s.LocalVehicleAtRest then
      let RestTimer := s.RestTimer + s.TickDeltaTime
      if RestTimer ≥ 3 then { s with RestTimer := RestTimer, LocalVehicleAtRest := true }
      else { s with RestTimer := RestTimer }
    else { s with RestTimer := 0 }
  else { s with RestTimer := 0, LocalVehicleAtRest := false }

/-! ## Physics tick (VehicleSystemBase.cpp, `AVS_PhysicsTick`) -/

namespace FVector

/-- `FVector::DotProduct`. -/
def DotProduct (a b : FVector) : ℚ := a.X * b.X + a.Y * b.Y + a.Z * b.Z

/-- The negation `-V`. -/
def neg (v : FVector) : FVector := ⟨-v.X, -v.Y, -v.Z⟩

end FVector

namespace FMath

/-- `FMath::Lerp(A, B, Alpha)`: `A + Alpha * (B - A)`. -/
def Lerp (A B Alpha : ℚ) : ℚ := A + Alpha * (B - A)

/-- `FMath::GetMappedRangeValueClamped(InputRange, OutputRange, Value)`: the fraction of
`Value` within the input range, clamped to [0, 1], mapped linearly onto the output range. -/
def GetMappedRangeValueClamped (InputRange OutputRange : FVector2D) (Value : ℚ) : ℚ :=
  Lerp OutputRange.X OutputRange.Y
    (Clamp ((Value - InputRange.X) / (InputRange.Y - InputRange.X)) 0 1)

end FMath

/-- What the engine reports for one wheel in one step: the ray query result `Trace` and the
quantities the tick derives from it through engine transform algebra, normalisation and
trigonometry. Vectors named `Local` are in wheel space; those ending in `M` are in metres
per second after projection onto the contact plane. `ASin` is
`FMath::Asin(DotProduct(RightOnPlane, LinearVelocityOnPlaneNormalized))` and
`PhysWheelLocation` the location of the wheel's own rigid body (physics mode). -/
structure FWheelQuery where
  Trace : FHitResult
  WheelWorldLocation : FVector
  WheelWorldRight : FVector
  WheelWorldUp : FVector
  WheelVelocityLocal : FVector
  WheelVelocityLocalM : FVector
  WheelVelocity : ℚ
  ForwardOnPlane : FVector
  RightOnPlane : FVector
  ASin : ℚ
  PhysWheelLocation : FVector
  PhysWheelDist : ℚ

/-- The world as the physics tick sees it: gravity, the conversion constant `180 / PI`, the
engine's square root, and the per-wheel query for wheel index and configuration. -/
structure FPhysicsWorld where
  GravityZ : ℚ
  RadToDegree : ℚ
  Sqrt : ℚ → ℚ
  Query : Nat → FAVS1_Wheel_Config → FWheelQuery

/-- `Length`: the spring length the ray hit leaves, before clamping. -/
def SpringLengthRaw (WheelConfig : FAVS1_Wheel_Config) (Trace : FHitResult) : ℚ :=
  Trace.Distance - WheelConfig.WheelRadius * 2

/-- `NewSpringLength` of the ground contact branch. -/
def NewSpringLength (WheelConfig : FAVS1_Wheel_Config) (Trace : FHitResult) : ℚ :=
  FMath.Clamp (SpringLengthRaw WheelConfig Trace) 0 WheelConfig.SpringLength

/-- `SpringForceN`, after the excess compression adjustment. -/
def SpringForceN (W : FPhysicsWorld) (VehicleMass : ℚ) (WheelConfig : FAVS1_Wheel_Config)
    (Trace : FHitResult) : ℚ :=
  let SpringStrengthNm := WheelConfig.SpringStrength * 1000
  let CompressionDistanceM :=
    (WheelConfig.SpringLength - NewSpringLength WheelConfig Trace) * (1 / 100)
  let SpringForceN := SpringStrengthNm * CompressionDistanceM
  if SpringLengthRaw WheelConfig Trace < -1 then
    let Gravity := -W.GravityZ
    let AntiGravityN := (Gravity * VehicleMass) * (1 / 100)
    SpringForceN + AntiGravityN
  else SpringForceN

/-- `DamperForceN`, after the excess compression adjustment. -/
def DamperForceN (WheelConfig : FAVS1_Wheel_Config) (Q : FWheelQuery) : ℚ :=
  let ShockAbsorption := WheelConfig.SpringDamping * 1000
  let CompressionVelocityM := Q.WheelVelocityLocal.Z * (-(1 / 100))
  let DamperForceN := ShockAbsorption * CompressionVelocityM
  if SpringLengthRaw WheelConfig Q.Trace < -1 then DamperForceN * 2 else DamperForceN

/-- `ImpactTilt`: 1 when the wheel is upright on the contact plane, 0 when it lies sideways. -/
def ImpactTilt (Q : FWheelQuery) : ℚ :=
  1 - FMath.Abs (FVector.DotProduct Q.Trace.ImpactNormal Q.WheelWorldRight)

/-- `TiltFalloff` as a function of the tilt. -/
def TiltFalloff (Tilt : ℚ) : ℚ :=
  let TiltFalloffStart : ℚ := 1 / 2
  let TiltFalloffEnd : ℚ := 1 / 10
  FMath.Clamp ((Tilt - TiltFalloffEnd) / (TiltFalloffStart - TiltFalloffEnd)) 0 1

/-- `SuspensionForceN`, the suspension force in newtons. -/
def SuspensionForceN (W : FPhysicsWorld) (VehicleMass : ℚ) (WheelConfig : FAVS1_Wheel_Config)
    (Q : FWheelQuery) : ℚ :=
  (SpringForceN W VehicleMass WheelConfig Q.Trace + DamperForceN WheelConfig Q)
    * TiltFalloff (ImpactTilt Q)

/-- `SuspensionForceV`, the suspension force vector in centinewtons. -/
def SuspensionForceV (W : FPhysicsWorld) (VehicleMass : ℚ) (WheelConfig : FAVS1_Wheel_Config)
    (Q : FWheelQuery) : FVector :=
  (Q.Trace.ImpactNormal.scale (SuspensionForceN W VehicleMass WheelConfig Q)).scale 100

/-- `EffectiveFriction`: tire friction times surface friction. -/
def EffectiveFriction (WheelConfig : FAVS1_Wheel_Config) (Trace : FHitResult) : FVector2D :=
  let SurfaceFriction : ℚ :=
    match Trace.PhysMaterialFriction with
    | some f => f
    | none => 1
  ⟨WheelConfig.TireFriction.X * SurfaceFriction, WheelConfig.TireFriction.Y * SurfaceFriction⟩

/-- The wheel locking test `(Handbrake && IsHandbrakeWheel) || isLocked`. -/
def WheelLocking (Inputs : FAVS_Inputs) (WheelConfig : FAVS1_Wheel_Config) : Bool :=
  (Inputs.Handbrake && WheelConfig.IsHandbrakeWheel) || WheelConfig.isLocked

/-- `RollingAngVel`. -/
def RollingAngVel (WheelConfig : FAVS1_Wheel_Config) (Q : FWheelQuery) : ℚ :=
  Q.WheelVelocityLocal.X / WheelConfig.WheelRadius

/-- `MaxFrictionTorque`, the divisor of the longitudinal slip target. -/
def MaxFrictionTorque (W : FPhysicsWorld) (VehicleMass : ℚ) (WheelConfig : FAVS1_Wheel_Config)
    (Q : FWheelQuery) : ℚ :=
  SuspensionForceN W VehicleMass WheelConfig Q * (WheelConfig.WheelRadius * (1 / 100))
    * (EffectiveFriction WheelConfig Q.Trace).X

/-- `XBrakeTorque` of an unlocked wheel, whose stored angular velocity is `RollingAngVel`. -/
def XBrakeTorque (Inputs : FAVS_Inputs) (WheelConfig : FAVS1_Wheel_Config) (Q : FWheelQuery) :
    ℚ :=
  let BrakeInput0 : ℚ := if WheelConfig.IsBrakingWheel then Inputs.Brake else 0
  let BrakeInput := FMath.Clamp BrakeInput0 WheelConfig.RollingResistance 1
  FMath.Sign (RollingAngVel WheelConfig Q * (-1)) * WheelConfig.BrakeTorque * BrakeInput

/-- `XDriveTorqueNm` of an unlocked wheel. -/
def XDriveTorqueNm (ChaosDelta : ℚ) (Inputs : FAVS_Inputs) (WheelConfig : FAVS1_Wheel_Config)
    (Q : FWheelQuery) : ℚ :=
  if decide (Inputs.Torque > 0) && WheelConfig.IsDrivingWheel then
    let InputTorque : ℚ :=
      if xor WheelConfig.InvertTorque Inputs.ReverseTorque then Inputs.Torque * (-1)
      else Inputs.Torque
    let NewAngVel :=
      RollingAngVel WheelConfig Q + ((InputTorque * 100) / WheelConfig.Inertia * ChaosDelta)
    (NewAngVel - RollingAngVel WheelConfig Q) / ChaosDelta * WheelConfig.Inertia
  else 0

/-- `XSlipTarget`. -/
def XSlipTarget (W : FPhysicsWorld) (ChaosDelta VehicleMass : ℚ) (Inputs : FAVS_Inputs)
    (WheelConfig : FAVS1_Wheel_Config) (Q : FWheelQuery) : ℚ :=
  if WheelLocking Inputs WheelConfig then FMath.Sign (-Q.WheelVelocityLocalM.X)
  else
    let XFinalTorque := XBrakeTorque Inputs WheelConfig Q
      + XDriveTorqueNm ChaosDelta Inputs WheelConfig Q
    XFinalTorque / MaxFrictionTorque W VehicleMass WheelConfig Q

/-- `InterpSpeedLong`. -/
def InterpSpeedLong (ChaosDelta : ℚ) (Inputs : FAVS_Inputs) (Q : FWheelQuery) : ℚ :=
  let MinInterpSpeed := FMath.Clamp (Inputs.Throttle * (1 / 10)) (1 / 100) (1 / 10)
  FMath.Clamp (FMath.Abs Q.WheelVelocityLocalM.X / (10 / 1000) * ChaosDelta) MinInterpSpeed 1

/-- `YSlipTarget`. -/
def YSlipTarget (W : FPhysicsWorld) (Q : FWheelQuery) : ℚ :=
  let SlipAngle := -Q.ASin * W.RadToDegree
  let YSlipTargetHighSpeed := SlipAngle / 12
  let YSlipTargetLowSpeed := -FMath.Sign Q.WheelVelocityLocalM.Y
  let Alpha := FMath.GetMappedRangeValueClamped ⟨1, 2⟩ ⟨0, 1⟩ Q.WheelVelocity
  FMath.Lerp YSlipTargetLowSpeed YSlipTargetHighSpeed Alpha

/-- `InterpSpeedLat`. -/
def InterpSpeedLat (ChaosDelta : ℚ) (Q : FWheelQuery) : ℚ :=
  FMath.Clamp (FMath.Abs Q.WheelVelocityLocalM.Y / (7 / 1000) * ChaosDelta) 0 1

/-- The slip pair stored in `WheelState.Slip` by a ground contact step in raycast mode. -/
def StoredSlip (W : FPhysicsWorld) (ChaosDelta VehicleMass : ℚ) (Inputs : FAVS_Inputs)
    (WheelConfig : FAVS1_Wheel_Config) (Q : FWheelQuery) (WheelState : FAVS1_Wheel_State) :
    FVector2D :=
  let SlipX0 := WheelState.Slip.X
  let SlipX1 := SlipX0
    + (XSlipTarget W ChaosDelta VehicleMass Inputs WheelConfig Q - SlipX0)
      * InterpSpeedLong ChaosDelta Inputs Q
  let SlipX := FMath.Clamp SlipX1 (-30) 30
  let SlipY0 := WheelState.Slip.Y
  let SlipY := SlipY0 + (YSlipTarget W Q - SlipY0) * InterpSpeedLat ChaosDelta Q
  ⟨SlipX, SlipY⟩

/-- The slip used for the final force: normalised when longer than 1, then square-rooted in
its lateral component. -/
def ForceSlip (W : FPhysicsWorld) (Slip : FVector2D) : FVector2D :=
  let SlipLength := W.Sqrt (Slip.X * Slip.X + Slip.Y * Slip.Y)
  let Slip1 : FVector2D :=
    if SlipLength > 1 then ⟨Slip.X / SlipLength, Slip.Y / SlipLength⟩ else Slip
  ⟨Slip1.X, FMath.Sign Slip1.Y * W.Sqrt (FMath.Abs Slip1.Y)⟩

/-- `FrictionForceV`, the traction force vector in centinewtons. -/
def FrictionForceV (W : FPhysicsWorld) (VehicleMass : ℚ) (WheelConfig : FAVS1_Wheel_Config)
    (Q : FWheelQuery) (Slip : FVector2D) : FVector :=
  let Friction := EffectiveFriction WheelConfig Q.Trace
  let TractionForward := (Q.ForwardOnPlane.scale Slip.X).scale Friction.X
  let TractionRight := (Q.RightOnPlane.scale Slip.Y).scale Friction.Y
  ((TractionForward.add TractionRight).scale (SuspensionForceN W VehicleMass WheelConfig Q)).scale
    100

/-- What one pass of the wheel loop produces: the wheel state after it, the output record
added to `WheelOutputs`, and the forces recorded through `AddDebugForce`. -/
structure FWheelPass where
  WheelState : FAVS1_Wheel_State
  WheelOutput : FAVS1_Wheel_Output
  DebugForces : List FDebugForce

/-- The body of the wheel loop of `AVS_PhysicsTick` for one wheel. In physics mode with
ground contact the output is added before `AngularVelocity` is copied into it, so it keeps
the default 0. The ray query returns `Trace.bBlockingHit`. -/
def AVS_PhysicsTick.wheel (W : FPhysicsWorld) (ChaosDelta VehicleMass : ℚ)
    (Inputs : FAVS_Inputs) (WheelConfig : FAVS1_Wheel_Config) (Q : FWheelQuery)
    (WheelState : FAVS1_Wheel_State) : FWheelPass :=
  let Trace := Q.Trace
  let TraceHit := Trace.bBlockingHit
  if TraceHit then
    let WheelOutput : FAVS1_Wheel_Output :=
      { LastTrace := Trace, AngularVelocity := 0
        CurrentSpringLength := NewSpringLength WheelConfig Trace }
    let SuspensionForceV := SuspensionForceV W VehicleMass WheelConfig Q
    if WheelConfig.WheelMode = EWheelMode.Physics then
      { WheelState := WheelState
        WheelOutput := WheelOutput
        DebugForces := [⟨Trace.Location, SuspensionForceV, WheelConfig.WheelMode⟩] }
    else
      let AngularVelocity : ℚ :=
        if WheelLocking Inputs WheelConfig then 0 else RollingAngVel WheelConfig Q
      let Slip := StoredSlip W ChaosDelta VehicleMass Inputs WheelConfig Q WheelState
      let FinalWheelForce :=
        SuspensionForceV.add (FrictionForceV W VehicleMass WheelConfig Q (ForceSlip W Slip))
      { WheelState := { Slip := Slip, AngularVelocity := AngularVelocity }
        WheelOutput := { WheelOutput with AngularVelocity := AngularVelocity }
        DebugForces := [⟨Q.WheelWorldLocation, FinalWheelForce, WheelConfig.WheelMode⟩] }
  else
    let AngularVelocity : ℚ :=
      if (Inputs.Handbrake && WheelConfig.IsHandbrakeWheel)
          || (decide (Inputs.Brake > 0) && WheelConfig.IsBrakingWheel) then 0
      else WheelState.AngularVelocity
    let Forces : List FDebugForce :=
      if WheelConfig.WheelMode = EWheelMode.Physics then
        let NewSpringLength := FMath.Clamp Q.PhysWheelDist 0 WheelConfig.SpringLength
        if NewSpringLength < WheelConfig.SpringLength then
          let SpringStrengthNm := WheelConfig.SpringStrength * 1000
          let CompressionDistanceM := (WheelConfig.SpringLength - NewSpringLength) * (1 / 100)
          let SuspensionForceN := SpringStrengthNm * CompressionDistanceM
          let SuspensionForceV := (Q.WheelWorldUp.scale SuspensionForceN).scale 100
          [⟨Q.PhysWheelLocation, SuspensionForceV, WheelConfig.WheelMode⟩]
        else []
      else []
    { WheelState := { Slip := ⟨0, 0⟩, AngularVelocity := AngularVelocity }
      WheelOutput :=
        { LastTrace := Trace, AngularVelocity := AngularVelocity
          CurrentSpringLength := WheelConfig.SpringLength }
      DebugForces := Forces }

/-- `TArray::SetNum`: cut the array to `n` entries or pad it with default states. -/
def SetNum (WheelStates : List FAVS1_Wheel_State) (n : Nat) : List FAVS1_Wheel_State :=
  WheelStates.take n ++ List.replicate (n - WheelStates.length) FAVS1_Wheel_State.default

/-- The wheel loop of `AVS_PhysicsTick` from index `WIndex` on; the first argument lists the
configurations `Wheels[WIndex]`, `Wheels[WIndex + 1]`, ... still to visit. -/
def AVS_PhysicsTick.loop (W : FPhysicsWorld) (ChaosDelta : ℚ)
    (PhysicsInput : FVehiclePhysicsPhysicsInput) :
    List FAVS1_Wheel_Config → Nat → List FAVS1_Wheel_State × FVehiclePhysicsPhysicsOutput →
      List FAVS1_Wheel_State × FVehiclePhysicsPhysicsOutput
  | [], _, acc => acc
  | WheelConfig :: more, WIndex, (WheelStates, PhysicsOutput) =>
    let pass := AVS_PhysicsTick.wheel W ChaosDelta PhysicsInput.VehicleMass
      PhysicsInput.VehicleInputs WheelConfig (W.Query WIndex WheelConfig)
      (WheelStates.getD WIndex FAVS1_Wheel_State.default)
    AVS_PhysicsTick.loop W ChaosDelta PhysicsInput more (WIndex + 1)
      (WheelStates.set WIndex pass.WheelState,
       { PhysicsOutput with
         WheelOutputs := PhysicsOutput.WheelOutputs ++ [pass.WheelOutput]
         DebugForces := PhysicsOutput.DebugForces ++ pass.DebugForces })

/-- `AVehicleSystemBase::AVS_PhysicsTick`: the member `WheelStates` and the output record
are passed in and returned. -/
def AVS_PhysicsTick (W : FPhysicsWorld) (ChaosDelta : ℚ)
    (PhysicsInput : FVehiclePhysicsPhysicsInput) (WheelStates : List FAVS1_Wheel_State)
    (PhysicsOutput : FVehiclePhysicsPhysicsOutput) :
    List FAVS1_Wheel_State × FVehiclePhysicsPhysicsOutput :=
  if !PhysicsInput.WorldValid then (WheelStates, PhysicsOutput)
  else
    let Wheels := PhysicsInput.Wheels
    let WheelStates1 :=
      if WheelStates.length ≠ Wheels.length then SetNum WheelStates Wheels.length
      else WheelStates
    AVS_PhysicsTick.loop W ChaosDelta PhysicsInput Wheels 0 (WheelStates1, PhysicsOutput)

/-! ## Vehicle tick (VehicleSystemBase.cpp, `AlwaysTick`) -/

/-- The part of `AVehicleSystemBase::NetworkTick` that concerns the vehicle: a peer that is
not the owner runs `SyncPhysics` when movement is replicated and syncing is on. The camera
manager update touches no vehicle member. -/
def NetworkTick (E : Engine) (role : NetworkRoles) (now netNow : ℚ) (s : AVehicleSystemBase) :
    AVehicleSystemBase :=
  if role ≠ NetworkRoles.Owner then
    if s.ReplicateMovement && s.ShouldSyncWithServer then SyncPhysics E now netNow s else s
  else s

/-- The test that puts a wheel into `SimulatedWheels`. -/
def IsSimulatedWheel (Wheel : UVehicleWheelBase) : Bool :=
  Wheel.IsValid && (Wheel.isAttached && Wheel.SimulateSuspension)

/-- `SimulatedWheels`: the wheels of `VehicleWheels` that pass the test, in order. A wheel
pointer is the wheel's position in `VehicleWheels`. -/
def SimulatedWheels (VehicleWheels : List UVehicleWheelBase) : List Nat :=
  (List.range VehicleWheels.length).filter fun i =>
    match VehicleWheels[i]? with
    | some Wheel => IsSimulatedWheel Wheel
    | none => false

/-- The wheel configurations `AlwaysTick` hands to the physics thread. -/
def SimulatedWheelConfigs (VehicleWheels : List UVehicleWheelBase) :
    List FAVS1_Wheel_Config :=
  (VehicleWheels.filter IsSimulatedWheel).map UVehicleWheelBase.WheelConfig

/-- The `while` loop over `PopOutputData_External`: `WheelOutputs` ends up as the wheel
outputs of the last output popped, and stays empty when none was available. -/
def LatestWheelOutputs : List FVehiclePhysicsPhysicsOutput → List FAVS1_Wheel_Output
  | [] => []
  | [PhysicsOutput] => PhysicsOutput.WheelOutputs
  | _ :: more => LatestWheelOutputs more

/-- The assignment `Wheel->WheelData = Output` through the pointer `Wheel`. -/
def SetWheelData (VehicleWheels : List UVehicleWheelBase) (Wheel : Nat)
    (Output : FAVS1_Wheel_Output) : List UVehicleWheelBase :=
  match VehicleWheels[Wheel]? with
  | some w => VehicleWheels.set Wheel { w with WheelData := Output }
  | none => VehicleWheels

/-- The loop over the wheel outputs, `SimulatedWheels[Index]->WheelData =
WheelOutputs[Index]`, walking both arrays from the front; it stops where either ends. -/
def AssignWheelOutputs : List Nat → List FAVS1_Wheel_Output → List UVehicleWheelBase →
    List UVehicleWheelBase
  | Wheel :: Simulated, Output :: WheelOutputs, VehicleWheels =>
    AssignWheelOutputs Simulated WheelOutputs (SetWheelData VehicleWheels Wheel Output)
  | _, _, VehicleWheels => VehicleWheels

/-- `AVehicleSystemBase::AlwaysTick`, for the vehicle members in the embedding.
`IsSimulatingPhysics` is `VehicleMesh->IsSimulatingPhysics()`, `CallbackRegistered` is
`IsPhysicsCallbackRegistered()` and `Popped` lists the outputs returned by
`PopOutputData_External`, oldest first. -/
def AlwaysTick (E : Engine) (role : NetworkRoles) (now netNow : ℚ)
    (IsSimulatingPhysics CallbackRegistered : Bool)
    (Popped : List FVehiclePhysicsPhysicsOutput) (s : AVehicleSystemBase) :
    AVehicleSystemBase :=
  let s1 := NetworkTick E role now netNow s
  if IsSimulatingPhysics then
    if !CallbackRegistered then s1
    else
      let Simulated := SimulatedWheels s1.VehicleWheels
      let WheelOutputs := LatestWheelOutputs Popped
      if WheelOutputs.length ≠ Simulated.length then s1
      else { s1 with VehicleWheels := AssignWheelOutputs Simulated WheelOutputs s1.VehicleWheels }
  else s1

/-! ## Wheel configuration (VehicleWheelBase.h, VehicleWheelBase.cpp, VehicleSystemFunctions.cpp) -/

/-- `UVehicleSystemFunctions::GetMeshRadius` with the default bone name; `none` is a target
that is not valid. -/
def GetMeshRadius (target : Option UPrimitiveComponent) : ℚ :=
  match target with
  | some c =>
    match c.Class with
    | EComponentClass.StaticMesh => c.BoxExtentZ * c.ComponentScaleZ
    | EComponentClass.Sphere => c.BoxExtentZ * c.ComponentScaleZ
    | EComponentClass.Shape => c.BoxExtentZ * c.ComponentScaleZ
    | EComponentClass.Other =>
      match c.BodyBoundsExtentZ with
      | some z => z
      | none => 0
  | none => 0

/-- The wheel as the constructor `UVehicleWheelBase()` and the member initialisers leave it:
no mesh component, the default configuration, a blank output. -/
def UVehicleWheelBase.init : UVehicleWheelBase where
  IsValid := true
  isAttached := false
  SimulateSuspension := true
  WheelConfig := FAVS1_Wheel_Config.default
  WheelData := ⟨⟨false, 0, ⟨0, 0, 0⟩, ⟨0, 0, 0⟩, ⟨0, 0, 0⟩, none⟩, 0, 0⟩
  WheelMeshComponent := none

/-- `UVehicleWheelBase::UpdateWheelRadius`. -/
def UpdateWheelRadius (Wheel : UVehicleWheelBase) : UVehicleWheelBase :=
  match Wheel.WheelMeshComponent with
  | none => Wheel
  | some Mesh =>
    if Wheel.WheelConfig.AutoWheelRadius then
      if Mesh.Class = EComponentClass.Sphere then Wheel
      else
        let WheelRadius := GetMeshRadius Wheel.WheelMeshComponent
        { Wheel with WheelConfig :=
            { Wheel.WheelConfig with
              WheelRadius := if WheelRadius ≤ 0 then 30 else WheelRadius } }
    else Wheel

/-- `UVehicleWheelBase::BeginPlay`; the transform cache is not part of the embedding. -/
def UVehicleWheelBase.BeginPlay (Wheel : UVehicleWheelBase) : UVehicleWheelBase :=
  UpdateWheelRadius { Wheel with WheelConfig := Wheel.WheelConfig.CalculateConstants }

/-- `UVehicleWheelBase::SetRaycastWheelMass`. -/
def SetRaycastWheelMass (Wheel : UVehicleWheelBase) (NewMass : ℚ) : UVehicleWheelBase :=
  { Wheel with WheelConfig :=
      FAVS1_Wheel_Config.CalculateConstants { Wheel.WheelConfig with WheelMass := NewMass } }

/-- `UVehicleWheelBase::SetWheelMeshComponent`; the copy of the pointer in
`WheelConfig.WheelPrim` is not part of the embedding. -/
def SetWheelMeshComponent (Wheel : UVehicleWheelBase) (NewComponent : Option UPrimitiveComponent) :
    UVehicleWheelBase :=
  UpdateWheelRadius { Wheel with WheelMeshComponent := NewComponent }

/-- The derived constants agree with the current mass and radius. -/
def ConstantsCurrent (c : FAVS1_Wheel_Config) : Prop :=
  c.WheelRadiusM = c.WheelRadius * (1 / 100) ∧
    c.Inertia = 1 / 2 * c.WheelMass * c.WheelRadiusM * c.WheelRadiusM

/-! ## Sending network state (VehicleSystemBase.cpp, `NetStateSend`) -/

/-- A remote procedure call issued by the owner: `Server_ReceiveNetState` carries a movement
snapshot, `Server_ReceiveRestState` a rest snapshot. -/
inductive FNetMessage where
  | Server_ReceiveNetState (State : FNetState)
  | Server_ReceiveRestState (State : FNetState)
deriving DecidableEq

/-- `AVehicleSystemBase::OnRep_RestState`. -/
def OnRep_RestState (s : AVehicleSystemBase) : AVehicleSystemBase :=
  { s with NetworkAtRest := decide (s.RestState.position ≠ FVector.ZeroVector) }

/-- `AVehicleSystemBase::Server_ReceiveRestState_Implementation`; `HasAuthority` is
`GetLocalRole() == ROLE_Authority`. -/
def Server_ReceiveRestState_Implementation (HasAuthority : Bool) (s : AVehicleSystemBase)
    (State : FNetState) : AVehicleSystemBase :=
  let s1 : AVehicleSystemBase := { s with RestState := State }
  if HasAuthority then OnRep_RestState s1 else s1

/-- The calls `NetStateSend` issues on the owning peer, in order. `role` is
`GetNetworkRole()`, `netNow` is `GetNetworkWorldTime()`, and the rigid body of the chassis is
awake when `VehicleMesh.awake` holds. -/
def NetStateSend.calls (role : NetworkRoles) (netNow : ℚ) (s : AVehicleSystemBase) :
    List FNetMessage :=
  if role = NetworkRoles.Owner then
    let NewState := CreateNetStateForNow netNow s
    if !s.LocalVehicleAtRest then
      FNetMessage.Server_ReceiveNetState NewState ::
        (if s.NetworkAtRest then [FNetMessage.Server_ReceiveRestState FNetState.default]
         else [])
    else
      let DistanceThreshold : ℚ := if s.VehicleMesh.awake then 50 else 1 / 2
      let MoveDistance := FastDist s.RestState.position NewState.position
      if !s.NetworkAtRest || decide (MoveDistance > DistanceThreshold) then
        [FNetMessage.Server_ReceiveRestState NewState]
      else []
  else []

/-- `AVehicleSystemBase::NetStateSend` on a peer where the calls leave for the server: the
vehicle state afterwards and the calls issued. The owner clears its queue. -/
def NetStateSend (role : NetworkRoles) (netNow : ℚ) (s : AVehicleSystemBase) :
    AVehicleSystemBase × List FNetMessage :=
  if role = NetworkRoles.Owner then
    (if s.StateQueue.length > 0 then ClearQueue s else s, NetStateSend.calls role netNow s)
  else (s, [])

/-- `lerpPercent` of `SyncPhysics`: the clamped fraction of the window from
`LerpStartState.NetTimestamp` to `NextState.LocalTimestamp` that `CurrentTime` has covered. -/
def SyncPhysics.lerpPercent (CurrentTime : ℚ) (s : AVehicleSystemBase) (NextState : FNetState) :
    ℚ :=
  FMath.Clamp
    (GetPercentBetweenValues CurrentTime s.LerpStartState.NetTimestamp NextState.LocalTimestamp)
    0 1

/-- The state `SyncPhysics` works on after capturing the start state: `LerpStartState` is
the chassis pose stamped with the network time, and `CreateNewStartState` is cleared. -/
def SyncPhysics.capture (netNow : ℚ) (s : AVehicleSystemBase) : AVehicleSystemBase :=
  { s with LerpStartState := CreateNetStateForNow netNow s, CreateNewStartState := false }

/-- Successive entries carry local timestamps that differ by as much as their net
timestamps. -/
def LocalChained (a b : FNetState) : Prop :=
  b.LocalTimestamp = a.LocalTimestamp + (b.NetTimestamp - a.NetTimestamp)

/-! ## Event sequences on the queue -/

/-- One event in the life of a vehicle's queue: the three queue operations, and a change of
everything around the queue (configuration, chassis, rest state, timers) to the values in
`env`, which keeps the four members private to the queue code. -/
inductive QueueOp where
  | add (role : NetworkRoles) (now : ℚ) (StateToAdd : FNetState)
  | sync (E : Engine) (now netNow : ℚ)
  | clear
  | environment (env : AVehicleSystemBase)

/-- The effect of one event. -/
def QueueOp.apply (s : AVehicleSystemBase) : QueueOp → AVehicleSystemBase
  | QueueOp.add role now x => AddStateToQueue role now s x
  | QueueOp.sync E now netNow => SyncPhysics E now netNow s
  | QueueOp.clear => ClearQueue s
  | QueueOp.environment env =>
    { env with
      StateQueue := s.StateQueue
      LerpStartState := s.LerpStartState
      CreateNewStartState := s.CreateNewStartState
      LastActiveTimestamp := s.LastActiveTimestamp }

/-- The state after a sequence of events, oldest first. -/
def runQueue (s : AVehicleSystemBase) (ops : List QueueOp) : AVehicleSystemBase :=
  ops.foldl QueueOp.apply s

/-- The queue is in non-decreasing `NetTimestamp` order. -/
def TimestampOrdered (q : List FNetState) : Prop :=
  (q.map FNetState.NetTimestamp).Pairwise (· ≤ ·)

/-- A snapshot as the owner sends it: only the timestamp and the position differ from the
default. -/
def snapshotAt (t : ℚ) (p : FVector) : FNetState :=
  { FNetState.default with NetTimestamp := t, position := p }

/-- A chassis at rest at position `p`, asleep. -/
def chassisAt (p : FVector) : Chassis :=
  ⟨p, FRotator.ZeroRotator, FVector.ZeroVector, FVector.ZeroVector, false⟩

/-- `FVector::DistSquared`: the square of the straight-line distance. -/
def FVector.DistSquared (A B : FVector) : ℚ := (A.sub B).SizeSquared

/-- One `TickActor` rest update: the engine supplies the frame step `DeltaTime`, stored in
`TickDeltaTime`, and the current chassis velocity; then `DetermineLocalRestState` runs. -/
def restTick (s : AVehicleSystemBase) (DeltaTime : ℚ) (v : FVector) : AVehicleSystemBase :=
  DetermineLocalRestState
    { s with TickDeltaTime := DeltaTime, VehicleMesh := { s.VehicleMesh with velocity := v } }

/-- Successive rest updates with the same step `dt`, one per chassis velocity in `vs`. -/
def restTicks (s : AVehicleSystemBase) (dt : ℚ) (vs : List FVector) : AVehicleSystemBase :=
  vs.foldl (fun st v => restTick st dt v) s

/-! ## Concrete scenarios -/

/-- A freshly constructed receiver whose chassis sleeps at the world origin. -/
def receiver0 : AVehicleSystemBase := AVehicleSystemBase.init (chassisAt FVector.ZeroVector)

/-- Twelve snapshots with timestamps 1, 2, ..., 12 arriving in one burst on a client. -/
def burst : List QueueOp :=
  (List.range 12).map fun i =>
    QueueOp.add NetworkRoles.Client 5 (snapshotAt ((i : ℚ) + 1) FVector.ZeroVector)

/-- Snapshots with timestamps 1.0, 1.2, 1.1 arriving in that order on a client. -/
def roundTrip : List QueueOp :=
  [QueueOp.add NetworkRoles.Client 5 (snapshotAt 1 FVector.ZeroVector),
   QueueOp.add NetworkRoles.Client 5 (snapshotAt (12 / 10) FVector.ZeroVector),
   QueueOp.add NetworkRoles.Client 5 (snapshotAt (11 / 10) FVector.ZeroVector)]

/-- A receiver that has already consumed a snapshot with timestamp 2. -/
def consumedUpTo2 : AVehicleSystemBase := { receiver0 with LastActiveTimestamp := 2 }

/-- A client that has received the snapshot with timestamp 1.2 and nothing else. -/
def holding12 : AVehicleSystemBase :=
  AddStateToQueue NetworkRoles.Client 5 receiver0 (snapshotAt (12 / 10) FVector.ZeroVector)

/-- A target 2000 cm from the origin along each axis, about 3464 cm in a straight line. -/
def farTarget : FVector := ⟨2000, 2000, 2000⟩

/-- Forty chassis velocities of 1 cm/s along X, one per tick. -/
def slowTicks : List FVector := List.replicate 40 ⟨1, 0, 0⟩

/-- The snapshot of the creeping scenario: timestamp 1, position 0.12 cm along X. -/
def creepSnapshot : FNetState := snapshotAt 1 ⟨12 / 100, 0, 0⟩

/-- A fresh client, chassis asleep at the origin, that received `creepSnapshot` at local
time 5 and ran `SyncPhysics` once at local time 5 (server time 1): the start state is
captured and it is interpolating toward the head, whose local timestamp is 5.15. -/
def creeping : AVehicleSystemBase :=
  runQueue receiver0
    [QueueOp.add NetworkRoles.Client 5 creepSnapshot, QueueOp.sync linearEngine 5 1]

/-- The queue head of the creeping scenario: `creepSnapshot` shifted by `NetTimeBehind`,
with the local timestamp it was given on arrival. -/
def creepHead : FNetState := { creepSnapshot with NetTimestamp := 23 / 20, LocalTimestamp := 103 / 20 }

/-- A ray hit straight below an upright wheel at distance `d`, on a surface without a
physical material; the chassis does not move. -/
def levelHit (d : ℚ) : FWheelQuery where
  Trace := ⟨true, d, ⟨0, 0, 0⟩, ⟨0, 0, 0⟩, ⟨0, 0, 1⟩, none⟩
  WheelWorldLocation := ⟨0, 0, 0⟩
  WheelWorldRight := ⟨0, 1, 0⟩
  WheelWorldUp := ⟨0, 0, 1⟩
  WheelVelocityLocal := ⟨0, 0, 0⟩
  WheelVelocityLocalM := ⟨0, 0, 0⟩
  WheelVelocity := 0
  ForwardOnPlane := ⟨1, 0, 0⟩
  RightOnPlane := ⟨0, 1, 0⟩
  ASin := 0
  PhysWheelLocation := ⟨0, 0, 0⟩
  PhysWheelDist := 0

/-- A world with earth gravity in which every wheel gets the level hit at distance 75. The
identity stands in for the square root, which a wheel starting from zero slip takes only of
0 there. -/
def levelWorld : FPhysicsWorld where
  GravityZ := -980
  RadToDegree := 57
  Sqrt := fun x => x
  Query := fun _ _ => levelHit 75

/-- The inputs with everything released. -/
def zeroInputs : FAVS_Inputs := ⟨0, 0, 0, false, 0, false⟩

/-- A physics input with a valid world, a 1500 kg chassis, no input and two wheels with the
default configuration, the first in raycast mode and the second in physics mode. -/
def twoWheels : FVehiclePhysicsPhysicsInput where
  WorldValid := true
  VehicleMass := 1500
  VehicleInputs := zeroInputs
  Wheels := [FAVS1_Wheel_Config.default,
    { FAVS1_Wheel_Config.default with WheelMode := EWheelMode.Physics }]

/-- A wheel that is valid and attached, simulating its suspension when `simulated` holds,
with the default configuration and a blank output. -/
def wheelWith (simulated : Bool) : UVehicleWheelBase where
  IsValid := true
  isAttached := true
  SimulateSuspension := simulated
  WheelConfig := FAVS1_Wheel_Config.default
  WheelData := ⟨⟨false, 0, ⟨0, 0, 0⟩, ⟨0, 0, 0⟩, ⟨0, 0, 0⟩, none⟩, 0, 0⟩
  WheelMeshComponent := none

/-- An owner's vehicle with three wheels, the middle one not simulating its suspension. -/
def threeWheeler : AVehicleSystemBase :=
  { receiver0 with VehicleWheels := [wheelWith true, wheelWith false, wheelWith true] }

/-- A wheel output with the given angular velocity and spring length 20. -/
def outputWith (AngularVelocity : ℚ) : FAVS1_Wheel_Output :=
  ⟨⟨true, 70, ⟨0, 0, 0⟩, ⟨0, 0, 0⟩, ⟨0, 0, 1⟩, none⟩, AngularVelocity, 20⟩

/-- A ray hit at distance 75 on a steep bank beside an upright wheel: the unit contact normal
(0, 12/13, 5/13) leans 67 degrees toward the wheel's right axis. The chassis rolls forward
along the bank at 1 m/s. -/
def bankHit : FWheelQuery :=
  { levelHit 75 with
    Trace := ⟨true, 75, ⟨0, 0, 0⟩, ⟨0, 0, 0⟩, ⟨0, 12 / 13, 5 / 13⟩, none⟩
    WheelVelocityLocal := ⟨100, 0, 0⟩
    WheelVelocityLocalM := ⟨1, 0, 0⟩
    WheelVelocity := 1 }

/-- A static mesh component whose bounds give a radius of 40 cm. -/
def mesh40 : UPrimitiveComponent := ⟨EComponentClass.StaticMesh, 40, 1, none⟩

/-- A freshly constructed wheel with the radius entered by hand as 0: `AutoWheelRadius` is
switched off. -/
def manualZeroRadius : UVehicleWheelBase :=
  { UVehicleWheelBase.init with
    WheelConfig :=
      { FAVS1_Wheel_Config.default with AutoWheelRadius := false, WheelRadius := 0 } }

/-- A static mesh component whose bounds have no height. -/
def flatMesh : UPrimitiveComponent := ⟨EComponentClass.StaticMesh, 0, 1, none⟩

/-- An owner at local rest whose network rest flag is not set yet and whose chassis sleeps
at the origin, the position of its last rest snapshot. -/
def restingOwner : AVehicleSystemBase := { receiver0 with LocalVehicleAtRest := true }

/-- An owner at local and network rest, asleep at (0.3, 0, 0), whose last rest snapshot was
taken at the origin. -/
def settledOwner : AVehicleSystemBase :=
  { receiver0 with
    LocalVehicleAtRest := true
    NetworkAtRest := true
    VehicleMesh := chassisAt ⟨3 / 10, 0, 0⟩ }

/-- A fresh client, chassis asleep at the origin, that received at local time 5 a snapshot
with timestamp 1 taken at the origin, where the chassis already is. -/
def idleReceiver : AVehicleSystemBase :=
  AddStateToQueue NetworkRoles.Client 5 receiver0 (snapshotAt 1 FVector.ZeroVector)

/-- The snapshot of the late joiner scenario: server time 100, position 100 cm along X. -/
def lateSnapshot : FNetState := snapshotAt 100 ⟨100, 0, 0⟩

/-- The queue head of the late joiner scenario, as stored on arrival at local time 5. -/
def lateHead : FNetState :=
  { lateSnapshot with NetTimestamp := 2003 / 20, LocalTimestamp := 103 / 20 }

/-- A fresh client whose world has run for 5 s while the server's has run for 100 s, chassis
asleep at the origin, holding `lateHead`. -/
def lateJoiner : AVehicleSystemBase := { receiver0 with StateQueue := [lateHead] }

/-- A ray query that found nothing under the wheel. -/
def missedQuery : FWheelQuery :=
  { levelHit 0 with Trace := ⟨false, 0, ⟨0, 0, 0⟩, ⟨0, 0, 0⟩, ⟨0, 0, 0⟩, none⟩ }

/-- A wheel state spinning at 12 rad/s with some slip left from the last contact. -/
def spinningState : FAVS1_Wheel_State := ⟨⟨1 / 2, -(1 / 4)⟩, 12⟩

/-- The inputs with the handbrake pulled and full throttle and torque. -/
def handbrakeInputs : FAVS_Inputs := ⟨0, 1, 0, true, 300, false⟩

/-- The default wheel configured as a driving handbrake wheel. -/
def rearWheel : FAVS1_Wheel_Config :=
  { FAVS1_Wheel_Config.default with IsDrivingWheel := true, IsHandbrakeWheel := true }

/-- A level hit at distance 75 while the contact point moves forward at 2 m/s. -/
def rollingHit : FWheelQuery :=
  { levelHit 75 with
    WheelVelocityLocal := ⟨200, 0, 0⟩
    WheelVelocityLocalM := ⟨2, 0, 0⟩
    WheelVelocity := 2 }

/-- The inputs with a torque of 300 applied and the brake and handbrake released. -/
def drivingInputs : FAVS_Inputs := ⟨0, 1, 0, false, 300, false⟩

/-! ## Chaos helpers (VehicleSystemFunctions.cpp) -/

/-- `FVector::CrossProduct`. -/
def FVector.CrossProduct (a b : FVector) : FVector :=
  ⟨a.Y * b.Z - a.Z * b.Y, a.Z * b.X - a.X * b.Z, a.X * b.Y - a.Y * b.X⟩

/-- What `AVS_ChaosGetVelocityAtLocation` reads from the physics thread handle of a body:
whether it can be treated as rigid, its centre of mass in world space, the translation of
its actor transform, and its linear and angular velocity `V()` and `W()`. -/
structure FRigidBodyHandle where
  CanTreatAsRigid : Bool
  CoMWorldPosition : FVector
  ActorWorldTranslation : FVector
  V : FVector
  W : FVector

/-- `UVehicleSystemFunctions::AVS_ChaosGetVelocityAtLocation`; `none` stands for a target
without body instance, actor handle or physics thread handle. -/
def AVS_ChaosGetVelocityAtLocation (RigidHandle : Option FRigidBodyHandle)
    (Location : FVector) : FVector :=
  match RigidHandle with
  | some h =>
    let COM := if h.CanTreatAsRigid then h.CoMWorldPosition else h.ActorWorldTranslation
    let Diff := Location.sub COM
    h.V.sub (FVector.CrossProduct Diff h.W)
  | none => FVector.ZeroVector

/-- A rigid body with centre of mass (100, 0, 50), moving at (300, 0, 0) and turning about
the vertical axis at 2 rad/s. -/
def turningBody : FRigidBodyHandle := ⟨true, ⟨100, 0, 50⟩, ⟨90, 0, 40⟩, ⟨300, 0, 0⟩, ⟨0, 0, 2⟩⟩

/-- A target 1500 cm from the origin along each axis, about 2598 cm in a straight line. -/
def diagonalTarget : FVector := ⟨1500, 1500, 1500⟩

/-- The invariant of the queue: it is in timestamp order and no queued entry is older than
`LastActiveTimestamp`. -/
def QueueInvariant (s : AVehicleSystemBase) : Prop :=
  TimestampOrdered s.StateQueue ∧
    ∀ e ∈ s.StateQueue, s.LastActiveTimestamp ≤ e.NetTimestamp

/-- One physics step as the solver delivers it: the world it sees, the step length and the
input record of the game thread. -/
structure FPhysicsStep where
  W : FPhysicsWorld
  ChaosDelta : ℚ
  PhysicsInput : FVehiclePhysicsPhysicsInput

/-- The member `WheelStates` after a sequence of physics steps, each called with a freshly
reset output record. -/
def physicsRun (WheelStates : List FAVS1_Wheel_State) (steps : List FPhysicsStep) :
    List FAVS1_Wheel_State :=
  steps.foldl (fun st k =>
    (AVS_PhysicsTick k.W k.ChaosDelta k.PhysicsInput st
      (FVehiclePhysicsPhysicsOutput.empty k.ChaosDelta)).1) WheelStates

/-- The bound on the stored slip pair: longitudinal within 30, lateral within 7.5. -/
def SlipBounded (st : FAVS1_Wheel_State) : Prop :=
  |st.Slip.X| ≤ 30 ∧ |st.Slip.Y| ≤ 15 / 2

/-- The slip angle in degrees is within a quarter turn, as it is for an arc sine in
[-PI/2, PI/2] converted with `180 / PI`. -/
def SlipAngleInRange (W : FPhysicsWorld) : Prop :=
  ∀ (i : Nat) (cfg : FAVS1_Wheel_Config), |(W.Query i cfg).ASin * W.RadToDegree| ≤ 90

/-- A world in which every wheel rolls forward at 2 m/s while sliding sideways at 1 m/s. -/
def slidingWorld : FPhysicsWorld where
  GravityZ := -980
  RadToDegree := 57
  Sqrt := fun x => x
  Query := fun _ _ => { rollingHit with ASin := 1, WheelVelocityLocalM := ⟨2, 1, 0⟩ }

/-- Two steps of 10 ms for the two-wheeled input: one sliding, one at rest. -/
def slideThenRest : List FPhysicsStep :=
  [⟨slidingWorld, 1 / 100, twoWheels⟩, ⟨levelWorld, 1 / 100, twoWheels⟩]

/-- The default wheel with its spring rate set to -25 N/mm; the property has no lower
bound. -/
def negativeSpring : FAVS1_Wheel_Config :=
  { FAVS1_Wheel_Config.default with SpringStrength := -25 }

/-- The level world with gravity pointing up. -/
def risingWorld : FPhysicsWorld := { levelWorld with GravityZ := 980 }

/-! ## Theorems -/

section frame

variable (E : Engine) (s : AVehicleSystemBase) (p : FVector) (r : FRotator) (w : Bool)

@[simp] theorem SetVehicleLocation_StateQueue :
    (SetVehicleLocation E s p r w).StateQueue = s.StateQueue := by
  unfold SetVehicleLocation
  simp only []
  split_ifs <;> rfl

@[simp] theorem SetVehicleLocation_LastActiveTimestamp :
    (SetVehicleLocation E s p r w).LastActiveTimestamp = s.LastActiveTimestamp := by
  unfold SetVehicleLocation
  simp only []
  split_ifs <;> rfl

@[simp] theorem SetVehicleLocation_CreateNewStartState :
    (SetVehicleLocation E s p r w).CreateNewStartState = s.CreateNewStartState := by
  unfold SetVehicleLocation
  simp only []
  split_ifs <;> rfl

@[simp] theorem SetVehicleLocation_LerpStartState :
    (SetVehicleLocation E s p r w).LerpStartState = s.LerpStartState := by
  unfold SetVehicleLocation
  simp only []
  split_ifs <;> rfl

@[simp] theorem ApplyExactNetState_StateQueue (x : FNetState) :
    (ApplyExactNetState E s x).StateQueue = s.StateQueue := by
  simp [ApplyExactNetState]

end frame

theorem CalculateTimestamps_chain_length (prev : FNetState) (q : List FNetState) :
    (CalculateTimestamps.chain prev q).length = q.length := by
  induction q generalizing prev with
  | nil => rfl
  | cons e rest ih => simp [CalculateTimestamps.chain, ih]

theorem CalculateTimestamps_length (q : List FNetState) :
    (CalculateTimestamps q).length = q.length := by
  cases q with
  | nil => rfl
  | cons h rest => simp [CalculateTimestamps, CalculateTimestamps_chain_length]

theorem insertIdx_length_le (x : FNetState) (q : List FNetState) (n : Nat) :
    (q.insertIdx n x).length ≤ q.length + 1 := by
  induction q generalizing n with
  | nil => cases n <;> simp [List.insertIdx]
  | cons h rest ih =>
    cases n with
    | zero => simp
    | succ n => simpa [List.insertIdx_succ_cons] using ih n

theorem scan_length_le (x : FNetState) (q : List FNetState) (n : Nat) :
    (AddStateToQueue.scan x q n).length ≤ q.length + 1 := by
  induction n with
  | zero => simp [AddStateToQueue.scan]
  | succ i ih =>
    unfold AddStateToQueue.scan
    split
    · split_ifs
      · rw [CalculateTimestamps_length]; exact insertIdx_length_le x q (i + 1)
      · exact ih
    · exact ih

theorem AddStateToQueue_length_le (role : NetworkRoles) (now : ℚ) (s : AVehicleSystemBase)
    (x : FNetState) (h : s.StateQueue.length ≤ 10) :
    (AddStateToQueue role now s x).StateQueue.length ≤ 10 := by
  simp only [AddStateToQueue]
  split_ifs with h1 h2 h3
  · exact h
  · split
    · have := scan_length_le { x with NetTimestamp := x.NetTimestamp + s.NetTimeBehind }
        s.StateQueue s.StateQueue.length
      simp only []
      omega
    · simp
  · exact h
  · exact h

theorem SyncPhysics_lerp_StateQueue (E : Engine) (now : ℚ) (s : AVehicleSystemBase)
    (x : FNetState) (rest : List FNetState) :
    (SyncPhysics.lerp E now s x rest).StateQueue = s.StateQueue ∨
      (SyncPhysics.lerp E now s x rest).StateQueue = rest := by
  simp only [SyncPhysics.lerp]
  split_ifs
  · right; rfl
  · left; simp

theorem SyncPhysics_head_StateQueue (E : Engine) (now netNow : ℚ) (s : AVehicleSystemBase)
    (x : FNetState) (rest : List FNetState) :
    (SyncPhysics.head E now netNow s x rest).StateQueue = s.StateQueue ∨
      (SyncPhysics.head E now netNow s x rest).StateQueue = rest := by
  simp only [SyncPhysics.head]
  split_ifs
  · right; rfl
  · exact SyncPhysics_lerp_StateQueue E now _ x rest
  · exact SyncPhysics_lerp_StateQueue E now s x rest
  · left; rfl

theorem SyncPhysics_cons (E : Engine) (now netNow : ℚ) (s : AVehicleSystemBase)
    (x : FNetState) (rest : List FNetState) (hr : s.NetworkAtRest = false)
    (hq : s.StateQueue = x :: rest) :
    SyncPhysics E now netNow s = SyncPhysics.head E now netNow s x rest := by
  unfold SyncPhysics
  rw [if_neg (by simp [hr])]
  split
  · rename_i h; rw [hq] at h; cases h
  · rename_i a b h; rw [hq] at h; cases h; rfl

theorem SyncPhysics_length_le (E : Engine) (now netNow : ℚ) (s : AVehicleSystemBase) :
    (SyncPhysics E now netNow s).StateQueue.length ≤ s.StateQueue.length := by
  cases hr : s.NetworkAtRest with
  | true =>
    unfold SyncPhysics
    rw [if_pos hr]
    simp only []
    split_ifs <;> simp [ClearQueue]
  | false =>
    cases hq : s.StateQueue with
    | nil =>
      unfold SyncPhysics
      rw [if_neg (by simp [hr])]
      split
      · simp_all
      · simp_all
    | cons x rest =>
      rw [SyncPhysics_cons E now netNow s x rest hr hq]
      rcases SyncPhysics_head_StateQueue E now netNow s x rest with h | h <;> simp [h, hq]

/-- The queue bound is an invariant of every event. -/
theorem QueueOp_apply_length_le (s : AVehicleSystemBase) (op : QueueOp)
    (h : s.StateQueue.length ≤ 10) : (op.apply s).StateQueue.length ≤ 10 := by
  cases op with
  | add role now x => exact AddStateToQueue_length_le role now s x h
  | sync E now netNow => exact le_trans (SyncPhysics_length_le E now netNow s) h
  | clear => simp [QueueOp.apply, ClearQueue]
  | environment env => simpa [QueueOp.apply] using h

theorem runQueue_length_le (ops : List QueueOp) (s : AVehicleSystemBase)
    (h : s.StateQueue.length ≤ 10) : (runQueue s ops).StateQueue.length ≤ 10 := by
  induction ops generalizing s with
  | nil => simpa [runQueue] using h
  | cons op ops ih =>
    simp only [runQueue, List.foldl_cons]
    exact ih (op.apply s) (QueueOp_apply_length_le s op h)

/-- C1: from an empty `StateQueue`, after any sequence of `AddStateToQueue`, `SyncPhysics`
and `ClearQueue` calls (any role, snapshots and clock readings, with arbitrary changes of the
surrounding state in between) the queue holds at most 10 entries. -/
theorem C1_queue_never_exceeds_ten (s : AVehicleSystemBase) (ops : List QueueOp)
    (hempty : s.StateQueue = []) : (runQueue s ops).StateQueue.length ≤ 10 :=
  runQueue_length_le ops s (by simp [hempty])

/-- C2: a snapshot whose adjusted timestamp `NetTimestamp + NetTimeBehind` is older than
`LastActiveTimestamp` is rejected without any effect: the whole vehicle state, hence
`StateQueue` with every entry and local timestamp, `LastActiveTimestamp`,
`CreateNewStartState` and `LerpStartState`, is unchanged, for every role. -/
theorem C2_stale_snapshot_rejected (role : NetworkRoles) (now : ℚ) (s : AVehicleSystemBase)
    (x : FNetState) (hstale : x.NetTimestamp + s.NetTimeBehind < s.LastActiveTimestamp) :
    AddStateToQueue role now s x = s := by
  simp only [AddStateToQueue]
  split_ifs <;> rfl

theorem CalculateTimestamps_chain_map (prev : FNetState) (q : List FNetState) :
    (CalculateTimestamps.chain prev q).map FNetState.NetTimestamp
      = q.map FNetState.NetTimestamp := by
  induction q generalizing prev with
  | nil => rfl
  | cons e rest ih => simp [CalculateTimestamps.chain, ih]

theorem CalculateTimestamps_map (q : List FNetState) :
    (CalculateTimestamps q).map FNetState.NetTimestamp = q.map FNetState.NetTimestamp := by
  cases q with
  | nil => rfl
  | cons h rest => simp [CalculateTimestamps, CalculateTimestamps_chain_map]

theorem insertIdx_eq_take_drop (x : FNetState) (q : List FNetState) (n : Nat)
    (hn : n ≤ q.length) : q.insertIdx n x = q.take n ++ x :: q.drop n := by
  induction q generalizing n with
  | nil =>
    have : n = 0 := by simpa using hn
    subst this
    simp
  | cons h rest ih =>
    cases n with
    | zero => simp
    | succ n =>
      have hn1 : n ≤ rest.length := by simpa using hn
      simp [List.insertIdx_succ_cons, ih n hn1]

/-- What the descending scan returns: either the queue as it was, or the queue with the new
snapshot inserted right behind the last entry that is strictly older, every scanned entry
behind that one being at least as new as the snapshot. -/
theorem scan_spec (x : FNetState) (q : List FNetState) (n : Nat) (hn : n ≤ q.length) :
    AddStateToQueue.scan x q n = q ∨
      ∃ i e, i < n ∧ q[i]? = some e ∧ e.NetTimestamp < x.NetTimestamp ∧
        (∀ b ∈ (q.take n).drop (i + 1), x.NetTimestamp ≤ b.NetTimestamp) ∧
        AddStateToQueue.scan x q n
          = CalculateTimestamps (q.take (i + 1) ++ x :: q.drop (i + 1)) := by
  induction n with
  | zero => left; rfl
  | succ k ih =>
    have hk : k < q.length := hn
    have hget : q[k]? = some q[k] := List.getElem?_eq_getElem hk
    unfold AddStateToQueue.scan
    rw [hget]
    simp only []
    split_ifs with hlt
    · right
      refine ⟨k, q[k], Nat.lt_succ_self k, hget, hlt, ?_, ?_⟩
      · intro b hb
        have : (List.take (k + 1) q).drop (k + 1) = [] := by
          apply List.drop_eq_nil_of_le
          simp
        simp [this] at hb
      · rw [insertIdx_eq_take_drop x q (k + 1) hn]
    · rcases ih (Nat.le_of_lt hk) with h | ⟨i, e, hi, hie, hlt2, hall, heq⟩
      · left; exact h
      · right
        refine ⟨i, e, Nat.lt_succ_of_lt hi, hie, hlt2, ?_, heq⟩
        intro b hb
        have htake : List.take (k + 1) q = List.take k q ++ [q[k]] := by
          rw [List.take_succ, hget]; rfl
        rw [htake, List.drop_append_of_le_length (by simp; omega)] at hb
        rcases List.mem_append.mp hb with hb | hb
        · exact hall b hb
        · have : b = q[k] := by simpa using hb
          subst this
          exact not_lt.mp hlt

theorem scan_ordered (x : FNetState) (q : List FNetState) (hq : TimestampOrdered q) :
    TimestampOrdered (AddStateToQueue.scan x q q.length) := by
  rcases scan_spec x q q.length le_rfl with h | ⟨i, e, hi, hie, hlt, hall, heq⟩
  · rw [h]; exact hq
  · rw [heq]
    unfold TimestampOrdered at hq ⊢
    rw [CalculateTimestamps_map, List.pairwise_map]
    rw [List.pairwise_map] at hq
    rw [List.take_length] at hall
    have hsplit : q = q.take (i + 1) ++ q.drop (i + 1) := (List.take_append_drop _ _).symm
    rw [hsplit, List.pairwise_append] at hq
    obtain ⟨hP1, hP2, hcross⟩ := hq
    have hmem : e ∈ q.take (i + 1) := by
      rw [List.mem_iff_getElem?]
      exact ⟨i, by rw [List.getElem?_take_of_lt (Nat.lt_succ_self i)]; exact hie⟩
    have hlast : ∀ a ∈ q.take (i + 1), a.NetTimestamp ≤ e.NetTimestamp := by
      intro a ha
      have htake : List.take (i + 1) q = List.take i q ++ [e] := by
        rw [List.take_succ, hie]; rfl
      rw [htake] at ha hP1
      rcases List.mem_append.mp ha with ha | ha
      · exact (List.pairwise_append.mp hP1).2.2 a ha e (by simp)
      · have : a = e := by simpa using ha
        rw [this]
    rw [List.pairwise_append]
    refine ⟨hP1, List.pairwise_cons.mpr ⟨hall, hP2⟩, ?_⟩
    intro a ha b hb
    rcases List.mem_cons.mp hb with hb | hb
    · rw [hb]; exact le_of_lt (lt_of_le_of_lt (hlast a ha) hlt)
    · exact hcross a ha b hb

/-- C3: `AddStateToQueue` keeps the queue in non-decreasing `NetTimestamp` order, for every
role, clock reading and snapshot. -/
theorem C3_insert_keeps_order (role : NetworkRoles) (now : ℚ) (s : AVehicleSystemBase)
    (x : FNetState) (hq : TimestampOrdered s.StateQueue) :
    TimestampOrdered (AddStateToQueue role now s x).StateQueue := by
  simp only [AddStateToQueue]
  split_ifs
  · exact hq
  · split
    · exact scan_ordered _ _ hq
    · simp [TimestampOrdered]
  · exact hq
  · exact hq

/-- C1, at a concrete input: a burst of twelve snapshots on a fresh receiver. -/
theorem C1_burst_witness :
    receiver0.StateQueue = [] ∧ (runQueue receiver0 burst).StateQueue.length ≤ 10 :=
  ⟨rfl, C1_queue_never_exceeds_ten receiver0 burst rfl⟩

/-- C2, at a concrete input: timestamp 1, adjusted to 1.15, arrives after 2 was consumed. -/
theorem C2_stale_witness :
    (snapshotAt 1 FVector.ZeroVector).NetTimestamp + consumedUpTo2.NetTimeBehind
        < consumedUpTo2.LastActiveTimestamp ∧
      AddStateToQueue NetworkRoles.Client 5 consumedUpTo2 (snapshotAt 1 FVector.ZeroVector)
        = consumedUpTo2 :=
  ⟨by norm_num [snapshotAt, FNetState.default, consumedUpTo2, receiver0, AVehicleSystemBase.init],
   C2_stale_snapshot_rejected NetworkRoles.Client 5 consumedUpTo2 (snapshotAt 1 FVector.ZeroVector)
    (by norm_num [snapshotAt, FNetState.default, consumedUpTo2, receiver0,
      AVehicleSystemBase.init])⟩

/-- C3, the round trip: on a fresh client, snapshots 1.0, 1.2, 1.1 in that order give exactly
three entries, ordered 1.0, 1.1, 1.2 after the shift by `NetTimeBehind = 0.15`; the order
after the third insertion is the one the theorem derives from the order before it. -/
theorem C3_round_trip_witness :
    (runQueue receiver0 roundTrip).StateQueue.map FNetState.NetTimestamp
        = [23 / 20, 5 / 4, 27 / 20] ∧
      TimestampOrdered
        (AddStateToQueue NetworkRoles.Client 5 (runQueue receiver0 (roundTrip.take 2))
          (snapshotAt (11 / 10) FVector.ZeroVector)).StateQueue := by
  constructor
  · simp [runQueue, roundTrip, receiver0, QueueOp.apply, AddStateToQueue,
      AVehicleSystemBase.init, snapshotAt, FNetState.default, AddStateToQueue.scan,
      CalculateTimestamps, CalculateTimestamps.chain]
    norm_num [List.insertIdx, List.modifyTailIdx, AddStateToQueue.scan, CalculateTimestamps,
      CalculateTimestamps.chain]
  · apply C3_insert_keeps_order
    simp [runQueue, roundTrip, receiver0, QueueOp.apply, AddStateToQueue,
      AVehicleSystemBase.init, snapshotAt, FNetState.default, AddStateToQueue.scan,
      CalculateTimestamps, CalculateTimestamps.chain, TimestampOrdered]
    norm_num [List.insertIdx, List.modifyTailIdx, AddStateToQueue.scan, CalculateTimestamps,
      CalculateTimestamps.chain]

theorem scan_all_newer (x : FNetState) (q : List FNetState) (n : Nat)
    (h : ∀ e ∈ q, x.NetTimestamp ≤ e.NetTimestamp) : AddStateToQueue.scan x q n = q := by
  induction n with
  | zero => rfl
  | succ i ih =>
    unfold AddStateToQueue.scan
    split
    · rename_i e he
      have hmem : e ∈ q := List.mem_iff_getElem?.mpr ⟨i, he⟩
      rw [if_neg (not_lt.mpr (h e hmem))]
      exact ih
    · exact ih

/-- On a non-owner peer with a non-empty queue of fewer than 10 entries, a snapshot that is
not stale but whose adjusted timestamp is not newer than any queued entry is dropped: the
descending scan finds no place for it and the whole state stays as it was. -/
theorem AddStateToQueue_drops_not_newer (role : NetworkRoles) (now : ℚ)
    (s : AVehicleSystemBase) (x : FNetState) (hrole : role ≠ NetworkRoles.Owner)
    (hroom : s.StateQueue.length < 10) (hne : s.StateQueue ≠ [])
    (hfresh : ¬ x.NetTimestamp + s.NetTimeBehind < s.LastActiveTimestamp)
    (hold : ∀ e ∈ s.StateQueue, x.NetTimestamp + s.NetTimeBehind ≤ e.NetTimestamp) :
    AddStateToQueue role now s x = s := by
  simp only [AddStateToQueue]
  rw [if_pos hrole, if_pos hroom, if_neg hfresh]
  split
  · rw [scan_all_newer _ _ _ (by simpa using hold)]
  · rename_i h; exact absurd h hne

/-- C4 at its failing input: a client holding only the snapshot 1.2 receives the snapshot
1.0, which is neither an overflow (one entry queued) nor stale (adjusted timestamp 1.15,
`LastActiveTimestamp` 0); the call leaves the state, and so the single-entry queue, as it
was instead of inserting the snapshot. -/
theorem C4_failing_input :
    holding12.StateQueue.length = 1 ∧
      ¬ ((snapshotAt 1 FVector.ZeroVector).NetTimestamp + holding12.NetTimeBehind
          < holding12.LastActiveTimestamp) ∧
      AddStateToQueue NetworkRoles.Client 5 holding12 (snapshotAt 1 FVector.ZeroVector)
        = holding12 := by
  have heq : holding12 = { receiver0 with StateQueue :=
      [⟨27 / 20, 103 / 20, FVector.ZeroVector, FRotator.ZeroRotator, FVector.ZeroVector,
        FVector.ZeroVector⟩] } := by
    have hrole : ¬ NetworkRoles.Client = NetworkRoles.Owner := by decide
    norm_num [hrole, holding12, receiver0, AddStateToQueue, AVehicleSystemBase.init, snapshotAt,
      FNetState.default]
  rw [heq]
  refine ⟨rfl, by norm_num [snapshotAt, FNetState.default, receiver0, AVehicleSystemBase.init],
    ?_⟩
  apply AddStateToQueue_drops_not_newer
  · decide
  · simp
  · simp
  · norm_num [snapshotAt, FNetState.default, receiver0, AVehicleSystemBase.init]
  · norm_num [snapshotAt, FNetState.default, receiver0, AVehicleSystemBase.init]

theorem FMath_Abs_eq_abs (x : ℚ) : FMath.Abs x = |x| := by
  unfold FMath.Abs
  split_ifs with h
  · exact (abs_of_neg h).symm
  · exact (abs_of_nonneg (not_lt.mp h)).symm

/-- The Manhattan distance is at least the straight-line distance: a squared straight-line
distance above `d * d` puts `FastDist` above `d`, for `d ≥ 0`. -/
theorem FastDist_gt_of_DistSquared_gt (A B : FVector) (d : ℚ) (hd : 0 ≤ d)
    (h : d * d < FVector.DistSquared A B) : d < FastDist A B := by
  unfold FastDist
  unfold FVector.DistSquared FVector.SizeSquared FVector.sub at h
  simp only [FMath_Abs_eq_abs]
  simp only [] at h
  by_contra hcon
  have hle := not_lt.mp hcon
  have hx := abs_nonneg (A.X - B.X)
  have hy := abs_nonneg (A.Y - B.Y)
  have hz := abs_nonneg (A.Z - B.Z)
  have hx2 := abs_mul_abs_self (A.X - B.X)
  have hy2 := abs_mul_abs_self (A.Y - B.Y)
  have hz2 := abs_mul_abs_self (A.Z - B.Z)
  nlinarith [mul_nonneg hx hy, mul_nonneg hx hz, mul_nonneg hy hz,
    mul_nonneg (add_nonneg (add_nonneg hx hy) hz) hd]

/-- C6: when the straight-line distance from the chassis to the requested position exceeds
3000 cm (its square exceeds 3000 * 3000) and `SyncLocation` and `SyncRotation` are enabled,
one `SetVehicleLocation` call puts the chassis at exactly the requested position and
rotation, whatever the engine interpolation routines are, zeroes the linear and angular
velocity and raises `TeleportWheels` (and nothing else). -/
theorem C6_teleport_beyond_threshold (E : Engine) (s : AVehicleSystemBase) (InNewPos : FVector)
    (InNewRot : FRotator) (WakeWheels : Bool) (hloc : s.SyncLocation = true)
    (hrot : s.SyncRotation = true)
    (hfar : 3000 * 3000 < FVector.DistSquared s.VehicleMesh.position InNewPos) :
    (SetVehicleLocation E s InNewPos InNewRot WakeWheels).VehicleMesh.position = InNewPos ∧
      (SetVehicleLocation E s InNewPos InNewRot WakeWheels).VehicleMesh.rotation = InNewRot ∧
      (SetVehicleLocation E s InNewPos InNewRot WakeWheels).VehicleMesh.velocity
        = FVector.ZeroVector ∧
      (SetVehicleLocation E s InNewPos InNewRot WakeWheels).VehicleMesh.angularVelocity
        = FVector.ZeroVector ∧
      (SetVehicleLocation E s InNewPos InNewRot WakeWheels).Signals
        = s.Signals ++ [Signal.TeleportWheels] := by
  have hd := FastDist_gt_of_DistSquared_gt s.VehicleMesh.position InNewPos 3000 (by norm_num) hfar
  simp only [SetVehicleLocation]
  rw [if_neg (not_le.mpr hd)]
  simp [hloc, hrot]

/-- C6, at a concrete input: a fresh receiver at the origin asked to move to
(2000, 2000, 2000), about 3464 cm away. -/
theorem C6_teleport_witness :
    (3000 : ℚ) * 3000 < FVector.DistSquared receiver0.VehicleMesh.position farTarget ∧
      (SetVehicleLocation linearEngine receiver0 farTarget FRotator.ZeroRotator false).VehicleMesh
        = chassisAt farTarget :=
  have hfar : (3000 : ℚ) * 3000 < FVector.DistSquared receiver0.VehicleMesh.position farTarget := by
    norm_num [FVector.DistSquared, FVector.SizeSquared, FVector.sub, receiver0,
      AVehicleSystemBase.init, chassisAt, farTarget, FVector.ZeroVector]
  have h := C6_teleport_beyond_threshold linearEngine receiver0 farTarget FRotator.ZeroRotator
    false rfl rfl hfar
  ⟨hfar, by
    obtain ⟨h1, h2, h3, h4, _⟩ := h
    have h5 : (SetVehicleLocation linearEngine receiver0 farTarget FRotator.ZeroRotator
        false).VehicleMesh.awake = false := by
      simp only [SetVehicleLocation]
      split_ifs <;> rfl
    cases hm : (SetVehicleLocation linearEngine receiver0 farTarget FRotator.ZeroRotator
        false).VehicleMesh with
    | mk p r v a w =>
      rw [hm] at h1 h2 h3 h4 h5
      simp only [] at h1 h2 h3 h4 h5
      subst h1 h2 h3 h4 h5
      rfl⟩

theorem restTick_RestVelocityThreshold (s : AVehicleSystemBase) (dt : ℚ) (v : FVector) :
    (restTick s dt v).RestVelocityThreshold = s.RestVelocityThreshold := by
  simp only [restTick, DetermineLocalRestState]
  split_ifs <;> rfl

/-- One rest update of a vehicle that is not yet at rest, with the speed within the
threshold: the timer advances by the step and the flag is set exactly when it reaches 3. -/
theorem restTick_counting (s : AVehicleSystemBase) (dt : ℚ) (v : FVector)
    (hflag : s.LocalVehicleAtRest = false) (hv : v.SizeLE s.RestVelocityThreshold = true) :
    (restTick s dt v).RestTimer = s.RestTimer + dt ∧
      ((restTick s dt v).LocalVehicleAtRest = true ↔ 3 ≤ s.RestTimer + dt) := by
  simp only [restTick, DetermineLocalRestState, hv, hflag]
  split_ifs with h1 h2 <;> simp_all

/-- Once at rest, a vehicle whose speed stays within the threshold stays at rest. -/
theorem restTick_stays (s : AVehicleSystemBase) (dt : ℚ) (v : FVector)
    (hflag : s.LocalVehicleAtRest = true) (hv : v.SizeLE s.RestVelocityThreshold = true) :
    (restTick s dt v).LocalVehicleAtRest = true := by
  simp only [restTick, DetermineLocalRestState, hv, hflag]
  simp

theorem restTicks_stays (s : AVehicleSystemBase) (dt : ℚ) (vs : List FVector)
    (hflag : s.LocalVehicleAtRest = true)
    (hv : ∀ v ∈ vs, v.SizeLE s.RestVelocityThreshold = true) :
    (restTicks s dt vs).LocalVehicleAtRest = true := by
  induction vs generalizing s with
  | nil => simpa [restTicks] using hflag
  | cons v vs ih =>
    simp only [restTicks, List.foldl_cons]
    apply ih (restTick s dt v) (restTick_stays s dt v hflag (hv v (by simp)))
    intro u hu
    rw [restTick_RestVelocityThreshold]
    exact hv u (by simp [hu])

theorem restTicks_counting (s : AVehicleSystemBase) (dt : ℚ) (vs : List FVector)
    (hflag : s.LocalVehicleAtRest = false) (hdt : 0 < dt) (ht : s.RestTimer < 3)
    (hv : ∀ v ∈ vs, v.SizeLE s.RestVelocityThreshold = true) :
    ((restTicks s dt vs).LocalVehicleAtRest = true ↔ 3 ≤ s.RestTimer + vs.length * dt) := by
  induction vs generalizing s with
  | nil =>
    simp only [restTicks, List.foldl_nil, List.length_nil, Nat.cast_zero, zero_mul, add_zero]
    rw [hflag]
    constructor
    · intro h; cases h
    · intro h; exact absurd ht (not_lt.mpr h)
  | cons v vs ih =>
    obtain ⟨htimer, hiff⟩ := restTick_counting s dt v hflag (hv v (by simp))
    have hv1 : ∀ u ∈ vs, u.SizeLE (restTick s dt v).RestVelocityThreshold = true := by
      intro u hu
      rw [restTick_RestVelocityThreshold]
      exact hv u (by simp [hu])
    have hlen : (0 : ℚ) ≤ (vs.length : ℚ) * dt :=
      mul_nonneg (Nat.cast_nonneg _) (le_of_lt hdt)
    have hstep : restTicks s dt (v :: vs) = restTicks (restTick s dt v) dt vs := by
      simp [restTicks]
    rw [hstep]
    simp only [List.length_cons, Nat.cast_add, Nat.cast_one]
    by_cases hreach : 3 ≤ s.RestTimer + dt
    · have hnow := hiff.mpr hreach
      constructor
      · intro _; nlinarith
      · intro _; exact restTicks_stays _ dt vs hnow hv1
    · have hnot : (restTick s dt v).LocalVehicleAtRest = false := by
        cases hb : (restTick s dt v).LocalVehicleAtRest with
        | false => rfl
        | true => exact absurd (hiff.mp hb) hreach
      have := ih (restTick s dt v) hnot (by rw [htimer]; exact not_le.mp hreach) hv1
      rw [this, htimer]
      constructor <;> intro h <;> linarith

/-- C7: starting from `LocalVehicleAtRest = false` and `RestTimer = 0`, with the same step
`dt > 0` on every tick and the chassis speed within `RestVelocityThreshold` on every tick,
after `k` calls of `DetermineLocalRestState` the flag `LocalVehicleAtRest` is true exactly
when `k * dt ≥ 3`. -/
theorem C7_rest_after_three_seconds (s : AVehicleSystemBase) (dt : ℚ) (vs : List FVector)
    (hflag : s.LocalVehicleAtRest = false) (htimer : s.RestTimer = 0) (hdt : 0 < dt)
    (hv : ∀ v ∈ vs, v.SizeLE s.RestVelocityThreshold = true) :
    ((restTicks s dt vs).LocalVehicleAtRest = true ↔ 3 ≤ (vs.length : ℚ) * dt) := by
  have h := restTicks_counting s dt vs hflag hdt (by rw [htimer]; norm_num) hv
  rw [htimer, zero_add] at h
  exact h

/-- C7, at a concrete input: forty ticks of 0.1 s at 1 cm/s on a fresh vehicle reach 4 s of
accumulated time, so the vehicle is at rest. -/
theorem C7_rest_witness :
    (restTicks receiver0 (1 / 10) slowTicks).LocalVehicleAtRest = true :=
  (C7_rest_after_three_seconds receiver0 (1 / 10) slowTicks rfl rfl (by norm_num)
    (by
      intro v hv
      have : v = ⟨1, 0, 0⟩ := List.eq_of_mem_replicate hv
      subst this
      norm_num [FVector.SizeLE, FVector.SizeGT, FVector.SizeSquared, receiver0,
        AVehicleSystemBase.init])).mpr
    (by norm_num [slowTicks])

theorem Clamp_one : FMath.Clamp 1 0 1 = 1 := by
  norm_num [FMath.Clamp, FMath.Max, FMath.Min]

/-- At local time `NextState.LocalTimestamp`, with a lerp window of non-zero width, the
interpolation part of `SyncPhysics` takes the completion branch with a lerp fraction of 1. -/
theorem SyncPhysics_lerp_at_head_time (E : Engine) (s : AVehicleSystemBase)
    (NextState : FNetState) (rest : List FNetState)
    (hwindow : s.LerpStartState.NetTimestamp ≠ NextState.LocalTimestamp) :
    SyncPhysics.lerp E NextState.LocalTimestamp s NextState rest =
      { ApplyExactNetState E
          (SetVehicleLocation E { s with LastActiveTimestamp := NextState.NetTimestamp }
            (E.VLerp s.LerpStartState.position NextState.position 1)
            (E.RLerp s.LerpStartState.rotation NextState.rotation 1) false) NextState with
        StateQueue := rest, CreateNewStartState := true } := by
  have hpct : GetPercentBetweenValues NextState.LocalTimestamp s.LerpStartState.NetTimestamp
      NextState.LocalTimestamp = 1 := by
    unfold GetPercentBetweenValues
    exact div_self (sub_ne_zero.mpr (Ne.symm hwindow))
  simp only [SyncPhysics.lerp, hpct, Clamp_one]
  rw [if_pos (Or.inl (by norm_num))]

/-- C5 as the code has it: for a non-resting receiver that is interpolating toward the queue
head (start state captured, `NetLerpStart ≥ 0`, lerp window of non-zero width), `SyncPhysics`
at local time `head.LocalTimestamp` sets the linear and angular velocity to the head's raw
velocities, removes the head, sets `CreateNewStartState` and makes the head's timestamp the
`LastActiveTimestamp`; the chassis pose is the one left by `SetVehicleLocation` called with
the head's raw pose after the lerp step, under that routine's own movement rules. -/
theorem C5_snap_at_head_time (E : Engine) (netNow : ℚ) (s : AVehicleSystemBase)
    (head : FNetState) (rest : List FNetState) (hrest : s.NetworkAtRest = false)
    (hq : s.StateQueue = head :: rest) (hstart : s.CreateNewStartState = false)
    (hmargin : 0 ≤ s.NetLerpStart)
    (hwindow : s.LerpStartState.NetTimestamp ≠ head.LocalTimestamp) :
    (SyncPhysics E head.LocalTimestamp netNow s).VehicleMesh.velocity = head.velocity ∧
      (SyncPhysics E head.LocalTimestamp netNow s).VehicleMesh.angularVelocity
        = head.angularVelocity ∧
      (SyncPhysics E head.LocalTimestamp netNow s).StateQueue = rest ∧
      (SyncPhysics E head.LocalTimestamp netNow s).CreateNewStartState = true ∧
      (SyncPhysics E head.LocalTimestamp netNow s).LastActiveTimestamp = head.NetTimestamp ∧
      (SyncPhysics E head.LocalTimestamp netNow s).VehicleMesh.position
        = (SetVehicleLocation E
            (SetVehicleLocation E { s with LastActiveTimestamp := head.NetTimestamp }
              (E.VLerp s.LerpStartState.position head.position 1)
              (E.RLerp s.LerpStartState.rotation head.rotation 1) false)
            head.position head.rotation false).VehicleMesh.position ∧
      (SyncPhysics E head.LocalTimestamp netNow s).VehicleMesh.rotation
        = (SetVehicleLocation E
            (SetVehicleLocation E { s with LastActiveTimestamp := head.NetTimestamp }
              (E.VLerp s.LerpStartState.position head.position 1)
              (E.RLerp s.LerpStartState.rotation head.rotation 1) false)
            head.position head.rotation false).VehicleMesh.rotation := by
  have hin : head.LocalTimestamp ≥ head.LocalTimestamp - s.NetLerpStart := by
    linarith
  have hstep : SyncPhysics E head.LocalTimestamp netNow s
      = SyncPhysics.lerp E head.LocalTimestamp s head rest := by
    rw [SyncPhysics_cons E head.LocalTimestamp netNow s head rest hrest hq]
    simp only [SyncPhysics.head]
    rw [if_pos hin, if_neg (by simp [hstart])]
  rw [hstep, SyncPhysics_lerp_at_head_time E s head rest hwindow]
  simp [ApplyExactNetState]

/-- The creeping scenario, evaluated: the chassis has not moved, the start state was captured
at server time 1 and the head is being interpolated to. -/
theorem creeping_eq :
    creeping = { receiver0 with
      StateQueue := [creepHead]
      LerpStartState := { FNetState.default with NetTimestamp := 1 }
      CreateNewStartState := false
      LastActiveTimestamp := 23 / 20
      RestThresh := true } := by
  have hrole : ¬ NetworkRoles.Client = NetworkRoles.Owner := by decide
  have h1 : AddStateToQueue NetworkRoles.Client 5 receiver0 creepSnapshot
      = { receiver0 with StateQueue := [creepHead] } := by
    norm_num [hrole, receiver0, AddStateToQueue, AVehicleSystemBase.init, creepSnapshot,
      creepHead, snapshotAt, FNetState.default]
  simp only [creeping, runQueue, List.foldl_cons, List.foldl_nil, QueueOp.apply]
  rw [h1, SyncPhysics_cons linearEngine 5 1 _ creepHead [] rfl rfl]
  norm_num [SyncPhysics.head, SyncPhysics.lerp, SetVehicleLocation, CreateNetStateForNow,
    FMath.IsNearlyEqual, FMath.Abs, FMath.Clamp, FMath.Min, FMath.Max, GetPercentBetweenValues,
    FastDist, linearEngine, FVector.add, FVector.sub, FVector.scale, FVector.SizeGT,
    FVector.SizeSquared, receiver0, AVehicleSystemBase.init, chassisAt, creepHead,
    creepSnapshot, snapshotAt, FNetState.default, FVector.ZeroVector, FRotator.ZeroRotator]

/-- C5 fails as stated: the creeping receiver is not at rest and is interpolating toward its
head, whose position is (0.12, 0, 0); `SyncPhysics` at local time `head.LocalTimestamp = 5.15`
removes the head, yet the chassis is still at the origin, because `SetVehicleLocation` does
not move a slow chassis that is within its distance threshold. -/
theorem C5_snap_not_exact :
    creeping.NetworkAtRest = false ∧ creeping.CreateNewStartState = false ∧
      creeping.StateQueue = [creepHead] ∧
      (SyncPhysics linearEngine creepHead.LocalTimestamp (23 / 20) creeping).StateQueue = [] ∧
      (SyncPhysics linearEngine creepHead.LocalTimestamp (23 / 20) creeping).VehicleMesh.position
        = ⟨0, 0, 0⟩ ∧
      creepHead.position = ⟨12 / 100, 0, 0⟩ ∧
      (SyncPhysics linearEngine creepHead.LocalTimestamp (23 / 20) creeping).VehicleMesh.position
        ≠ creepHead.position := by
  have hpos : (SyncPhysics linearEngine creepHead.LocalTimestamp (23 / 20) creeping).VehicleMesh.position
      = ⟨0, 0, 0⟩ := by
    rw [creeping_eq, SyncPhysics_cons linearEngine _ _ _ creepHead [] rfl rfl]
    norm_num [SyncPhysics.head, SyncPhysics.lerp, SetVehicleLocation, ApplyExactNetState,
      FMath.Clamp, FMath.Min, FMath.Max, FMath.Abs, GetPercentBetweenValues,
      FastDist, linearEngine, FVector.add, FVector.sub, FVector.scale, FVector.SizeGT,
      FVector.SizeSquared, receiver0, AVehicleSystemBase.init, chassisAt, creepHead,
      creepSnapshot, snapshotAt, FNetState.default, FVector.ZeroVector, FRotator.ZeroRotator]
  have hq : (SyncPhysics linearEngine creepHead.LocalTimestamp (23 / 20) creeping).StateQueue
      = [] := by
    rw [creeping_eq, SyncPhysics_cons linearEngine _ _ _ creepHead [] rfl rfl]
    norm_num [SyncPhysics.head, SyncPhysics.lerp, SetVehicleLocation, ApplyExactNetState,
      FMath.Clamp, FMath.Min, FMath.Max, FMath.Abs, GetPercentBetweenValues,
      FastDist, linearEngine, FVector.add, FVector.sub, FVector.scale, FVector.SizeGT,
      FVector.SizeSquared, receiver0, AVehicleSystemBase.init, chassisAt, creepHead,
      creepSnapshot, snapshotAt, FNetState.default, FVector.ZeroVector, FRotator.ZeroRotator]
  have hhead : creepHead.position = ⟨12 / 100, 0, 0⟩ := rfl
  refine ⟨by rw [creeping_eq]; rfl, by rw [creeping_eq], by rw [creeping_eq], hq, hpos, hhead, ?_⟩
  rw [hpos, hhead]
  intro h
  have hx := congrArg FVector.X h
  norm_num at hx

/-- C5 as the code has it, at a concrete input: the creeping receiver at local time 5.15. -/
theorem C5_snap_witness :
    (SyncPhysics linearEngine creepHead.LocalTimestamp (23 / 20) creeping).VehicleMesh.velocity
        = creepHead.velocity ∧
      (SyncPhysics linearEngine creepHead.LocalTimestamp (23 / 20) creeping).StateQueue = [] ∧
      (SyncPhysics linearEngine creepHead.LocalTimestamp (23 / 20) creeping).CreateNewStartState
        = true ∧
      (SyncPhysics linearEngine creepHead.LocalTimestamp (23 / 20) creeping).LastActiveTimestamp
        = 23 / 20 := by
  have h := C5_snap_at_head_time linearEngine (23 / 20) creeping creepHead []
    (by rw [creeping_eq]; rfl) (by rw [creeping_eq]) (by rw [creeping_eq])
    (by rw [creeping_eq]; norm_num [receiver0, AVehicleSystemBase.init])
    (by rw [creeping_eq]; norm_num [creepHead, FNetState.default])
  exact ⟨h.1, h.2.2.1, h.2.2.2.1, h.2.2.2.2.1⟩

/-! ### Physics tick -/

theorem AVS_PhysicsTick_wheel_LastTrace (W : FPhysicsWorld) (ChaosDelta VehicleMass : ℚ)
    (Inputs : FAVS_Inputs) (WheelConfig : FAVS1_Wheel_Config) (Q : FWheelQuery)
    (WheelState : FAVS1_Wheel_State) :
    (AVS_PhysicsTick.wheel W ChaosDelta VehicleMass Inputs WheelConfig Q
      WheelState).WheelOutput.LastTrace = Q.Trace := by
  simp only [AVS_PhysicsTick.wheel]
  split_ifs <;> rfl

theorem AVS_PhysicsTick_loop_states_length (W : FPhysicsWorld) (ChaosDelta : ℚ)
    (PhysicsInput : FVehiclePhysicsPhysicsInput) (Wheels : List FAVS1_Wheel_Config)
    (WIndex : Nat) (WheelStates : List FAVS1_Wheel_State)
    (PhysicsOutput : FVehiclePhysicsPhysicsOutput) :
    (AVS_PhysicsTick.loop W ChaosDelta PhysicsInput Wheels WIndex
      (WheelStates, PhysicsOutput)).1.length = WheelStates.length := by
  induction Wheels generalizing WIndex WheelStates PhysicsOutput with
  | nil => rfl
  | cons c more ih =>
    simp only [AVS_PhysicsTick.loop]
    rw [ih]
    simp

theorem AVS_PhysicsTick_loop_outputs (W : FPhysicsWorld) (ChaosDelta : ℚ)
    (PhysicsInput : FVehiclePhysicsPhysicsInput) (Wheels : List FAVS1_Wheel_Config)
    (WIndex : Nat) (WheelStates : List FAVS1_Wheel_State)
    (PhysicsOutput : FVehiclePhysicsPhysicsOutput) :
    (AVS_PhysicsTick.loop W ChaosDelta PhysicsInput Wheels WIndex
      (WheelStates, PhysicsOutput)).2.WheelOutputs.map FAVS1_Wheel_Output.LastTrace
      = PhysicsOutput.WheelOutputs.map FAVS1_Wheel_Output.LastTrace
        ++ (Wheels.enumFrom WIndex).map fun ic => (W.Query ic.1 ic.2).Trace := by
  induction Wheels generalizing WIndex WheelStates PhysicsOutput with
  | nil => simp [AVS_PhysicsTick.loop]
  | cons c more ih =>
    simp only [AVS_PhysicsTick.loop]
    rw [ih]
    simp [AVS_PhysicsTick_wheel_LastTrace, List.enumFrom]

theorem SetNum_length (WheelStates : List FAVS1_Wheel_State) (n : Nat) :
    (SetNum WheelStates n).length = n := by
  simp only [SetNum, List.length_append, List.length_take, List.length_replicate]
  omega

/-- C8: with a valid world and an empty output record, `AVS_PhysicsTick` appends exactly one
wheel output per submitted wheel configuration, in input order (output `i` carries the ray
query result of wheel `i`), whatever the wheel modes and the query results; the wheel state
array has the same length afterwards. -/
theorem C8_one_output_per_wheel (W : FPhysicsWorld) (ChaosDelta : ℚ)
    (PhysicsInput : FVehiclePhysicsPhysicsInput) (WheelStates : List FAVS1_Wheel_State)
    (hworld : PhysicsInput.WorldValid = true) :
    (AVS_PhysicsTick W ChaosDelta PhysicsInput WheelStates
        (FVehiclePhysicsPhysicsOutput.empty ChaosDelta)).2.WheelOutputs.length
        = PhysicsInput.Wheels.length ∧
      (AVS_PhysicsTick W ChaosDelta PhysicsInput WheelStates
        (FVehiclePhysicsPhysicsOutput.empty ChaosDelta)).2.WheelOutputs.map
          FAVS1_Wheel_Output.LastTrace
        = PhysicsInput.Wheels.enum.map (fun ic => (W.Query ic.1 ic.2).Trace) ∧
      (AVS_PhysicsTick W ChaosDelta PhysicsInput WheelStates
        (FVehiclePhysicsPhysicsOutput.empty ChaosDelta)).1.length
        = PhysicsInput.Wheels.length := by
  have hmap := fun st => AVS_PhysicsTick_loop_outputs W ChaosDelta PhysicsInput
    PhysicsInput.Wheels 0 st (FVehiclePhysicsPhysicsOutput.empty ChaosDelta)
  have hlen := fun st => AVS_PhysicsTick_loop_states_length W ChaosDelta PhysicsInput
    PhysicsInput.Wheels 0 st (FVehiclePhysicsPhysicsOutput.empty ChaosDelta)
  simp only [AVS_PhysicsTick, hworld, Bool.not_true, Bool.false_eq_true, if_false]
  refine ⟨?_, ?_, ?_⟩
  · have h := congrArg List.length (hmap
      (if WheelStates.length ≠ PhysicsInput.Wheels.length
        then SetNum WheelStates PhysicsInput.Wheels.length else WheelStates))
    simpa [FVehiclePhysicsPhysicsOutput.empty, List.enumFrom_length] using h
  · rw [hmap]
    simp [FVehiclePhysicsPhysicsOutput.empty, List.enum]
  · rw [hlen]
    split_ifs with h
    · exact SetNum_length _ _
    · exact not_not.mp h

/-- C8, at a concrete input: two wheels, one per mode, and no wheel state yet. -/
theorem C8_two_wheels_witness :
    (AVS_PhysicsTick levelWorld (1 / 60) twoWheels []
        (FVehiclePhysicsPhysicsOutput.empty (1 / 60))).2.WheelOutputs.length = 2 ∧
      (AVS_PhysicsTick levelWorld (1 / 60) twoWheels []
        (FVehiclePhysicsPhysicsOutput.empty (1 / 60))).1.length = 2 :=
  have h := C8_one_output_per_wheel levelWorld (1 / 60) twoWheels [] rfl
  ⟨h.1, h.2.2⟩

/-- The tilt falloff is 1 from the falloff start 0.5 upwards. -/
theorem TiltFalloff_eq_one (Tilt : ℚ) (h : 1 / 2 ≤ Tilt) : TiltFalloff Tilt = 1 := by
  have h1 : ¬ (Tilt - 1 / 10) / (1 / 2 - 1 / 10) < 1 := by
    rw [not_lt, le_div_iff₀ (by norm_num)]
    linarith
  simp only [TiltFalloff, FMath.Clamp, FMath.Min, FMath.Max, if_neg h1]
  norm_num

/-- C10: for a wheel in ground contact with zero compression velocity, no excess compression
(`Length ≥ -1`) and a tilt at or above the falloff start (an upright wheel has tilt 1), the
damper term is zero, the suspension force is
`SpringStrength * 1000 * ((SpringLength - CurrentSpringLength) * 0.01)` newtons, where
`CurrentSpringLength` is the value the step writes to the wheel output, and the force vector
is the contact normal scaled by that force (times 100, in centinewtons). -/
theorem C10_static_suspension_force (W : FPhysicsWorld) (ChaosDelta VehicleMass : ℚ)
    (Inputs : FAVS_Inputs) (WheelConfig : FAVS1_Wheel_Config) (Q : FWheelQuery)
    (WheelState : FAVS1_Wheel_State) (hhit : Q.Trace.bBlockingHit = true)
    (hvel : Q.WheelVelocityLocal.Z = 0) (hlen : -1 ≤ SpringLengthRaw WheelConfig Q.Trace)
    (htilt : 1 / 2 ≤ ImpactTilt Q) :
    DamperForceN WheelConfig Q = 0 ∧
      SuspensionForceN W VehicleMass WheelConfig Q
        = WheelConfig.SpringStrength * 1000
          * ((WheelConfig.SpringLength
              - (AVS_PhysicsTick.wheel W ChaosDelta VehicleMass Inputs WheelConfig Q
                  WheelState).WheelOutput.CurrentSpringLength) * (1 / 100)) ∧
      SuspensionForceV W VehicleMass WheelConfig Q
        = (Q.Trace.ImpactNormal.scale
            (WheelConfig.SpringStrength * 1000
              * ((WheelConfig.SpringLength - NewSpringLength WheelConfig Q.Trace)
                * (1 / 100)))).scale 100 := by
  have hd : DamperForceN WheelConfig Q = 0 := by
    simp [DamperForceN, hvel]
  have hs : SpringForceN W VehicleMass WheelConfig Q.Trace
      = WheelConfig.SpringStrength * 1000
        * ((WheelConfig.SpringLength - NewSpringLength WheelConfig Q.Trace) * (1 / 100)) := by
    simp only [SpringForceN]
    rw [if_neg (not_lt.mpr hlen)]
  have hout : (AVS_PhysicsTick.wheel W ChaosDelta VehicleMass Inputs WheelConfig Q
      WheelState).WheelOutput.CurrentSpringLength = NewSpringLength WheelConfig Q.Trace := by
    simp only [AVS_PhysicsTick.wheel, hhit, if_true]
    split_ifs <;> rfl
  have hn : SuspensionForceN W VehicleMass WheelConfig Q
      = WheelConfig.SpringStrength * 1000
        * ((WheelConfig.SpringLength - NewSpringLength WheelConfig Q.Trace) * (1 / 100)) := by
    simp only [SuspensionForceN, hd, hs, TiltFalloff_eq_one _ htilt]
    ring
  refine ⟨hd, ?_, ?_⟩
  · rw [hout, hn]
  · simp only [SuspensionForceV, hn]

/-- C10, the scenario: radius 30, spring length 25, strength 25, damping 1, mass 15, a hit
at distance 75 that leaves a spring of 15 cm, so 10 cm of compression, zero velocity and an
upright wheel give 25 * 1000 * 0.10 = 2500 N along the contact normal. -/
theorem C10_scenario_witness :
    (AVS_PhysicsTick.wheel levelWorld (1 / 60) 1500 zeroInputs FAVS1_Wheel_Config.default
        (levelHit 75) FAVS1_Wheel_State.default).WheelOutput.CurrentSpringLength = 15 ∧
      DamperForceN FAVS1_Wheel_Config.default (levelHit 75) = 0 ∧
      SuspensionForceN levelWorld 1500 FAVS1_Wheel_Config.default (levelHit 75) = 2500 ∧
      SuspensionForceV levelWorld 1500 FAVS1_Wheel_Config.default (levelHit 75)
        = ⟨0, 0, 250000⟩ := by
  have hlen : SpringLengthRaw FAVS1_Wheel_Config.default (levelHit 75).Trace = 15 := by
    norm_num [SpringLengthRaw, FAVS1_Wheel_Config.default, FAVS1_Wheel_Config.CalculateConstants,
      levelHit]
  have hnew : NewSpringLength FAVS1_Wheel_Config.default (levelHit 75).Trace = 15 := by
    simp only [NewSpringLength, hlen]
    norm_num [FMath.Clamp, FMath.Min, FMath.Max, FAVS1_Wheel_Config.default,
      FAVS1_Wheel_Config.CalculateConstants]
  have h := C10_static_suspension_force levelWorld (1 / 60) 1500 zeroInputs
    FAVS1_Wheel_Config.default (levelHit 75) FAVS1_Wheel_State.default rfl rfl
    (by rw [hlen]; norm_num)
    (by norm_num [ImpactTilt, FVector.DotProduct, FMath.Abs, levelHit])
  obtain ⟨h1, h2, h3⟩ := h
  have hout : (AVS_PhysicsTick.wheel levelWorld (1 / 60) 1500 zeroInputs
      FAVS1_Wheel_Config.default (levelHit 75)
      FAVS1_Wheel_State.default).WheelOutput.CurrentSpringLength = 15 := by
    have hhit : (levelHit 75).Trace.bBlockingHit = true := rfl
    rw [← hnew]
    simp only [AVS_PhysicsTick.wheel, hhit, if_true]
    split_ifs <;> rfl
  refine ⟨hout, h1, ?_, ?_⟩
  · rw [h2, hout]
    norm_num [FAVS1_Wheel_Config.default, FAVS1_Wheel_Config.CalculateConstants]
  · rw [h3, hnew]
    norm_num [FAVS1_Wheel_Config.default, FAVS1_Wheel_Config.CalculateConstants, levelHit,
      FVector.scale]

/-! ### Vehicle tick -/

theorem SetVehicleLocation_VehicleWheels (E : Engine) (s : AVehicleSystemBase) (p : FVector)
    (r : FRotator) (w : Bool) :
    (SetVehicleLocation E s p r w).VehicleWheels = s.VehicleWheels := by
  simp only [SetVehicleLocation]
  split_ifs <;> rfl

theorem SyncPhysics_lerp_VehicleWheels (E : Engine) (now : ℚ) (s : AVehicleSystemBase)
    (x : FNetState) (rest : List FNetState) :
    (SyncPhysics.lerp E now s x rest).VehicleWheels = s.VehicleWheels := by
  simp only [SyncPhysics.lerp, ApplyExactNetState]
  split_ifs <;> simp [SetVehicleLocation_VehicleWheels]

theorem SyncPhysics_head_VehicleWheels (E : Engine) (now netNow : ℚ) (s : AVehicleSystemBase)
    (x : FNetState) (rest : List FNetState) :
    (SyncPhysics.head E now netNow s x rest).VehicleWheels = s.VehicleWheels := by
  simp only [SyncPhysics.head]
  split_ifs <;> simp [SyncPhysics_lerp_VehicleWheels]

theorem SyncPhysics_VehicleWheels (E : Engine) (now netNow : ℚ) (s : AVehicleSystemBase) :
    (SyncPhysics E now netNow s).VehicleWheels = s.VehicleWheels := by
  unfold SyncPhysics
  split
  · simp only []
    split <;> simp [ClearQueue, SetVehicleLocation_VehicleWheels]
  · split
    · rfl
    · exact SyncPhysics_head_VehicleWheels E now netNow s _ _

theorem NetworkTick_VehicleWheels (E : Engine) (role : NetworkRoles) (now netNow : ℚ)
    (s : AVehicleSystemBase) :
    (NetworkTick E role now netNow s).VehicleWheels = s.VehicleWheels := by
  simp only [NetworkTick]
  split_ifs
  · exact SyncPhysics_VehicleWheels E now netNow s
  · rfl
  · rfl

theorem SetWheelData_length (ws : List UVehicleWheelBase) (p : Nat) (o : FAVS1_Wheel_Output) :
    (SetWheelData ws p o).length = ws.length := by
  unfold SetWheelData
  split <;> simp

theorem SetWheelData_other (ws : List UVehicleWheelBase) (p q : Nat) (o : FAVS1_Wheel_Output)
    (h : p ≠ q) : (SetWheelData ws p o)[q]? = ws[q]? := by
  unfold SetWheelData
  split
  · exact List.getElem?_set_ne h
  · rfl

theorem SetWheelData_self (ws : List UVehicleWheelBase) (p : Nat) (o : FAVS1_Wheel_Output)
    (h : p < ws.length) :
    (SetWheelData ws p o)[p]?.map UVehicleWheelBase.WheelData = some o := by
  unfold SetWheelData
  rw [List.getElem?_eq_getElem h]
  simp [List.getElem?_set_self h]

theorem AssignWheelOutputs_other (sim : List Nat) (outs : List FAVS1_Wheel_Output)
    (ws : List UVehicleWheelBase) (q : Nat) (h : q ∉ sim) :
    (AssignWheelOutputs sim outs ws)[q]? = ws[q]? := by
  induction sim generalizing outs ws with
  | nil => simp [AssignWheelOutputs]
  | cons p sim ih =>
    cases outs with
    | nil => simp [AssignWheelOutputs]
    | cons o outs =>
      simp only [AssignWheelOutputs]
      rw [ih outs _ (fun hq => h (List.mem_cons_of_mem p hq))]
      exact SetWheelData_other ws p q o (fun hpq => h (by simp [hpq]))

/-- The loop over the outputs gives the wheel behind the `i`-th pointer the `i`-th output,
when the pointers are distinct and point into the wheel array. -/
theorem AssignWheelOutputs_get (sim : List Nat) (outs : List FAVS1_Wheel_Output)
    (ws : List UVehicleWheelBase) (hnodup : sim.Nodup) (hvalid : ∀ p ∈ sim, p < ws.length)
    (i p : Nat) (o : FAVS1_Wheel_Output) (hp : sim[i]? = some p) (ho : outs[i]? = some o) :
    (AssignWheelOutputs sim outs ws)[p]?.map UVehicleWheelBase.WheelData = some o := by
  induction sim generalizing outs ws i with
  | nil => simp at hp
  | cons p0 sim ih =>
    cases outs with
    | nil => simp at ho
    | cons o0 outs =>
      simp only [AssignWheelOutputs]
      have hnd := List.nodup_cons.mp hnodup
      cases i with
      | zero =>
        simp only [List.getElem?_cons_zero, Option.some.injEq] at hp ho
        subst hp ho
        rw [AssignWheelOutputs_other sim outs _ p0 hnd.1]
        exact SetWheelData_self ws p0 o0 (hvalid p0 (by simp))
      | succ j =>
        simp only [List.getElem?_cons_succ] at hp ho
        apply ih outs (SetWheelData ws p0 o0) hnd.2 _ j hp ho
        intro q hq
        rw [SetWheelData_length]
        exact hvalid q (List.mem_cons_of_mem p0 hq)

theorem SimulatedWheels_nodup (ws : List UVehicleWheelBase) : (SimulatedWheels ws).Nodup :=
  List.Nodup.filter _ (List.nodup_range ws.length)

theorem SimulatedWheels_valid (ws : List UVehicleWheelBase) :
    ∀ p ∈ SimulatedWheels ws, p < ws.length := by
  intro p hp
  exact List.mem_range.mp (List.mem_filter.mp hp).1

/-- C9: in `AlwaysTick`, when the number of wheel outputs in the latest popped physics
output (none when nothing was popped) differs from the number of simulated wheels, the
wheels are left exactly as they were; when the chassis simulates physics, the callback is
registered and the counts are equal, the wheel behind the `i`-th entry of `SimulatedWheels`
holds the `i`-th output of the latest popped output afterwards, for every `i`. -/
theorem C9_outputs_reach_wheels (E : Engine) (role : NetworkRoles) (now netNow : ℚ)
    (IsSimulatingPhysics CallbackRegistered : Bool)
    (Popped : List FVehiclePhysicsPhysicsOutput) (s : AVehicleSystemBase) :
    ((LatestWheelOutputs Popped).length ≠ (SimulatedWheels s.VehicleWheels).length →
        (AlwaysTick E role now netNow IsSimulatingPhysics CallbackRegistered Popped
          s).VehicleWheels = s.VehicleWheels) ∧
      (IsSimulatingPhysics = true → CallbackRegistered = true →
        (LatestWheelOutputs Popped).length = (SimulatedWheels s.VehicleWheels).length →
        ∀ (i Wheel : Nat) (Output : FAVS1_Wheel_Output),
          (SimulatedWheels s.VehicleWheels)[i]? = some Wheel →
          (LatestWheelOutputs Popped)[i]? = some Output →
          (AlwaysTick E role now netNow IsSimulatingPhysics CallbackRegistered Popped
            s).VehicleWheels[Wheel]?.map UVehicleWheelBase.WheelData = some Output) := by
  have hw := NetworkTick_VehicleWheels E role now netNow s
  constructor
  · intro hne
    simp only [AlwaysTick, hw]
    split_ifs <;> exact hw
  · intro hsim hreg heq i Wheel Output hp ho
    simp only [AlwaysTick, hw, hsim, hreg, heq, if_true, Bool.not_true, Bool.false_eq_true,
      if_false, ne_eq, not_true_eq_false]
    exact AssignWheelOutputs_get _ _ _ (SimulatedWheels_nodup _) (SimulatedWheels_valid _)
      i Wheel Output hp ho

/-- C9, at a concrete input: an owner's vehicle with wheels 0 and 2 simulated. With two
outputs popped last, wheel 0 holds the first and wheel 2 the second; with nothing popped the
wheels are untouched. -/
theorem C9_three_wheeler_witness :
    SimulatedWheels threeWheeler.VehicleWheels = [0, 2] ∧
      (AlwaysTick linearEngine NetworkRoles.Owner 5 5 true true
        [⟨1 / 60, [], [outputWith 7]⟩, ⟨1 / 60, [], [outputWith 3, outputWith 4]⟩]
        threeWheeler).VehicleWheels[0]?.map UVehicleWheelBase.WheelData = some (outputWith 3) ∧
      (AlwaysTick linearEngine NetworkRoles.Owner 5 5 true true
        [⟨1 / 60, [], [outputWith 7]⟩, ⟨1 / 60, [], [outputWith 3, outputWith 4]⟩]
        threeWheeler).VehicleWheels[2]?.map UVehicleWheelBase.WheelData = some (outputWith 4) ∧
      (AlwaysTick linearEngine NetworkRoles.Owner 5 5 true true [] threeWheeler).VehicleWheels
        = threeWheeler.VehicleWheels := by
  have hsim : SimulatedWheels threeWheeler.VehicleWheels = [0, 2] := by
    simp [SimulatedWheels, threeWheeler, IsSimulatedWheel, wheelWith, List.range_succ,
      List.filter]
  have hlatest : LatestWheelOutputs
      [⟨1 / 60, [], [outputWith 7]⟩, ⟨1 / 60, [], [outputWith 3, outputWith 4]⟩]
      = [outputWith 3, outputWith 4] := rfl
  have h := C9_outputs_reach_wheels linearEngine NetworkRoles.Owner 5 5 true true
    [⟨1 / 60, [], [outputWith 7]⟩, ⟨1 / 60, [], [outputWith 3, outputWith 4]⟩] threeWheeler
  have h0 := C9_outputs_reach_wheels linearEngine NetworkRoles.Owner 5 5 true true []
    threeWheeler
  refine ⟨hsim, ?_, ?_, ?_⟩
  · exact h.2 rfl rfl (by rw [hsim, hlatest]; rfl) 0 0 (outputWith 3) (by rw [hsim]; rfl)
      (by rw [hlatest]; rfl)
  · exact h.2 rfl rfl (by rw [hsim, hlatest]; rfl) 1 2 (outputWith 4) (by rw [hsim]; rfl)
      (by rw [hlatest]; rfl)
  · exact h0.1 (by rw [hsim]; simp [LatestWheelOutputs])

/-! ### Suspension force -/

theorem FMath_Min_eq_min (a b : ℚ) : FMath.Min a b = min a b := by
  unfold FMath.Min
  split_ifs with h
  · exact (min_eq_left (le_of_lt h)).symm
  · exact (min_eq_right (not_lt.mp h)).symm

theorem FMath_Max_eq_max (a b : ℚ) : FMath.Max a b = max a b := by
  unfold FMath.Max
  split_ifs with h
  · exact (max_eq_left (le_of_lt h)).symm
  · exact (max_eq_right (not_lt.mp h)).symm

theorem FMath_Clamp_eq (x lo hi : ℚ) : FMath.Clamp x lo hi = max (min x hi) lo := by
  simp only [FMath.Clamp, FMath_Min_eq_min, FMath_Max_eq_max]

theorem FMath_Clamp_mono (x y lo hi : ℚ) (h : x ≤ y) :
    FMath.Clamp x lo hi ≤ FMath.Clamp y lo hi := by
  simp only [FMath_Clamp_eq]
  exact max_le_max (min_le_min h le_rfl) le_rfl

theorem FMath_Clamp_ge (x lo hi : ℚ) : lo ≤ FMath.Clamp x lo hi := by
  simp only [FMath_Clamp_eq]
  exact le_max_right _ _

theorem FMath_Clamp_le (x lo hi : ℚ) (h : lo ≤ hi) : FMath.Clamp x lo hi ≤ hi := by
  simp only [FMath_Clamp_eq]
  exact max_le (min_le_right _ _) h

theorem TiltFalloff_nonneg (Tilt : ℚ) : 0 ≤ TiltFalloff Tilt := by
  simp only [TiltFalloff]
  exact FMath_Clamp_ge _ _ _

theorem TiltFalloff_le_one (Tilt : ℚ) : TiltFalloff Tilt ≤ 1 := by
  simp only [TiltFalloff]
  exact FMath_Clamp_le _ _ _ (by norm_num)

/-- With a non-negative spring rate and a non-negative anti-gravity term, the spring force
does not grow with the hit distance. -/
theorem SpringForceN_antitone (W : FPhysicsWorld) (VehicleMass : ℚ)
    (WheelConfig : FAVS1_Wheel_Config) (T1 T2 : FHitResult)
    (hrate : 0 ≤ WheelConfig.SpringStrength) (hgrav : 0 ≤ -W.GravityZ * VehicleMass)
    (hd : T1.Distance ≤ T2.Distance) :
    SpringForceN W VehicleMass WheelConfig T2 ≤ SpringForceN W VehicleMass WheelConfig T1 := by
  have hraw : SpringLengthRaw WheelConfig T1 ≤ SpringLengthRaw WheelConfig T2 := by
    unfold SpringLengthRaw
    linarith
  have hnew : NewSpringLength WheelConfig T1 ≤ NewSpringLength WheelConfig T2 :=
    FMath_Clamp_mono _ _ _ _ hraw
  have hbase : WheelConfig.SpringStrength * 1000
        * ((WheelConfig.SpringLength - NewSpringLength WheelConfig T2) * (1 / 100))
      ≤ WheelConfig.SpringStrength * 1000
        * ((WheelConfig.SpringLength - NewSpringLength WheelConfig T1) * (1 / 100)) := by
    apply mul_le_mul_of_nonneg_left _ (by linarith)
    linarith
  have hanti : 0 ≤ -W.GravityZ * VehicleMass * (1 / 100) := by linarith
  simp only [SpringForceN]
  split_ifs with h2 h1 h1
  · linarith
  · exact absurd (lt_of_le_of_lt hraw h2) h1
  · linarith
  · exact hbase

/-- C11 as the code has it: for a fixed wheel configuration with a non-negative spring rate,
a vehicle mass and gravity whose anti-gravity term `-GravityZ * VehicleMass` is not negative,
the same tilt and zero compression velocity, a ray hit at distance `d1 ≤ d2` (so at least as
much compression) gives a suspension force at least as large, also across the excess
compression branch. -/
theorem C11_suspension_force_monotone (W : FPhysicsWorld) (VehicleMass : ℚ)
    (WheelConfig : FAVS1_Wheel_Config) (Q1 Q2 : FWheelQuery)
    (hrate : 0 ≤ WheelConfig.SpringStrength) (hgrav : 0 ≤ -W.GravityZ * VehicleMass)
    (hv1 : Q1.WheelVelocityLocal.Z = 0) (hv2 : Q2.WheelVelocityLocal.Z = 0)
    (htilt : ImpactTilt Q1 = ImpactTilt Q2) (hd : Q1.Trace.Distance ≤ Q2.Trace.Distance) :
    SuspensionForceN W VehicleMass WheelConfig Q2
      ≤ SuspensionForceN W VehicleMass WheelConfig Q1 := by
  have hd1 : DamperForceN WheelConfig Q1 = 0 := by simp [DamperForceN, hv1]
  have hd2 : DamperForceN WheelConfig Q2 = 0 := by simp [DamperForceN, hv2]
  simp only [SuspensionForceN, hd1, hd2, add_zero, htilt]
  exact mul_le_mul_of_nonneg_right
    (SpringForceN_antitone W VehicleMass WheelConfig Q1.Trace Q2.Trace hrate hgrav hd)
    (TiltFalloff_nonneg _)

/-- C11, at a concrete input: the default wheel on level ground, hit at distance 50 (spring
bottomed out and 10 cm beyond, so the excess compression branch) against distance 75. -/
theorem C11_monotone_witness :
    SuspensionForceN levelWorld 1500 FAVS1_Wheel_Config.default (levelHit 75) = 2500 ∧
      SuspensionForceN levelWorld 1500 FAVS1_Wheel_Config.default (levelHit 50) = 20950 ∧
      SuspensionForceN levelWorld 1500 FAVS1_Wheel_Config.default (levelHit 75)
        ≤ SuspensionForceN levelWorld 1500 FAVS1_Wheel_Config.default (levelHit 50) := by
  refine ⟨?_, ?_, C11_suspension_force_monotone levelWorld 1500 FAVS1_Wheel_Config.default
    (levelHit 50) (levelHit 75)
    (by norm_num [FAVS1_Wheel_Config.default, FAVS1_Wheel_Config.CalculateConstants])
    (by norm_num [levelWorld]) rfl rfl rfl (by norm_num [levelHit])⟩
  · norm_num [SuspensionForceN, SpringForceN, DamperForceN, TiltFalloff, ImpactTilt,
      NewSpringLength, SpringLengthRaw, FMath.Clamp, FMath.Min, FMath.Max, FMath.Abs,
      FVector.DotProduct, FAVS1_Wheel_Config.default, FAVS1_Wheel_Config.CalculateConstants,
      levelHit, levelWorld]
  · norm_num [SuspensionForceN, SpringForceN, DamperForceN, TiltFalloff, ImpactTilt,
      NewSpringLength, SpringLengthRaw, FMath.Clamp, FMath.Min, FMath.Max, FMath.Abs,
      FVector.DotProduct, FAVS1_Wheel_Config.default, FAVS1_Wheel_Config.CalculateConstants,
      levelHit, levelWorld]

/-- C20: the tilt falloff factor `Clamp((tilt - 0.1) / (0.5 - 0.1), 0, 1)` that scales the
suspension force, with `tilt = 1 - |ImpactNormal . WheelRight|`, is exactly 0 up to tilt 0.1,
exactly 1 from tilt 0.5, linear in between, always within [0, 1] and non-decreasing. -/
theorem C20_tilt_falloff_ramp (W : FPhysicsWorld) (VehicleMass : ℚ)
    (WheelConfig : FAVS1_Wheel_Config) (Q : FWheelQuery) (t u : ℚ) :
    SuspensionForceN W VehicleMass WheelConfig Q
        = (SpringForceN W VehicleMass WheelConfig Q.Trace + DamperForceN WheelConfig Q)
          * TiltFalloff (1 - |FVector.DotProduct Q.Trace.ImpactNormal Q.WheelWorldRight|) ∧
      TiltFalloff t = FMath.Clamp ((t - 1 / 10) / (1 / 2 - 1 / 10)) 0 1 ∧
      (t ≤ 1 / 10 → TiltFalloff t = 0) ∧
      (1 / 2 ≤ t → TiltFalloff t = 1) ∧
      (1 / 10 ≤ t → t ≤ 1 / 2 → TiltFalloff t = (t - 1 / 10) / (4 / 10)) ∧
      0 ≤ TiltFalloff t ∧ TiltFalloff t ≤ 1 ∧
      (t ≤ u → TiltFalloff t ≤ TiltFalloff u) := by
  refine ⟨?_, rfl, ?_, TiltFalloff_eq_one t, ?_, TiltFalloff_nonneg t, TiltFalloff_le_one t, ?_⟩
  · simp only [SuspensionForceN, ImpactTilt, FMath_Abs_eq_abs]
  · intro h
    have h1 : (t - 1 / 10) / (1 / 2 - 1 / 10) ≤ 0 :=
      div_nonpos_of_nonpos_of_nonneg (by linarith) (by norm_num)
    simp only [TiltFalloff, FMath_Clamp_eq]
    rw [max_eq_right]
    exact le_trans (min_le_left _ _) h1
  · intro h1 h2
    have h3 : 0 ≤ (t - 1 / 10) / (1 / 2 - 1 / 10) :=
      div_nonneg (by linarith) (by norm_num)
    have h4 : (t - 1 / 10) / (1 / 2 - 1 / 10) ≤ 1 := by
      rw [div_le_iff₀ (by norm_num)]
      linarith
    simp only [TiltFalloff, FMath_Clamp_eq]
    rw [min_eq_left h4, max_eq_left h3]
    norm_num
  · intro h
    simp only [TiltFalloff]
    apply FMath_Clamp_mono
    exact div_le_div_of_nonneg_right (by linarith) (by norm_num)

/-- C12 at its failing input: the default wheel (radius 30 > 0, inertia 0.675 > 0) in
raycast mode, step 1/60 > 0, zero inputs, a ray hit on a steep bank. The tilt is 1/13, below
the falloff end 0.1, so the tilt falloff, the suspension force and with it
`MaxFrictionTorque` are 0, while the wheel is not locked: the step divides the final torque,
here -25 Nm of rolling resistance, by a zero `MaxFrictionTorque`. -/
theorem C12_zero_friction_torque_divisor :
    0 < FAVS1_Wheel_Config.default.WheelRadius ∧ 0 < FAVS1_Wheel_Config.default.Inertia ∧
      bankHit.Trace.bBlockingHit = true ∧
      FAVS1_Wheel_Config.default.WheelMode = EWheelMode.Raycast ∧
      WheelLocking zeroInputs FAVS1_Wheel_Config.default = false ∧
      XBrakeTorque zeroInputs FAVS1_Wheel_Config.default bankHit
        + XDriveTorqueNm (1 / 60) zeroInputs FAVS1_Wheel_Config.default bankHit = -25 ∧
      ImpactTilt bankHit = 1 / 13 ∧
      XSlipTarget levelWorld (1 / 60) 1500 zeroInputs FAVS1_Wheel_Config.default bankHit
        = (XBrakeTorque zeroInputs FAVS1_Wheel_Config.default bankHit
            + XDriveTorqueNm (1 / 60) zeroInputs FAVS1_Wheel_Config.default bankHit)
          / MaxFrictionTorque levelWorld 1500 FAVS1_Wheel_Config.default bankHit ∧
      MaxFrictionTorque levelWorld 1500 FAVS1_Wheel_Config.default bankHit = 0 := by
  refine ⟨?_, ?_, rfl, rfl, rfl, ?_, ?_, rfl, ?_⟩
  · norm_num [FAVS1_Wheel_Config.default, FAVS1_Wheel_Config.CalculateConstants]
  · norm_num [FAVS1_Wheel_Config.default, FAVS1_Wheel_Config.CalculateConstants]
  · norm_num [XBrakeTorque, XDriveTorqueNm, RollingAngVel, FMath.Sign, FMath.Clamp, FMath.Min,
      FMath.Max, zeroInputs, bankHit, levelHit, FAVS1_Wheel_Config.default,
      FAVS1_Wheel_Config.CalculateConstants]
  · norm_num [ImpactTilt, FMath.Abs, FVector.DotProduct, bankHit, levelHit]
  · norm_num [MaxFrictionTorque, SuspensionForceN, TiltFalloff, ImpactTilt, FMath.Clamp,
      FMath.Min, FMath.Max, FMath.Abs, FVector.DotProduct, bankHit, levelHit]

/-! ### Wheel configuration -/

theorem CalculateConstants_current (c : FAVS1_Wheel_Config) :
    ConstantsCurrent c.CalculateConstants := by
  simp [ConstantsCurrent, FAVS1_Wheel_Config.CalculateConstants]

/-- The constructor and `SetRaycastWheelMass` leave the derived constants current. -/
theorem SetRaycastWheelMass_current (Wheel : UVehicleWheelBase) (NewMass : ℚ) :
    ConstantsCurrent UVehicleWheelBase.init.WheelConfig ∧
      ConstantsCurrent (SetRaycastWheelMass Wheel NewMass).WheelConfig :=
  ⟨CalculateConstants_current _, CalculateConstants_current _⟩

/-- C13 at its failing input: a freshly constructed wheel (mass 15, radius 30, automatic
radius) is given a static mesh of radius 40 through `SetWheelMeshComponent`. The radius
becomes 40 while `WheelRadiusM` stays 0.3 and `Inertia` stays 0.675, the values for radius
30; the same happens when `BeginPlay` runs on a wheel that already has that mesh. -/
theorem C13_constants_stale_after_radius_update :
    (SetWheelMeshComponent UVehicleWheelBase.init (some mesh40)).WheelConfig.WheelRadius = 40 ∧
      (SetWheelMeshComponent UVehicleWheelBase.init (some mesh40)).WheelConfig.WheelRadiusM
        = 3 / 10 ∧
      (SetWheelMeshComponent UVehicleWheelBase.init (some mesh40)).WheelConfig.Inertia
        = 27 / 40 ∧
      ¬ ConstantsCurrent (SetWheelMeshComponent UVehicleWheelBase.init (some mesh40)).WheelConfig ∧
      ¬ ConstantsCurrent
        (UVehicleWheelBase.BeginPlay
          { UVehicleWheelBase.init with WheelMeshComponent := some mesh40 }).WheelConfig := by
  have h1 : (SetWheelMeshComponent UVehicleWheelBase.init (some mesh40)).WheelConfig
      = { FAVS1_Wheel_Config.default with WheelRadius := 40 } := by
    have hc : ¬ EComponentClass.StaticMesh = EComponentClass.Sphere := by decide
    simp only [SetWheelMeshComponent, UpdateWheelRadius, UVehicleWheelBase.init]
    norm_num [hc, GetMeshRadius, mesh40, FAVS1_Wheel_Config.default,
      FAVS1_Wheel_Config.CalculateConstants]
  have h2 : (UVehicleWheelBase.BeginPlay
      { UVehicleWheelBase.init with WheelMeshComponent := some mesh40 }).WheelConfig
      = { FAVS1_Wheel_Config.default with WheelRadius := 40 } := by
    have hc : ¬ EComponentClass.StaticMesh = EComponentClass.Sphere := by decide
    simp only [UVehicleWheelBase.BeginPlay, UpdateWheelRadius, UVehicleWheelBase.init]
    norm_num [hc, GetMeshRadius, mesh40, FAVS1_Wheel_Config.default,
      FAVS1_Wheel_Config.CalculateConstants]
  rw [h1, h2]
  refine ⟨rfl, ?_, ?_, ?_, ?_⟩
  · norm_num [FAVS1_Wheel_Config.default, FAVS1_Wheel_Config.CalculateConstants]
  · norm_num [FAVS1_Wheel_Config.default, FAVS1_Wheel_Config.CalculateConstants]
  · norm_num [ConstantsCurrent, FAVS1_Wheel_Config.default,
      FAVS1_Wheel_Config.CalculateConstants]
  · norm_num [ConstantsCurrent, FAVS1_Wheel_Config.default,
      FAVS1_Wheel_Config.CalculateConstants]

theorem UpdateWheelRadius_auto (Wheel : UVehicleWheelBase) (Mesh : UPrimitiveComponent)
    (hauto : Wheel.WheelConfig.AutoWheelRadius = true)
    (hmesh : Wheel.WheelMeshComponent = some Mesh) (hclass : Mesh.Class ≠ EComponentClass.Sphere) :
    (UpdateWheelRadius Wheel).WheelConfig.WheelRadius
      = if GetMeshRadius (some Mesh) ≤ 0 then 30 else GetMeshRadius (some Mesh) := by
  unfold UpdateWheelRadius
  split
  · rename_i h; rw [hmesh] at h; cases h
  · rename_i m h
    rw [hmesh] at h
    cases h
    rw [if_pos hauto, if_neg hclass, hmesh]

theorem UpdateWheelRadius_manual (Wheel : UVehicleWheelBase)
    (h : Wheel.WheelConfig.AutoWheelRadius = false ∨ Wheel.WheelMeshComponent = none ∨
      ∃ Mesh, Wheel.WheelMeshComponent = some Mesh ∧ Mesh.Class = EComponentClass.Sphere) :
    UpdateWheelRadius Wheel = Wheel := by
  unfold UpdateWheelRadius
  split
  · rfl
  · rename_i m hm
    rcases h with h | h | ⟨Mesh, h1, h2⟩
    · rw [if_neg (by simp [h])]
    · rw [h] at hm; cases hm
    · rw [h1] at hm
      cases hm
      rw [if_pos h2]
      split_ifs <;> rfl

/-- C14 as the code has it: with `AutoWheelRadius` on and a valid mesh component that is not
a sphere, `UpdateWheelRadius` and `BeginPlay` leave a strictly positive `WheelRadius` (the
mesh radius, or the 30 cm fallback when that is not positive), so the divisor of
`RollingAngVel` is not zero; with `AutoWheelRadius` off, no valid mesh component or a sphere
component they leave `WheelRadius` as configured. -/
theorem C14_auto_radius_fallback (Wheel : UVehicleWheelBase) :
    (∀ Mesh, Wheel.WheelConfig.AutoWheelRadius = true → Wheel.WheelMeshComponent = some Mesh →
        Mesh.Class ≠ EComponentClass.Sphere →
        0 < (UpdateWheelRadius Wheel).WheelConfig.WheelRadius ∧
          0 < (UVehicleWheelBase.BeginPlay Wheel).WheelConfig.WheelRadius ∧
          (GetMeshRadius (some Mesh) ≤ 0 →
            (UVehicleWheelBase.BeginPlay Wheel).WheelConfig.WheelRadius = 30)) ∧
      ((Wheel.WheelConfig.AutoWheelRadius = false ∨ Wheel.WheelMeshComponent = none ∨
          ∃ Mesh, Wheel.WheelMeshComponent = some Mesh ∧ Mesh.Class = EComponentClass.Sphere) →
        (UpdateWheelRadius Wheel).WheelConfig.WheelRadius = Wheel.WheelConfig.WheelRadius ∧
          (UVehicleWheelBase.BeginPlay Wheel).WheelConfig.WheelRadius
            = Wheel.WheelConfig.WheelRadius) := by
  constructor
  · intro Mesh hauto hmesh hclass
    have hpos : ∀ r : ℚ, 0 < (if r ≤ 0 then (30 : ℚ) else r) := by
      intro r
      split_ifs with h
      · norm_num
      · exact not_le.mp h
    have h1 := UpdateWheelRadius_auto Wheel Mesh hauto hmesh hclass
    have h2 := UpdateWheelRadius_auto
      { Wheel with WheelConfig := Wheel.WheelConfig.CalculateConstants } Mesh hauto hmesh hclass
    refine ⟨by rw [h1]; exact hpos _, ?_, ?_⟩
    · unfold UVehicleWheelBase.BeginPlay
      rw [h2]
      exact hpos _
    · intro hle
      unfold UVehicleWheelBase.BeginPlay
      rw [h2, if_pos hle]
  · intro h
    constructor
    · rw [UpdateWheelRadius_manual Wheel h]
    · unfold UVehicleWheelBase.BeginPlay
      rw [UpdateWheelRadius_manual
        { Wheel with WheelConfig := Wheel.WheelConfig.CalculateConstants } h]
      rfl

/-- C14 as the code has it, at a concrete input: an automatic wheel with a mesh without
height gets the 30 cm fallback. -/
theorem C14_fallback_witness :
    GetMeshRadius (some flatMesh) = 0 ∧
      (UVehicleWheelBase.BeginPlay
        { UVehicleWheelBase.init with WheelMeshComponent := some flatMesh }).WheelConfig.WheelRadius
        = 30 := by
  have hr : GetMeshRadius (some flatMesh) = 0 := by norm_num [GetMeshRadius, flatMesh]
  exact ⟨hr, ((C14_auto_radius_fallback
    { UVehicleWheelBase.init with WheelMeshComponent := some flatMesh }).1 flatMesh rfl rfl
    (by decide)).2.2 (le_of_eq hr)⟩

/-- C14 fails as stated: with `AutoWheelRadius` off and a radius of 0 entered by hand, the
wheel still has radius 0 after `BeginPlay` (which ends with `UpdateWheelRadius`), whatever
the mesh, so the simulation divides by a zero `WheelRadius`. -/
theorem C14_manual_zero_radius_kept :
    manualZeroRadius.WheelConfig.AutoWheelRadius = false ∧
      (UVehicleWheelBase.BeginPlay
        { manualZeroRadius with WheelMeshComponent := some mesh40 }).WheelConfig.WheelRadius
        = 0 ∧
      (UVehicleWheelBase.BeginPlay manualZeroRadius).WheelConfig.WheelRadius = 0 := by
  refine ⟨rfl, ?_, ?_⟩
  · unfold UVehicleWheelBase.BeginPlay
    rw [UpdateWheelRadius_manual _ (Or.inl rfl)]
    rfl
  · unfold UVehicleWheelBase.BeginPlay
    rw [UpdateWheelRadius_manual _ (Or.inl rfl)]
    rfl

/-! ### Sending network state -/

/-- C15 as the code has it: on the owning peer, while `LocalVehicleAtRest` is true,
`NetStateSend` sends a rest snapshot exactly when `NetworkAtRest` is not set yet or the
Manhattan distance between the position of the last rest snapshot and the current position
exceeds the threshold (50 with the rigid body awake, 0.5 with it asleep); it then sends the
current state and nothing else, and otherwise sends nothing. -/
theorem C15_rest_snapshot_rule (netNow : ℚ) (s : AVehicleSystemBase)
    (hrest : s.LocalVehicleAtRest = true) :
    ((s.NetworkAtRest = false ∨
        FastDist s.RestState.position s.VehicleMesh.position
          > (if s.VehicleMesh.awake then 50 else 1 / 2)) →
      (NetStateSend NetworkRoles.Owner netNow s).2
        = [FNetMessage.Server_ReceiveRestState (CreateNetStateForNow netNow s)]) ∧
    ((s.NetworkAtRest = true ∧
        FastDist s.RestState.position s.VehicleMesh.position
          ≤ (if s.VehicleMesh.awake then 50 else 1 / 2)) →
      (NetStateSend NetworkRoles.Owner netNow s).2 = []) := by
  constructor
  · intro h
    simp only [NetStateSend, NetStateSend.calls, hrest, CreateNetStateForNow, if_true,
      Bool.not_true, Bool.false_eq_true, if_false]
    rw [if_pos]
    rcases h with h | h
    · simp [h]
    · simp only [Bool.or_eq_true, decide_eq_true_eq]
      right
      exact h
  · intro h
    simp only [NetStateSend, NetStateSend.calls, hrest, CreateNetStateForNow, if_true,
      Bool.not_true, Bool.false_eq_true, if_false]
    rw [if_neg]
    simp only [Bool.or_eq_true, decide_eq_true_eq, not_or, not_lt, h.1, Bool.not_true,
      Bool.false_eq_true, not_false_eq_true, true_and]
    exact h.2

/-- C15 as the code has it, at a concrete input: an owner at network rest, asleep, that
has settled 0.3 cm away from its last rest snapshot sends nothing. -/
theorem C15_rest_snapshot_witness :
    (NetStateSend NetworkRoles.Owner 7 settledOwner).2 = [] :=
  (C15_rest_snapshot_rule 7 settledOwner rfl).2
    ⟨rfl, by norm_num [settledOwner, receiver0, AVehicleSystemBase.init, chassisAt, FastDist,
      FMath.Abs, FNetState.default, FVector.ZeroVector]⟩

/-- C15 fails as stated: an owner at local rest whose chassis is exactly where its last rest
snapshot was taken (distance 0, within either threshold) still sends a rest snapshot, because
`NetworkAtRest` is not set yet. -/
theorem C15_rest_snapshot_sent_within_threshold :
    restingOwner.LocalVehicleAtRest = true ∧
      FastDist restingOwner.RestState.position restingOwner.VehicleMesh.position = 0 ∧
      (NetStateSend NetworkRoles.Owner 7 restingOwner).2
        = [FNetMessage.Server_ReceiveRestState (CreateNetStateForNow 7 restingOwner)] := by
  refine ⟨rfl, ?_, ?_⟩
  · norm_num [restingOwner, receiver0, AVehicleSystemBase.init, chassisAt, FastDist, FMath.Abs,
      FNetState.default, FVector.ZeroVector]
  · simp [NetStateSend, NetStateSend.calls, restingOwner, receiver0, AVehicleSystemBase.init]

/-! ### Local timestamps -/

theorem CalculateTimestamps_chain_chained (prev : FNetState) (q : List FNetState) :
    List.Chain LocalChained prev (CalculateTimestamps.chain prev q) := by
  induction q generalizing prev with
  | nil => exact List.Chain.nil
  | cons e rest ih =>
    simp only [CalculateTimestamps.chain]
    exact List.Chain.cons rfl (ih _)

theorem CalculateTimestamps_chain_offset (prev : FNetState) (q : List FNetState) :
    ∀ e ∈ CalculateTimestamps.chain prev q,
      e.LocalTimestamp - prev.LocalTimestamp = e.NetTimestamp - prev.NetTimestamp := by
  induction q generalizing prev with
  | nil => intro e he; simp [CalculateTimestamps.chain] at he
  | cons a rest ih =>
    intro e he
    simp only [CalculateTimestamps.chain, List.mem_cons] at he
    rcases he with he | he
    · rw [he]; ring
    · have := ih _ e he
      simp only [] at this
      linarith

/-- C16: when `AddStateToQueue` inserts a snapshot into a non-empty queue (the queue grows by
one), the head entry is still the head and is unchanged, local timestamp included, every
later entry has the local timestamp of its predecessor plus the difference of their net
timestamps, and so every entry is as far from the head in local time as in net time. -/
theorem C16_local_timestamps_chained (role : NetworkRoles) (now : ℚ) (s : AVehicleSystemBase)
    (x head : FNetState) (rest : List FNetState) (hq : s.StateQueue = head :: rest)
    (hins : (AddStateToQueue role now s x).StateQueue.length = s.StateQueue.length + 1) :
    ∃ tail, (AddStateToQueue role now s x).StateQueue = head :: tail ∧
      List.Chain' LocalChained (head :: tail) ∧
      ∀ e ∈ head :: tail,
        e.LocalTimestamp - head.LocalTimestamp = e.NetTimestamp - head.NetTimestamp := by
  have hscan : (AddStateToQueue role now s x).StateQueue = s.StateQueue ∨
      (AddStateToQueue role now s x).StateQueue
        = AddStateToQueue.scan { x with NetTimestamp := x.NetTimestamp + s.NetTimeBehind }
            s.StateQueue s.StateQueue.length := by
    simp only [AddStateToQueue]
    split_ifs
    · left; rfl
    · split
      · right; rfl
      · rename_i h; rw [hq] at h; cases h
    · left; rfl
    · left; rfl
  rcases hscan with h | h
  · rw [h] at hins; omega
  · rcases scan_spec { x with NetTimestamp := x.NetTimestamp + s.NetTimeBehind } s.StateQueue
      s.StateQueue.length le_rfl with h1 | ⟨i, e, _, _, _, _, heq⟩
    · rw [h, h1] at hins; omega
    · rw [h, heq, hq]
      refine ⟨CalculateTimestamps.chain head
        (List.take i rest ++ { x with NetTimestamp := x.NetTimestamp + s.NetTimeBehind }
          :: List.drop i rest), ?_, ?_, ?_⟩
      · simp [CalculateTimestamps]
      · exact CalculateTimestamps_chain_chained head _
      · intro e he
        rcases List.mem_cons.mp he with he | he
        · rw [he]; ring
        · exact CalculateTimestamps_chain_offset head _ e he

/-- C16, the round trip: inserting 1.1 into the queue holding 1.0 and 1.2 (arrived at local
time 5) keeps the head with local timestamp 5.15 and gives local timestamps 5.25 and 5.35
to the entries behind it. -/
theorem C16_round_trip_witness :
    (runQueue receiver0 roundTrip).StateQueue.map FNetState.LocalTimestamp
        = [103 / 20, 21 / 4, 107 / 20] ∧
      ∃ tail, (AddStateToQueue NetworkRoles.Client 5 (runQueue receiver0 (roundTrip.take 2))
          (snapshotAt (11 / 10) FVector.ZeroVector)).StateQueue
          = ⟨23 / 20, 103 / 20, FVector.ZeroVector, FRotator.ZeroRotator, FVector.ZeroVector,
              FVector.ZeroVector⟩ :: tail ∧
        List.Chain' LocalChained
          (⟨23 / 20, 103 / 20, FVector.ZeroVector, FRotator.ZeroRotator, FVector.ZeroVector,
              FVector.ZeroVector⟩ :: tail) := by
  have hrole : ¬ NetworkRoles.Client = NetworkRoles.Owner := by decide
  constructor
  · simp [runQueue, roundTrip, receiver0, QueueOp.apply, AddStateToQueue,
      AVehicleSystemBase.init, snapshotAt, FNetState.default, AddStateToQueue.scan,
      CalculateTimestamps, CalculateTimestamps.chain]
    norm_num [List.insertIdx, List.modifyTailIdx, AddStateToQueue.scan, CalculateTimestamps,
      CalculateTimestamps.chain]
  · have hq : (runQueue receiver0 (roundTrip.take 2)).StateQueue
        = [⟨23 / 20, 103 / 20, FVector.ZeroVector, FRotator.ZeroRotator, FVector.ZeroVector,
            FVector.ZeroVector⟩,
           ⟨27 / 20, 107 / 20, FVector.ZeroVector, FRotator.ZeroRotator, FVector.ZeroVector,
            FVector.ZeroVector⟩] := by
      simp [runQueue, roundTrip, receiver0, QueueOp.apply, AddStateToQueue,
        AVehicleSystemBase.init, snapshotAt, FNetState.default, AddStateToQueue.scan,
        CalculateTimestamps, CalculateTimestamps.chain]
      norm_num [List.insertIdx, List.modifyTailIdx, AddStateToQueue.scan, CalculateTimestamps,
        CalculateTimestamps.chain]
    obtain ⟨tail, h1, h2, _⟩ := C16_local_timestamps_chained NetworkRoles.Client 5
      (runQueue receiver0 (roundTrip.take 2)) (snapshotAt (11 / 10) FVector.ZeroVector) _ _ hq
      (by
        rw [hq]
        simp [AddStateToQueue, hrole, hq, runQueue, roundTrip, receiver0, QueueOp.apply,
          AVehicleSystemBase.init, snapshotAt, FNetState.default, AddStateToQueue.scan,
          CalculateTimestamps, CalculateTimestamps.chain]
        norm_num [List.insertIdx, List.modifyTailIdx, AddStateToQueue.scan,
          CalculateTimestamps, CalculateTimestamps.chain, CalculateTimestamps_length])
    exact ⟨tail, h1, h2⟩

/-! ### Sampling the queue -/

/-- The interpolation part of `SyncPhysics`, written with `SyncPhysics.lerpPercent`. -/
theorem SyncPhysics_lerp_eq (E : Engine) (now : ℚ) (s : AVehicleSystemBase) (x : FNetState)
    (rest : List FNetState) :
    SyncPhysics.lerp E now s x rest =
      if SyncPhysics.lerpPercent now s x ≥ 99 / 100
          ∨ s.LerpStartState.NetTimestamp > x.LocalTimestamp then
        { ApplyExactNetState E
            (SetVehicleLocation E { s with LastActiveTimestamp := x.NetTimestamp }
              (E.VLerp s.LerpStartState.position x.position (SyncPhysics.lerpPercent now s x))
              (E.RLerp s.LerpStartState.rotation x.rotation (SyncPhysics.lerpPercent now s x))
              false) x with
          StateQueue := rest, CreateNewStartState := true }
      else
        SetVehicleLocation E { s with LastActiveTimestamp := x.NetTimestamp }
          (E.VLerp s.LerpStartState.position x.position (SyncPhysics.lerpPercent now s x))
          (E.RLerp s.LerpStartState.rotation x.rotation (SyncPhysics.lerpPercent now s x))
          false := rfl

/-- The lerp fraction lies in [0, 1]. -/
theorem SyncPhysics_lerpPercent_mem (now : ℚ) (s : AVehicleSystemBase) (x : FNetState) :
    0 ≤ SyncPhysics.lerpPercent now s x ∧ SyncPhysics.lerpPercent now s x ≤ 1 :=
  ⟨FMath_Clamp_ge _ _ _, FMath_Clamp_le _ _ _ (by norm_num)⟩

/-- Whenever the interpolation part of `SyncPhysics` runs, the head's timestamp becomes
`LastActiveTimestamp`. -/
theorem SyncPhysics_lerp_LastActiveTimestamp (E : Engine) (now : ℚ) (s : AVehicleSystemBase)
    (x : FNetState) (rest : List FNetState) :
    (SyncPhysics.lerp E now s x rest).LastActiveTimestamp = x.NetTimestamp := by
  rw [SyncPhysics_lerp_eq]
  split_ifs <;> simp [ApplyExactNetState]

/-- C19: when `SyncPhysics`, not at network rest, reaches the lerp window of the head with
`CreateNewStartState` set, then if the chassis position is within `NetPositionTolerance` of
the head's position on each axis it removes exactly the head, leaves the chassis (pose and
velocities), the raised events and `LastActiveTimestamp` as they were and leaves
`CreateNewStartState` true; if some axis differs by more, the call is the interpolation
step from the captured start state, which makes the head's timestamp the
`LastActiveTimestamp`. -/
theorem C19_near_equal_skip (E : Engine) (now netNow : ℚ) (s : AVehicleSystemBase)
    (head : FNetState) (rest : List FNetState) (hrest : s.NetworkAtRest = false)
    (hq : s.StateQueue = head :: rest)
    (hwin : now ≥ head.LocalTimestamp - s.NetLerpStart)
    (hnew : s.CreateNewStartState = true) :
    ((|s.VehicleMesh.position.X - head.position.X| ≤ s.NetPositionTolerance ∧
        |s.VehicleMesh.position.Y - head.position.Y| ≤ s.NetPositionTolerance ∧
        |s.VehicleMesh.position.Z - head.position.Z| ≤ s.NetPositionTolerance) →
      (SyncPhysics E now netNow s).StateQueue = rest ∧
        (SyncPhysics E now netNow s).VehicleMesh = s.VehicleMesh ∧
        (SyncPhysics E now netNow s).Signals = s.Signals ∧
        (SyncPhysics E now netNow s).LastActiveTimestamp = s.LastActiveTimestamp ∧
        (SyncPhysics E now netNow s).CreateNewStartState = true) ∧
    (¬ (|s.VehicleMesh.position.X - head.position.X| ≤ s.NetPositionTolerance ∧
        |s.VehicleMesh.position.Y - head.position.Y| ≤ s.NetPositionTolerance ∧
        |s.VehicleMesh.position.Z - head.position.Z| ≤ s.NetPositionTolerance) →
      SyncPhysics E now netNow s
          = SyncPhysics.lerp E now (SyncPhysics.capture netNow s) head rest ∧
        (SyncPhysics E now netNow s).LastActiveTimestamp = head.NetTimestamp) := by
  have hnear : (FMath.IsNearlyEqual (CreateNetStateForNow netNow s).position.X head.position.X
        s.NetPositionTolerance
      && FMath.IsNearlyEqual (CreateNetStateForNow netNow s).position.Y head.position.Y
        s.NetPositionTolerance
      && FMath.IsNearlyEqual (CreateNetStateForNow netNow s).position.Z head.position.Z
        s.NetPositionTolerance) = true ↔
      (|s.VehicleMesh.position.X - head.position.X| ≤ s.NetPositionTolerance ∧
        |s.VehicleMesh.position.Y - head.position.Y| ≤ s.NetPositionTolerance ∧
        |s.VehicleMesh.position.Z - head.position.Z| ≤ s.NetPositionTolerance) := by
    simp only [FMath.IsNearlyEqual, FMath_Abs_eq_abs, CreateNetStateForNow, Bool.and_eq_true,
      decide_eq_true_eq, and_assoc]
  rw [SyncPhysics_cons E now netNow s head rest hrest hq]
  simp only [SyncPhysics.head]
  rw [if_pos hwin, if_pos hnew]
  constructor
  · intro h
    rw [if_pos (hnear.mpr h)]
    exact ⟨rfl, rfl, rfl, rfl, rfl⟩
  · intro h
    rw [if_neg (fun hc => h (hnear.mp hc))]
    exact ⟨rfl, SyncPhysics_lerp_LastActiveTimestamp E now _ head rest⟩

theorem idleReceiver_eq :
    idleReceiver = { receiver0 with StateQueue :=
      [⟨23 / 20, 103 / 20, FVector.ZeroVector, FRotator.ZeroRotator, FVector.ZeroVector,
        FVector.ZeroVector⟩] } := by
  have hrole : ¬ NetworkRoles.Client = NetworkRoles.Owner := by decide
  norm_num [hrole, idleReceiver, receiver0, AddStateToQueue, AVehicleSystemBase.init,
    snapshotAt, FNetState.default]

/-- C19, at a concrete input: the idle receiver, whose chassis is exactly where the head
was taken, skips the head at local time 5. -/
theorem C19_skip_witness :
    (SyncPhysics linearEngine 5 1 idleReceiver).StateQueue = [] ∧
      (SyncPhysics linearEngine 5 1 idleReceiver).VehicleMesh = idleReceiver.VehicleMesh ∧
      (SyncPhysics linearEngine 5 1 idleReceiver).LastActiveTimestamp = 0 := by
  have h := (C19_near_equal_skip linearEngine 5 1 idleReceiver
    ⟨23 / 20, 103 / 20, FVector.ZeroVector, FRotator.ZeroRotator, FVector.ZeroVector,
      FVector.ZeroVector⟩ []
    (by rw [idleReceiver_eq]; rfl) (by rw [idleReceiver_eq])
    (by rw [idleReceiver_eq]; norm_num [receiver0, AVehicleSystemBase.init])
    (by rw [idleReceiver_eq]; rfl)).1
    (by
      rw [idleReceiver_eq]
      norm_num [receiver0, AVehicleSystemBase.init, chassisAt, FVector.ZeroVector])
  refine ⟨h.1, h.2.1, ?_⟩
  rw [h.2.2.2.1, idleReceiver_eq]
  rfl

/-- C17 at its failing input: the idle receiver skips its head, whose adjusted timestamp is
1.15, as near-equal; the head is removed but `LastActiveTimestamp` is still 0, so a snapshot
received afterwards with timestamp 0.5, adjusted to 0.65 and thus older than the removed
entry, is not discarded: it becomes the new queue head. -/
theorem C17_skipped_head_sets_no_bound :
    idleReceiver.StateQueue.map FNetState.NetTimestamp = [23 / 20] ∧
      (SyncPhysics linearEngine 5 1 idleReceiver).StateQueue = [] ∧
      (SyncPhysics linearEngine 5 1 idleReceiver).LastActiveTimestamp = 0 ∧
      (AddStateToQueue NetworkRoles.Client 6 (SyncPhysics linearEngine 5 1 idleReceiver)
        (snapshotAt (1 / 2) FVector.ZeroVector)).StateQueue.map FNetState.NetTimestamp
        = [13 / 20] := by
  have hrole : ¬ NetworkRoles.Client = NetworkRoles.Owner := by decide
  have hs : SyncPhysics linearEngine 5 1 idleReceiver
      = { receiver0 with
          LerpStartState := { FNetState.default with NetTimestamp := 1 } } := by
    rw [idleReceiver_eq, SyncPhysics_cons linearEngine 5 1 _ _ [] rfl rfl]
    norm_num [SyncPhysics.head, CreateNetStateForNow, FMath.IsNearlyEqual, FMath.Abs,
      receiver0, AVehicleSystemBase.init, chassisAt, FNetState.default, FVector.ZeroVector,
      FRotator.ZeroRotator]
  refine ⟨by rw [idleReceiver_eq]; rfl, by rw [hs]; rfl, by rw [hs]; rfl, ?_⟩
  rw [hs]
  norm_num [hrole, AddStateToQueue, receiver0, AVehicleSystemBase.init, snapshotAt,
    FNetState.default]

/-- C18 at its failing input: a client whose local world time is 5 while the server time is
100 holds a head with local timestamp 5.15 taken 100 cm away. On the frame the start pose is
captured, the window starts at the server time 100 while `now` is the local time 5: the lerp
fraction is 1, not 0, and the same call moves the sleeping chassis onto the head's position
and removes the head. -/
theorem C18_fraction_mixes_clocks :
    lateJoiner.CreateNewStartState = true ∧ lateJoiner.StateQueue = [lateHead] ∧
      (SyncPhysics.capture 100 lateJoiner).LerpStartState.NetTimestamp = 100 ∧
      SyncPhysics.lerpPercent 5 (SyncPhysics.capture 100 lateJoiner) lateHead = 1 ∧
      SyncPhysics linearEngine 5 100 lateJoiner
        = SyncPhysics.lerp linearEngine 5 (SyncPhysics.capture 100 lateJoiner) lateHead [] ∧
      (SyncPhysics linearEngine 5 100 lateJoiner).StateQueue = [] ∧
      (SyncPhysics linearEngine 5 100 lateJoiner).VehicleMesh.position = ⟨100, 0, 0⟩ := by
  have hstep : SyncPhysics linearEngine 5 100 lateJoiner
      = SyncPhysics.lerp linearEngine 5 (SyncPhysics.capture 100 lateJoiner) lateHead [] := by
    rw [SyncPhysics_cons linearEngine 5 100 lateJoiner lateHead [] rfl rfl]
    norm_num [SyncPhysics.head, SyncPhysics.capture, CreateNetStateForNow,
      FMath.IsNearlyEqual, FMath.Abs, lateJoiner, lateHead, lateSnapshot, snapshotAt,
      receiver0, AVehicleSystemBase.init, chassisAt, FNetState.default, FVector.ZeroVector]
  have hpct : SyncPhysics.lerpPercent 5 (SyncPhysics.capture 100 lateJoiner) lateHead = 1 := by
    norm_num [SyncPhysics.lerpPercent, SyncPhysics.capture, CreateNetStateForNow,
      GetPercentBetweenValues, FMath.Clamp, FMath.Min, FMath.Max, lateHead, lateSnapshot,
      snapshotAt, FNetState.default]
  refine ⟨rfl, rfl, rfl, hpct, hstep, ?_, ?_⟩
  · rw [hstep, SyncPhysics_lerp_eq, hpct, if_pos (Or.inl (by norm_num))]
  · rw [hstep, SyncPhysics_lerp_eq, hpct, if_pos (Or.inl (by norm_num))]
    norm_num [ApplyExactNetState, SetVehicleLocation, SyncPhysics.capture,
      CreateNetStateForNow, FastDist, FMath.Abs, linearEngine, FVector.add, FVector.sub,
      FVector.scale, FVector.SizeGT, FVector.SizeSquared, lateJoiner, lateHead, lateSnapshot,
      snapshotAt, receiver0, AVehicleSystemBase.init, chassisAt, FNetState.default,
      FVector.ZeroVector, FRotator.ZeroRotator]

/-! ### Wheel pass -/

/-- C21: for every wheel with `SpringLength ≥ 0` and every ray query result, the
`CurrentSpringLength` written to the wheel output is
`Clamp(Distance - 2 * WheelRadius, 0, SpringLength)` when the ray hit and `SpringLength`
when it missed, in either wheel mode, and so lies in `[0, SpringLength]`. -/
theorem C21_current_spring_length (W : FPhysicsWorld) (ChaosDelta VehicleMass : ℚ)
    (Inputs : FAVS_Inputs) (WheelConfig : FAVS1_Wheel_Config) (Q : FWheelQuery)
    (WheelState : FAVS1_Wheel_State) (hlen : 0 ≤ WheelConfig.SpringLength) :
    (Q.Trace.bBlockingHit = true →
        (AVS_PhysicsTick.wheel W ChaosDelta VehicleMass Inputs WheelConfig Q
          WheelState).WheelOutput.CurrentSpringLength
          = FMath.Clamp (Q.Trace.Distance - WheelConfig.WheelRadius * 2) 0
              WheelConfig.SpringLength) ∧
      (Q.Trace.bBlockingHit = false →
        (AVS_PhysicsTick.wheel W ChaosDelta VehicleMass Inputs WheelConfig Q
          WheelState).WheelOutput.CurrentSpringLength = WheelConfig.SpringLength) ∧
      0 ≤ (AVS_PhysicsTick.wheel W ChaosDelta VehicleMass Inputs WheelConfig Q
          WheelState).WheelOutput.CurrentSpringLength ∧
      (AVS_PhysicsTick.wheel W ChaosDelta VehicleMass Inputs WheelConfig Q
          WheelState).WheelOutput.CurrentSpringLength ≤ WheelConfig.SpringLength := by
  cases hhit : Q.Trace.bBlockingHit with
  | true =>
    have hout : (AVS_PhysicsTick.wheel W ChaosDelta VehicleMass Inputs WheelConfig Q
        WheelState).WheelOutput.CurrentSpringLength
        = FMath.Clamp (Q.Trace.Distance - WheelConfig.WheelRadius * 2) 0
            WheelConfig.SpringLength := by
      simp only [AVS_PhysicsTick.wheel, hhit, if_true]
      split_ifs <;> rfl
    refine ⟨fun _ => hout, (fun h => by cases h), ?_, ?_⟩
    · rw [hout]; exact FMath_Clamp_ge _ _ _
    · rw [hout]; exact FMath_Clamp_le _ _ _ hlen
  | false =>
    have hout : (AVS_PhysicsTick.wheel W ChaosDelta VehicleMass Inputs WheelConfig Q
        WheelState).WheelOutput.CurrentSpringLength = WheelConfig.SpringLength := by
      simp only [AVS_PhysicsTick.wheel, hhit, Bool.false_eq_true, if_false]
    refine ⟨(fun h => by cases h), fun _ => hout, ?_, ?_⟩
    · rw [hout]; exact hlen
    · rw [hout]

/-- C21, at a concrete input: the default wheel (spring length 25, radius 30) hit at
distance 75 reports a spring length of 15. -/
theorem C21_spring_length_witness :
    (AVS_PhysicsTick.wheel levelWorld (1 / 60) 1500 zeroInputs FAVS1_Wheel_Config.default
      (levelHit 75) FAVS1_Wheel_State.default).WheelOutput.CurrentSpringLength = 15 := by
  rw [(C21_current_spring_length levelWorld (1 / 60) 1500 zeroInputs FAVS1_Wheel_Config.default
    (levelHit 75) FAVS1_Wheel_State.default
    (by norm_num [FAVS1_Wheel_Config.default, FAVS1_Wheel_Config.CalculateConstants])).1 rfl]
  norm_num [FMath.Clamp, FMath.Min, FMath.Max, FAVS1_Wheel_Config.default,
    FAVS1_Wheel_Config.CalculateConstants, levelHit]

/-- C24: when the ray query misses, the step stores the slip (0, 0), and the angular velocity
it stores and reports is 0 if the handbrake is pulled on a handbrake wheel or the brake input
is positive on a braking wheel, and the angular velocity stored before the step otherwise,
in either wheel mode. -/
theorem C24_no_contact (W : FPhysicsWorld) (ChaosDelta VehicleMass : ℚ)
    (Inputs : FAVS_Inputs) (WheelConfig : FAVS1_Wheel_Config) (Q : FWheelQuery)
    (WheelState : FAVS1_Wheel_State) (hmiss : Q.Trace.bBlockingHit = false) :
    (AVS_PhysicsTick.wheel W ChaosDelta VehicleMass Inputs WheelConfig Q
        WheelState).WheelState.Slip = ⟨0, 0⟩ ∧
      (AVS_PhysicsTick.wheel W ChaosDelta VehicleMass Inputs WheelConfig Q
        WheelState).WheelOutput.AngularVelocity
        = (AVS_PhysicsTick.wheel W ChaosDelta VehicleMass Inputs WheelConfig Q
            WheelState).WheelState.AngularVelocity ∧
      (((Inputs.Handbrake = true ∧ WheelConfig.IsHandbrakeWheel = true) ∨
          (Inputs.Brake > 0 ∧ WheelConfig.IsBrakingWheel = true)) →
        (AVS_PhysicsTick.wheel W ChaosDelta VehicleMass Inputs WheelConfig Q
          WheelState).WheelState.AngularVelocity = 0) ∧
      (¬ ((Inputs.Handbrake = true ∧ WheelConfig.IsHandbrakeWheel = true) ∨
          (Inputs.Brake > 0 ∧ WheelConfig.IsBrakingWheel = true)) →
        (AVS_PhysicsTick.wheel W ChaosDelta VehicleMass Inputs WheelConfig Q
          WheelState).WheelState.AngularVelocity = WheelState.AngularVelocity) := by
  have hcond : ((Inputs.Handbrake && WheelConfig.IsHandbrakeWheel)
      || (decide (Inputs.Brake > 0) && WheelConfig.IsBrakingWheel)) = true ↔
      ((Inputs.Handbrake = true ∧ WheelConfig.IsHandbrakeWheel = true) ∨
        (Inputs.Brake > 0 ∧ WheelConfig.IsBrakingWheel = true)) := by
    simp only [Bool.or_eq_true, Bool.and_eq_true, decide_eq_true_eq]
  refine ⟨?_, ?_, ?_, ?_⟩
  · simp only [AVS_PhysicsTick.wheel, hmiss, Bool.false_eq_true, if_false]
  · simp only [AVS_PhysicsTick.wheel, hmiss, Bool.false_eq_true, if_false]
  · intro h
    simp only [AVS_PhysicsTick.wheel, hmiss, Bool.false_eq_true, if_false]
    rw [if_pos (hcond.mpr h)]
  · intro h
    simp only [AVS_PhysicsTick.wheel, hmiss, Bool.false_eq_true, if_false]
    rw [if_neg (fun hc => h (hcond.mp hc))]

/-- C24, at a concrete input: an airborne default wheel spinning at 12 rad/s keeps its spin
with the inputs released and loses its slip. -/
theorem C24_airborne_witness :
    (AVS_PhysicsTick.wheel levelWorld (1 / 60) 1500 zeroInputs FAVS1_Wheel_Config.default
        missedQuery spinningState).WheelState = ⟨⟨0, 0⟩, 12⟩ := by
  have h := C24_no_contact levelWorld (1 / 60) 1500 zeroInputs FAVS1_Wheel_Config.default
    missedQuery spinningState rfl
  have hno : ¬ ((zeroInputs.Handbrake = true ∧
        FAVS1_Wheel_Config.default.IsHandbrakeWheel = true) ∨
      (zeroInputs.Brake > 0 ∧ FAVS1_Wheel_Config.default.IsBrakingWheel = true)) := by
    norm_num [zeroInputs]
  have h1 := h.1
  have h2 := h.2.2.2 hno
  cases hw : (AVS_PhysicsTick.wheel levelWorld (1 / 60) 1500 zeroInputs
      FAVS1_Wheel_Config.default missedQuery spinningState).WheelState with
  | mk slip av =>
    rw [hw] at h1 h2
    simp only [] at h1 h2
    rw [h1, h2]
    rfl

/-- C25: for a raycast-mode wheel in ground contact, when the handbrake is pulled on a
handbrake wheel or the wheel's lock flag is set, the longitudinal slip target is
`Sign(-WheelVelocityLocalM.X)`, one of -1, 0 and 1, and the angular velocity stored and
reported is 0, whatever the throttle, torque and brake inputs. -/
theorem C25_locked_wheel (W : FPhysicsWorld) (ChaosDelta VehicleMass : ℚ)
    (Inputs : FAVS_Inputs) (WheelConfig : FAVS1_Wheel_Config) (Q : FWheelQuery)
    (WheelState : FAVS1_Wheel_State) (hhit : Q.Trace.bBlockingHit = true)
    (hmode : WheelConfig.WheelMode = EWheelMode.Raycast)
    (hlock : (Inputs.Handbrake = true ∧ WheelConfig.IsHandbrakeWheel = true) ∨
      WheelConfig.isLocked = true) :
    XSlipTarget W ChaosDelta VehicleMass Inputs WheelConfig Q
        = FMath.Sign (-Q.WheelVelocityLocalM.X) ∧
      (XSlipTarget W ChaosDelta VehicleMass Inputs WheelConfig Q = -1 ∨
        XSlipTarget W ChaosDelta VehicleMass Inputs WheelConfig Q = 0 ∨
        XSlipTarget W ChaosDelta VehicleMass Inputs WheelConfig Q = 1) ∧
      (AVS_PhysicsTick.wheel W ChaosDelta VehicleMass Inputs WheelConfig Q
        WheelState).WheelState.AngularVelocity = 0 ∧
      (AVS_PhysicsTick.wheel W ChaosDelta VehicleMass Inputs WheelConfig Q
        WheelState).WheelOutput.AngularVelocity = 0 := by
  have hl : WheelLocking Inputs WheelConfig = true := by
    simp only [WheelLocking, Bool.or_eq_true, Bool.and_eq_true]
    exact hlock
  have hne : ¬ WheelConfig.WheelMode = EWheelMode.Physics := by
    rw [hmode]; decide
  have ht : XSlipTarget W ChaosDelta VehicleMass Inputs WheelConfig Q
      = FMath.Sign (-Q.WheelVelocityLocalM.X) := by
    simp only [XSlipTarget, hl, if_true]
  refine ⟨ht, ?_, ?_, ?_⟩
  · rw [ht]
    unfold FMath.Sign
    split_ifs
    · right; right; rfl
    · left; rfl
    · right; left; rfl
  · simp only [AVS_PhysicsTick.wheel, hhit, if_true, if_neg hne, hl]
  · simp only [AVS_PhysicsTick.wheel, hhit, if_true, if_neg hne, hl]

/-- C25, at a concrete input: a driving handbrake wheel rolling forward at 2 m/s with the
handbrake pulled under full throttle has slip target -1 and no spin. -/
theorem C25_handbrake_witness :
    XSlipTarget levelWorld (1 / 60) 1500 handbrakeInputs rearWheel rollingHit = -1 ∧
      (AVS_PhysicsTick.wheel levelWorld (1 / 60) 1500 handbrakeInputs rearWheel rollingHit
        spinningState).WheelOutput.AngularVelocity = 0 := by
  have h := C25_locked_wheel levelWorld (1 / 60) 1500 handbrakeInputs rearWheel rollingHit
    spinningState rfl rfl (Or.inl ⟨rfl, rfl⟩)
  refine ⟨?_, h.2.2.2⟩
  rw [h.1]
  norm_num [FMath.Sign, rollingHit, levelHit]

/-- C28: in the ground contact raycast branch, for an unlocked driving wheel with
`Torque > 0`, a non-zero inertia and a non-zero step, `XDriveTorqueNm` is `100 * Torque`,
negated exactly when one but not both of `InvertTorque` and `ReverseTorque` is set: the
inertia, the step and the rolling velocity cancel. -/
theorem C28_drive_torque (ChaosDelta : ℚ) (Inputs : FAVS_Inputs)
    (WheelConfig : FAVS1_Wheel_Config) (Q : FWheelQuery) (htorque : Inputs.Torque > 0)
    (hdrive : WheelConfig.IsDrivingWheel = true) (hinertia : WheelConfig.Inertia ≠ 0)
    (hdelta : ChaosDelta ≠ 0) :
    XDriveTorqueNm ChaosDelta Inputs WheelConfig Q
      = if xor WheelConfig.InvertTorque Inputs.ReverseTorque then -(100 * Inputs.Torque)
        else 100 * Inputs.Torque := by
  simp only [XDriveTorqueNm, htorque, hdrive, decide_True, Bool.and_self, if_true]
  split_ifs <;> field_simp <;> ring

/-- C28, at a concrete input: a torque of 300 on the driving wheel rolling at 2 m/s gives a
drive torque of 30000. -/
theorem C28_drive_torque_witness :
    XDriveTorqueNm (1 / 60) drivingInputs rearWheel rollingHit = 30000 := by
  rw [C28_drive_torque (1 / 60) drivingInputs rearWheel rollingHit
    (by norm_num [drivingInputs]) rfl
    (by norm_num [rearWheel, FAVS1_Wheel_Config.default, FAVS1_Wheel_Config.CalculateConstants])
    (by norm_num)]
  norm_num [drivingInputs, rearWheel, FAVS1_Wheel_Config.default,
    FAVS1_Wheel_Config.CalculateConstants]

/-- C23 as the code has it: the longitudinal interpolation rate lies in [0.01, 1] whatever
the contact-point velocity, throttle and step, so before the clamp to [-30, 30] the
longitudinal slip moves strictly toward its target whenever they differ; the lateral rate
lies in [0, 1] with floor 0, and at zero lateral contact velocity it is 0 and the stored
lateral slip keeps its value. -/
theorem C23_interp_rates (W : FPhysicsWorld) (ChaosDelta VehicleMass : ℚ)
    (Inputs : FAVS_Inputs) (WheelConfig : FAVS1_Wheel_Config) (Q : FWheelQuery)
    (WheelState : FAVS1_Wheel_State) (SlipX Target : ℚ) :
    1 / 100 ≤ InterpSpeedLong ChaosDelta Inputs Q ∧ InterpSpeedLong ChaosDelta Inputs Q ≤ 1 ∧
      (SlipX ≠ Target →
        |Target - (SlipX + (Target - SlipX) * InterpSpeedLong ChaosDelta Inputs Q)|
          < |Target - SlipX|) ∧
      0 ≤ InterpSpeedLat ChaosDelta Q ∧ InterpSpeedLat ChaosDelta Q ≤ 1 ∧
      (Q.WheelVelocityLocalM.Y = 0 →
        InterpSpeedLat ChaosDelta Q = 0 ∧
          (StoredSlip W ChaosDelta VehicleMass Inputs WheelConfig Q WheelState).Y
            = WheelState.Slip.Y) := by
  have hmin : 1 / 100 ≤ FMath.Clamp (Inputs.Throttle * (1 / 10)) (1 / 100) (1 / 10) :=
    FMath_Clamp_ge _ _ _
  have hmin1 : FMath.Clamp (Inputs.Throttle * (1 / 10)) (1 / 100) (1 / 10) ≤ 1 :=
    le_trans (FMath_Clamp_le _ _ _ (by norm_num)) (by norm_num)
  have hlo : 1 / 100 ≤ InterpSpeedLong ChaosDelta Inputs Q := by
    simp only [InterpSpeedLong]
    exact le_trans hmin (FMath_Clamp_ge _ _ _)
  have hhi : InterpSpeedLong ChaosDelta Inputs Q ≤ 1 := by
    simp only [InterpSpeedLong]
    exact FMath_Clamp_le _ _ _ hmin1
  refine ⟨hlo, hhi, ?_, ?_, ?_, ?_⟩
  · intro hne
    have hd : 0 < |Target - SlipX| := abs_pos.mpr (sub_ne_zero.mpr (Ne.symm hne))
    have heq : Target - (SlipX + (Target - SlipX) * InterpSpeedLong ChaosDelta Inputs Q)
        = (Target - SlipX) * (1 - InterpSpeedLong ChaosDelta Inputs Q) := by ring
    rw [heq, abs_mul, abs_of_nonneg (by linarith : (0 : ℚ) ≤ 1 - InterpSpeedLong ChaosDelta Inputs Q)]
    nlinarith
  · simp only [InterpSpeedLat]
    exact FMath_Clamp_ge _ _ _
  · simp only [InterpSpeedLat]
    exact FMath_Clamp_le _ _ _ (by norm_num)
  · intro hy
    have hz : InterpSpeedLat ChaosDelta Q = 0 := by
      simp only [InterpSpeedLat, hy]
      norm_num [FMath.Abs, FMath.Clamp, FMath.Min, FMath.Max]
    refine ⟨hz, ?_⟩
    simp only [StoredSlip, hz, mul_zero, add_zero]

/-- C23 fails as stated: on a level hit with the contact point moving straight ahead the
lateral rate is 0, below any positive floor, and a stored lateral slip of -0.25 stays
-0.25 although its target is 0. -/
theorem C23_lateral_rate_has_no_floor :
    InterpSpeedLat (1 / 60) rollingHit = 0 ∧ YSlipTarget levelWorld rollingHit = 0 ∧
      spinningState.Slip.Y = -(1 / 4) ∧
      (StoredSlip levelWorld (1 / 60) 1500 zeroInputs FAVS1_Wheel_Config.default rollingHit
        spinningState).Y = -(1 / 4) := by
  refine ⟨?_, ?_, rfl, ?_⟩
  · norm_num [InterpSpeedLat, rollingHit, levelHit, FMath.Abs, FMath.Clamp, FMath.Min,
      FMath.Max]
  · norm_num [YSlipTarget, rollingHit, levelHit, levelWorld, FMath.Sign, FMath.Lerp,
      FMath.GetMappedRangeValueClamped, FMath.Clamp, FMath.Min, FMath.Max]
  · norm_num [StoredSlip, InterpSpeedLat, rollingHit, levelHit, FMath.Abs, FMath.Clamp,
      FMath.Min, FMath.Max, spinningState]

/-! ### Chaos helpers -/

/-- C26: for a body that can be treated as rigid, with centre of mass `com`, linear velocity
`v` and angular velocity `w`, `AVS_ChaosGetVelocityAtLocation` returns
`v + w × (point - com)` for every point, and `v` at the centre of mass. -/
theorem C26_velocity_at_location (h : FRigidBodyHandle) (Location : FVector)
    (hrigid : h.CanTreatAsRigid = true) :
    AVS_ChaosGetVelocityAtLocation (some h) Location
        = h.V.add (FVector.CrossProduct h.W (Location.sub h.CoMWorldPosition)) ∧
      AVS_ChaosGetVelocityAtLocation (some h) h.CoMWorldPosition = h.V := by
  constructor
  · simp only [AVS_ChaosGetVelocityAtLocation, hrigid, if_true, FVector.sub, FVector.add,
      FVector.CrossProduct, FVector.mk.injEq]
    refine ⟨?_, ?_, ?_⟩ <;> ring
  · simp only [AVS_ChaosGetVelocityAtLocation, hrigid, if_true, FVector.sub,
      FVector.CrossProduct]
    cases hv : h.V with
    | mk x y z => simp

/-- C26, at a concrete input: 100 cm to the right of the centre of mass of a body moving
forward at 300 cm/s and turning at 2 rad/s, the velocity is 100 cm/s forward. -/
theorem C26_velocity_witness :
    AVS_ChaosGetVelocityAtLocation (some turningBody) ⟨100, 100, 50⟩ = ⟨100, 0, 0⟩ := by
  rw [(C26_velocity_at_location turningBody ⟨100, 100, 50⟩ rfl).1]
  norm_num [turningBody, FVector.add, FVector.sub, FVector.CrossProduct]

/-! ### Rest state -/

/-- C29: receiving a rest snapshot, on the server through
`Server_ReceiveRestState_Implementation` or on a client through the replication callback
`OnRep_RestState` of the replicated `RestState`, sets `NetworkAtRest` to true exactly when
the snapshot's position is not the zero vector. A snapshot taken at the world origin leaves
it false, and so does the blank snapshot `FNetState()`, which is what the owner sends when
it moves again while `NetworkAtRest` is set. -/
theorem C29_rest_flag_from_position (s : AVehicleSystemBase) (State : FNetState) (netNow : ℚ) :
    ((Server_ReceiveRestState_Implementation true s State).NetworkAtRest = true ↔
        State.position ≠ FVector.ZeroVector) ∧
      ((OnRep_RestState { s with RestState := State }).NetworkAtRest = true ↔
        State.position ≠ FVector.ZeroVector) ∧
      (State.position = ⟨0, 0, 0⟩ →
        (Server_ReceiveRestState_Implementation true s State).NetworkAtRest = false) ∧
      (Server_ReceiveRestState_Implementation true s FNetState.default).NetworkAtRest = false ∧
      (s.LocalVehicleAtRest = false → s.NetworkAtRest = true →
        (NetStateSend NetworkRoles.Owner netNow s).2
          = [FNetMessage.Server_ReceiveNetState (CreateNetStateForNow netNow s),
             FNetMessage.Server_ReceiveRestState FNetState.default]) := by
  refine ⟨?_, ?_, ?_, ?_, ?_⟩
  · simp [Server_ReceiveRestState_Implementation, OnRep_RestState]
  · simp [OnRep_RestState]
  · intro h
    simp [Server_ReceiveRestState_Implementation, OnRep_RestState, h, FVector.ZeroVector]
  · simp [Server_ReceiveRestState_Implementation, OnRep_RestState, FNetState.default]
  · intro h1 h2
    simp [NetStateSend, NetStateSend.calls, h1, h2]

/-! ### Teleport threshold -/

/-- C30: `SetVehicleLocation` takes the teleport branch, the only one that raises
`TeleportWheels`, exactly when the Manhattan distance between the current and the requested
position exceeds 3000, and it then zeroes both velocities. A straight-line distance above
3000 always teleports, while the offset (1500, 1500, 1500), about 2598 in a straight line,
is teleported too. -/
theorem C30_teleport_is_manhattan (E : Engine) (s : AVehicleSystemBase) (InNewPos : FVector)
    (InNewRot : FRotator) (WakeWheels : Bool) :
    ((SetVehicleLocation E s InNewPos InNewRot WakeWheels).Signals
          = s.Signals ++ [Signal.TeleportWheels] ↔
        FastDist s.VehicleMesh.position InNewPos > 3000) ∧
      (FastDist s.VehicleMesh.position InNewPos > 3000 →
        (SetVehicleLocation E s InNewPos InNewRot WakeWheels).VehicleMesh.velocity
            = FVector.ZeroVector ∧
          (SetVehicleLocation E s InNewPos InNewRot WakeWheels).VehicleMesh.angularVelocity
            = FVector.ZeroVector) ∧
      (3000 * 3000 < FVector.DistSquared s.VehicleMesh.position InNewPos →
        FastDist s.VehicleMesh.position InNewPos > 3000) ∧
      (FVector.DistSquared receiver0.VehicleMesh.position diagonalTarget < 3000 * 3000 ∧
        FastDist receiver0.VehicleMesh.position diagonalTarget > 3000 ∧
        (SetVehicleLocation E receiver0 diagonalTarget InNewRot WakeWheels).Signals
          = [Signal.TeleportWheels]) := by
  have hdiag : FastDist receiver0.VehicleMesh.position diagonalTarget > 3000 := by
    norm_num [FastDist, FMath.Abs, receiver0, AVehicleSystemBase.init, chassisAt,
      diagonalTarget, FVector.ZeroVector]
  refine ⟨?_, ?_, ?_, ?_, hdiag, ?_⟩
  · constructor
    · intro h
      by_contra hle
      have hle1 : FastDist s.VehicleMesh.position InNewPos ≤ 3000 := not_lt.mp hle
      simp only [SetVehicleLocation, if_pos hle1] at h
      split_ifs at h <;> simp at h
    · intro h
      simp only [SetVehicleLocation, if_neg (not_le.mpr h)]
  · intro h
    constructor <;> simp only [SetVehicleLocation, if_neg (not_le.mpr h)]
  · intro h
    exact FastDist_gt_of_DistSquared_gt _ _ 3000 (by norm_num) h
  · norm_num [FVector.DistSquared, FVector.SizeSquared, FVector.sub, receiver0,
      AVehicleSystemBase.init, chassisAt, diagonalTarget, FVector.ZeroVector]
  · simp only [SetVehicleLocation, if_neg (not_le.mpr hdiag)]
    rfl

/-! ### Queue invariant -/

theorem AddStateToQueue_LastActiveTimestamp (role : NetworkRoles) (now : ℚ)
    (s : AVehicleSystemBase) (x : FNetState) :
    (AddStateToQueue role now s x).LastActiveTimestamp = s.LastActiveTimestamp := by
  simp only [AddStateToQueue]
  split_ifs
  · rfl
  · split <;> rfl
  · rfl
  · rfl

theorem CalculateTimestamps_mem_net (q : List FNetState) (e : FNetState)
    (he : e ∈ CalculateTimestamps q) : ∃ a ∈ q, a.NetTimestamp = e.NetTimestamp := by
  have h : e.NetTimestamp ∈ (CalculateTimestamps q).map FNetState.NetTimestamp :=
    List.mem_map_of_mem _ he
  rw [CalculateTimestamps_map] at h
  obtain ⟨a, ha, hae⟩ := List.mem_map.mp h
  exact ⟨a, ha, hae⟩

theorem scan_bound (x : FNetState) (q : List FNetState) (b : ℚ) (hx : b ≤ x.NetTimestamp)
    (hq : ∀ e ∈ q, b ≤ e.NetTimestamp) :
    ∀ e ∈ AddStateToQueue.scan x q q.length, b ≤ e.NetTimestamp := by
  rcases scan_spec x q q.length le_rfl with h | ⟨i, e0, _, _, _, _, heq⟩
  · rw [h]; exact hq
  · rw [heq]
    intro e he
    obtain ⟨a, ha, hae⟩ := CalculateTimestamps_mem_net _ e he
    rw [← hae]
    rcases List.mem_append.mp ha with ha | ha
    · exact hq a (List.mem_of_mem_take ha)
    · rcases List.mem_cons.mp ha with ha | ha
      · rw [ha]; exact hx
      · exact hq a (List.mem_of_mem_drop ha)

theorem AddStateToQueue_invariant (role : NetworkRoles) (now : ℚ) (s : AVehicleSystemBase)
    (x : FNetState) (h : QueueInvariant s) : QueueInvariant (AddStateToQueue role now s x) := by
  unfold QueueInvariant
  rw [AddStateToQueue_LastActiveTimestamp]
  obtain ⟨hord, hbound⟩ := h
  simp only [AddStateToQueue]
  split_ifs with h1 h2 h3
  · exact ⟨hord, hbound⟩
  · split
    · exact ⟨scan_ordered _ _ hord, scan_bound _ _ _ (not_lt.mp h3) hbound⟩
    · refine ⟨by simp [TimestampOrdered], ?_⟩
      intro e he
      rw [List.mem_singleton.mp he]
      exact not_lt.mp h3
  · exact ⟨hord, hbound⟩
  · exact ⟨hord, hbound⟩

theorem SyncPhysics_lerp_LastActive_or (E : Engine) (now netNow : ℚ) (s : AVehicleSystemBase)
    (x : FNetState) (rest : List FNetState) :
    (SyncPhysics.head E now netNow s x rest).LastActiveTimestamp = s.LastActiveTimestamp ∨
      (SyncPhysics.head E now netNow s x rest).LastActiveTimestamp = x.NetTimestamp := by
  simp only [SyncPhysics.head]
  split_ifs
  · left; rfl
  · right; exact SyncPhysics_lerp_LastActiveTimestamp E now _ x rest
  · right; exact SyncPhysics_lerp_LastActiveTimestamp E now s x rest
  · left; rfl

/-- `SyncPhysics` keeps the queue invariant and never lowers `LastActiveTimestamp`. -/
theorem SyncPhysics_invariant (E : Engine) (now netNow : ℚ) (s : AVehicleSystemBase)
    (h : QueueInvariant s) :
    QueueInvariant (SyncPhysics E now netNow s) ∧
      s.LastActiveTimestamp ≤ (SyncPhysics E now netNow s).LastActiveTimestamp := by
  obtain ⟨hord, hbound⟩ := h
  cases hr : s.NetworkAtRest with
  | true =>
    unfold SyncPhysics
    rw [if_pos hr]
    simp only []
    split_ifs
    · refine ⟨⟨by simp [ClearQueue, TimestampOrdered], by simp [ClearQueue]⟩, ?_⟩
      simp [ClearQueue]
    · refine ⟨⟨by simpa using hord, by simpa using hbound⟩, ?_⟩
      simp
  | false =>
    cases hq : s.StateQueue with
    | nil =>
      have hs : SyncPhysics E now netNow s = s := by
        unfold SyncPhysics
        rw [if_neg (by simp [hr])]
        split
        · rfl
        · rename_i a b hab; rw [hq] at hab; cases hab
      rw [hs]
      exact ⟨⟨hord, hbound⟩, le_rfl⟩
    | cons x rest =>
      rw [SyncPhysics_cons E now netNow s x rest hr hq]
      rw [hq] at hord hbound
      have hxle : ∀ e ∈ x :: rest, x.NetTimestamp ≤ e.NetTimestamp := by
        intro e he
        rcases List.mem_cons.mp he with he | he
        · rw [he]
        · unfold TimestampOrdered at hord
          rw [List.map_cons, List.pairwise_cons] at hord
          exact hord.1 _ (List.mem_map_of_mem _ he)
      have hqueue : (SyncPhysics.head E now netNow s x rest).StateQueue = x :: rest ∨
          (SyncPhysics.head E now netNow s x rest).StateQueue = rest := by
        rcases SyncPhysics_head_StateQueue E now netNow s x rest with h1 | h1
        · left; rw [h1, hq]
        · right; exact h1
      have hla := SyncPhysics_lerp_LastActive_or E now netNow s x rest
      have hsub : ∀ e ∈ (SyncPhysics.head E now netNow s x rest).StateQueue, e ∈ x :: rest := by
        intro e he
        rcases hqueue with h1 | h1
        · rw [h1] at he; exact he
        · rw [h1] at he; exact List.mem_cons_of_mem _ he
      have hord1 : TimestampOrdered (SyncPhysics.head E now netNow s x rest).StateQueue := by
        rcases hqueue with h1 | h1
        · rw [h1]; exact hord
        · rw [h1]
          unfold TimestampOrdered at hord ⊢
          rw [List.map_cons, List.pairwise_cons] at hord
          exact hord.2
      refine ⟨⟨hord1, ?_⟩, ?_⟩
      · intro e he
        rcases hla with h1 | h1
        · rw [h1]; exact hbound e (hsub e he)
        · rw [h1]; exact hxle e (hsub e he)
      · rcases hla with h1 | h1
        · rw [h1]
        · rw [h1]; exact hbound x (by simp)

theorem QueueOp_apply_invariant (s : AVehicleSystemBase) (op : QueueOp)
    (h : QueueInvariant s) :
    QueueInvariant (op.apply s) ∧ s.LastActiveTimestamp ≤ (op.apply s).LastActiveTimestamp := by
  cases op with
  | add role now x =>
    refine ⟨AddStateToQueue_invariant role now s x h, ?_⟩
    simp only [QueueOp.apply]
    rw [AddStateToQueue_LastActiveTimestamp]
  | sync E now netNow => exact SyncPhysics_invariant E now netNow s h
  | clear =>
    refine ⟨⟨by simp [QueueOp.apply, ClearQueue, TimestampOrdered],
      by simp [QueueOp.apply, ClearQueue]⟩, ?_⟩
    simp [QueueOp.apply, ClearQueue]
  | environment env =>
    exact ⟨⟨h.1, h.2⟩, le_rfl⟩

theorem runQueue_invariant (ops : List QueueOp) (s : AVehicleSystemBase)
    (h : QueueInvariant s) :
    QueueInvariant (runQueue s ops) ∧
      s.LastActiveTimestamp ≤ (runQueue s ops).LastActiveTimestamp := by
  induction ops generalizing s with
  | nil => exact ⟨h, le_rfl⟩
  | cons op ops ih =>
    simp only [runQueue, List.foldl_cons]
    obtain ⟨h1, h2⟩ := QueueOp_apply_invariant s op h
    obtain ⟨h3, h4⟩ := ih (op.apply s) h1
    exact ⟨h3, le_trans h2 h4⟩

/-- C27: in every state reached from one with an empty queue by `AddStateToQueue`,
`SyncPhysics` and `ClearQueue` calls (with arbitrary changes of the surrounding state in
between), no queued entry has a `NetTimestamp` below `LastActiveTimestamp`; and
`LastActiveTimestamp` is never lowered, neither by the next event nor over the whole
sequence. -/
theorem C27_queue_not_older_than_last_active (s : AVehicleSystemBase) (ops : List QueueOp)
    (hempty : s.StateQueue = []) :
    (∀ e ∈ (runQueue s ops).StateQueue,
        (runQueue s ops).LastActiveTimestamp ≤ e.NetTimestamp) ∧
      (∀ op : QueueOp, (runQueue s ops).LastActiveTimestamp
        ≤ (op.apply (runQueue s ops)).LastActiveTimestamp) ∧
      s.LastActiveTimestamp ≤ (runQueue s ops).LastActiveTimestamp := by
  have h0 : QueueInvariant s := by
    unfold QueueInvariant
    rw [hempty]
    exact ⟨by simp [TimestampOrdered], by simp⟩
  obtain ⟨hinv, hmono⟩ := runQueue_invariant ops s h0
  exact ⟨hinv.2, fun op => (QueueOp_apply_invariant _ op hinv).2, hmono⟩

/-- C27, at a concrete input: the round trip of three snapshots on a fresh receiver. -/
theorem C27_round_trip_witness :
    receiver0.StateQueue = [] ∧
      ∀ e ∈ (runQueue receiver0 roundTrip).StateQueue,
        (runQueue receiver0 roundTrip).LastActiveTimestamp ≤ e.NetTimestamp :=
  ⟨rfl, (C27_queue_not_older_than_last_active receiver0 roundTrip rfl).1⟩

/-! ### Slip bounds -/

theorem SlipBounded_default : SlipBounded FAVS1_Wheel_State.default := by
  simp only [SlipBounded, FAVS1_Wheel_State.default]
  norm_num

theorem YSlipTarget_abs_le (W : FPhysicsWorld) (Q : FWheelQuery)
    (h : |Q.ASin * W.RadToDegree| ≤ 90) : |YSlipTarget W Q| ≤ 15 / 2 := by
  simp only [YSlipTarget, FMath.GetMappedRangeValueClamped, FMath.Lerp]
  have ha0 := FMath_Clamp_ge ((Q.WheelVelocity - 1) / (2 - 1)) 0 1
  have ha1 := FMath_Clamp_le ((Q.WheelVelocity - 1) / (2 - 1)) 0 1 (by norm_num)
  generalize FMath.Clamp ((Q.WheelVelocity - 1) / (2 - 1)) 0 1 = a at ha0 ha1
  have hs : |FMath.Sign Q.WheelVelocityLocalM.Y| ≤ 1 := by
    unfold FMath.Sign
    split_ifs <;> norm_num
  generalize FMath.Sign Q.WheelVelocityLocalM.Y = sg at hs
  obtain ⟨h1, h2⟩ := abs_le.mp h
  obtain ⟨h3, h4⟩ := abs_le.mp hs
  rw [abs_le]
  constructor <;> nlinarith

theorem InterpSpeedLat_mem (ChaosDelta : ℚ) (Q : FWheelQuery) :
    0 ≤ InterpSpeedLat ChaosDelta Q ∧ InterpSpeedLat ChaosDelta Q ≤ 1 := by
  simp only [InterpSpeedLat]
  exact ⟨FMath_Clamp_ge _ _ _, FMath_Clamp_le _ _ _ (by norm_num)⟩

theorem StoredSlip_bounded (W : FPhysicsWorld) (ChaosDelta VehicleMass : ℚ)
    (Inputs : FAVS_Inputs) (WheelConfig : FAVS1_Wheel_Config) (Q : FWheelQuery)
    (WheelState : FAVS1_Wheel_State) (h : |Q.ASin * W.RadToDegree| ≤ 90)
    (hst : SlipBounded WheelState) :
    |(StoredSlip W ChaosDelta VehicleMass Inputs WheelConfig Q WheelState).X| ≤ 30 ∧
      |(StoredSlip W ChaosDelta VehicleMass Inputs WheelConfig Q WheelState).Y| ≤ 15 / 2 := by
  simp only [StoredSlip]
  refine ⟨abs_le.mpr ⟨FMath_Clamp_ge _ _ _, FMath_Clamp_le _ _ _ (by norm_num)⟩, ?_⟩
  obtain ⟨hr0, hr1⟩ := InterpSpeedLat_mem ChaosDelta Q
  obtain ⟨ht0, ht1⟩ := abs_le.mp (YSlipTarget_abs_le W Q h)
  obtain ⟨hy0, hy1⟩ := abs_le.mp hst.2
  generalize InterpSpeedLat ChaosDelta Q = r at hr0 hr1
  generalize YSlipTarget W Q = t at ht0 ht1
  rw [abs_le]
  constructor <;> nlinarith

theorem AVS_PhysicsTick_wheel_bounded (W : FPhysicsWorld) (ChaosDelta VehicleMass : ℚ)
    (Inputs : FAVS_Inputs) (WheelConfig : FAVS1_Wheel_Config) (Q : FWheelQuery)
    (WheelState : FAVS1_Wheel_State) (h : |Q.ASin * W.RadToDegree| ≤ 90)
    (hst : SlipBounded WheelState) :
    SlipBounded
      (AVS_PhysicsTick.wheel W ChaosDelta VehicleMass Inputs WheelConfig Q WheelState).WheelState
    := by
  have hs := StoredSlip_bounded W ChaosDelta VehicleMass Inputs WheelConfig Q WheelState h hst
  simp only [AVS_PhysicsTick.wheel]
  split_ifs
  all_goals first
    | exact hst
    | exact hs
    | (simp only [SlipBounded]; norm_num)

theorem AVS_PhysicsTick_loop_bounded (W : FPhysicsWorld) (ChaosDelta : ℚ)
    (PhysicsInput : FVehiclePhysicsPhysicsInput) (hW : SlipAngleInRange W)
    (Wheels : List FAVS1_Wheel_Config) (WIndex : Nat) (WheelStates : List FAVS1_Wheel_State)
    (PhysicsOutput : FVehiclePhysicsPhysicsOutput)
    (hst : ∀ st ∈ WheelStates, SlipBounded st) :
    ∀ st ∈ (AVS_PhysicsTick.loop W ChaosDelta PhysicsInput Wheels WIndex
      (WheelStates, PhysicsOutput)).1, SlipBounded st := by
  induction Wheels generalizing WIndex WheelStates PhysicsOutput with
  | nil => simpa [AVS_PhysicsTick.loop] using hst
  | cons WheelConfig more ih =>
    simp only [AVS_PhysicsTick.loop]
    apply ih
    intro st hmem
    rcases List.mem_or_eq_of_mem_set hmem with hmem | hmem
    · exact hst st hmem
    · rw [hmem]
      apply AVS_PhysicsTick_wheel_bounded _ _ _ _ _ _ _ (hW WIndex WheelConfig)
      rw [List.getD_eq_getElem?_getD]
      cases hget : WheelStates[WIndex]? with
      | none => exact SlipBounded_default
      | some a => exact hst a (List.getElem?_mem hget)

theorem SetNum_bounded (WheelStates : List FAVS1_Wheel_State) (n : Nat)
    (hst : ∀ st ∈ WheelStates, SlipBounded st) : ∀ st ∈ SetNum WheelStates n, SlipBounded st := by
  intro st hmem
  simp only [SetNum] at hmem
  rcases List.mem_append.mp hmem with hmem | hmem
  · exact hst st (List.mem_of_mem_take hmem)
  · rw [List.eq_of_mem_replicate hmem]
    exact SlipBounded_default

theorem AVS_PhysicsTick_bounded (W : FPhysicsWorld) (ChaosDelta : ℚ)
    (PhysicsInput : FVehiclePhysicsPhysicsInput) (hW : SlipAngleInRange W)
    (WheelStates : List FAVS1_Wheel_State) (PhysicsOutput : FVehiclePhysicsPhysicsOutput)
    (hst : ∀ st ∈ WheelStates, SlipBounded st) :
    ∀ st ∈ (AVS_PhysicsTick W ChaosDelta PhysicsInput WheelStates PhysicsOutput).1,
      SlipBounded st := by
  simp only [AVS_PhysicsTick]
  split_ifs
  · exact hst
  · exact AVS_PhysicsTick_loop_bounded W ChaosDelta PhysicsInput hW _ _ _ _
      (SetNum_bounded _ _ hst)
  · exact AVS_PhysicsTick_loop_bounded W ChaosDelta PhysicsInput hW _ _ _ _ hst

theorem physicsRun_bounded (steps : List FPhysicsStep) (WheelStates : List FAVS1_Wheel_State)
    (hW : ∀ k ∈ steps, SlipAngleInRange k.W) (hst : ∀ st ∈ WheelStates, SlipBounded st) :
    ∀ st ∈ physicsRun WheelStates steps, SlipBounded st := by
  induction steps generalizing WheelStates with
  | nil => simpa [physicsRun] using hst
  | cons k more ih =>
    simp only [physicsRun, List.foldl_cons]
    exact ih _ (fun j hj => hW j (List.mem_cons_of_mem _ hj))
      (AVS_PhysicsTick_bounded k.W k.ChaosDelta k.PhysicsInput (hW k (List.mem_cons_self _ _))
        _ _ hst)

/-- C22: start from wheel states with zero slip (in particular from the empty array the
vehicle begins with) and run any sequence of `AVS_PhysicsTick` steps, with any inputs,
velocities, contact results, wheel lists and step lengths, where the slip angle the engine
reports is within a quarter turn (the range of the arc sine in degrees). Then in every wheel
state both stored slip components lie in [-30, 30]; the lateral one even within 7.5. -/
theorem C22_stored_slip_bounded (WheelStates : List FAVS1_Wheel_State)
    (steps : List FPhysicsStep)
    (hzero : ∀ st ∈ WheelStates, st.Slip = ⟨0, 0⟩)
    (hangle : ∀ k ∈ steps, ∀ (i : Nat) (cfg : FAVS1_Wheel_Config),
      |(k.W.Query i cfg).ASin * k.W.RadToDegree| ≤ 90) :
    ∀ st ∈ physicsRun WheelStates steps,
      (-30 ≤ st.Slip.X ∧ st.Slip.X ≤ 30) ∧ (-30 ≤ st.Slip.Y ∧ st.Slip.Y ≤ 30) ∧
        |st.Slip.Y| ≤ 15 / 2 := by
  intro st hmem
  have h0 : ∀ st ∈ WheelStates, SlipBounded st := by
    intro a ha
    simp only [SlipBounded, hzero a ha]
    norm_num
  obtain ⟨hx, hy⟩ := physicsRun_bounded steps WheelStates hangle h0 st hmem
  obtain ⟨hy0, hy1⟩ := abs_le.mp hy
  exact ⟨abs_le.mp hx, ⟨by linarith, by linarith⟩, hy⟩

/-- C22, at a concrete input: two wheels, a sliding step and a resting step, from the empty
state array; the slip angles of both steps are in range and the stored slip is bounded. -/
theorem C22_slide_then_rest_witness :
    (∀ k ∈ slideThenRest, SlipAngleInRange k.W) ∧
      ∀ st ∈ physicsRun [] slideThenRest,
        (-30 ≤ st.Slip.X ∧ st.Slip.X ≤ 30) ∧ (-30 ≤ st.Slip.Y ∧ st.Slip.Y ≤ 30) ∧
          |st.Slip.Y| ≤ 15 / 2 := by
  have hangle : ∀ k ∈ slideThenRest, SlipAngleInRange k.W := by
    intro k hk i cfg
    simp only [slideThenRest, List.mem_cons, List.mem_singleton, List.not_mem_nil,
      or_false] at hk
    rcases hk with hk | hk
    · rw [hk]; norm_num [slidingWorld, rollingHit, levelHit, abs_le]
    · rw [hk]; norm_num [levelWorld, levelHit]
  exact ⟨hangle, C22_stored_slip_bounded [] slideThenRest (by simp) hangle⟩

/-! ### Suspension force outside the physical range -/

/-- C11 fails as stated, for any configuration: with a spring rate of -25 the level hit at
distance 75 gives -2500 and the one at distance 80 gives -1250, so the more compressed
spring pushes less; and with gravity pointing up the default wheel gets -8450 at distance 58
(excess compression branch) but 6250 at distance 59. Tilt and compression velocity are the
same, the latter zero, in all four queries. -/
theorem C11_monotone_needs_physical_range :
    (levelHit 75).WheelVelocityLocal.Z = 0 ∧ (levelHit 80).WheelVelocityLocal.Z = 0 ∧
      ImpactTilt (levelHit 75) = ImpactTilt (levelHit 80) ∧
      (levelHit 75).Trace.Distance ≤ (levelHit 80).Trace.Distance ∧
      SuspensionForceN levelWorld 1500 negativeSpring (levelHit 75) = -2500 ∧
      SuspensionForceN levelWorld 1500 negativeSpring (levelHit 80) = -1250 ∧
      ¬ (SuspensionForceN levelWorld 1500 negativeSpring (levelHit 80)
          ≤ SuspensionForceN levelWorld 1500 negativeSpring (levelHit 75)) ∧
      (levelHit 58).Trace.Distance ≤ (levelHit 59).Trace.Distance ∧
      SuspensionForceN risingWorld 1500 FAVS1_Wheel_Config.default (levelHit 58) = -8450 ∧
      SuspensionForceN risingWorld 1500 FAVS1_Wheel_Config.default (levelHit 59) = 6250 ∧
      ¬ (SuspensionForceN risingWorld 1500 FAVS1_Wheel_Config.default (levelHit 59)
          ≤ SuspensionForceN risingWorld 1500 FAVS1_Wheel_Config.default (levelHit 58)) := by
  have h75 : SuspensionForceN levelWorld 1500 negativeSpring (levelHit 75) = -2500 := by
    norm_num [SuspensionForceN, SpringForceN, DamperForceN, TiltFalloff, ImpactTilt,
      NewSpringLength, SpringLengthRaw, FMath.Clamp, FMath.Min, FMath.Max, FMath.Abs,
      FVector.DotProduct, negativeSpring, FAVS1_Wheel_Config.default,
      FAVS1_Wheel_Config.CalculateConstants, levelHit, levelWorld]
  have h80 : SuspensionForceN levelWorld 1500 negativeSpring (levelHit 80) = -1250 := by
    norm_num [SuspensionForceN, SpringForceN, DamperForceN, TiltFalloff, ImpactTilt,
      NewSpringLength, SpringLengthRaw, FMath.Clamp, FMath.Min, FMath.Max, FMath.Abs,
      FVector.DotProduct, negativeSpring, FAVS1_Wheel_Config.default,
      FAVS1_Wheel_Config.CalculateConstants, levelHit, levelWorld]
  have h58 : SuspensionForceN risingWorld 1500 FAVS1_Wheel_Config.default (levelHit 58)
      = -8450 := by
    norm_num [SuspensionForceN, SpringForceN, DamperForceN, TiltFalloff, ImpactTilt,
      NewSpringLength, SpringLengthRaw, FMath.Clamp, FMath.Min, FMath.Max, FMath.Abs,
      FVector.DotProduct, FAVS1_Wheel_Config.default,
      FAVS1_Wheel_Config.CalculateConstants, levelHit, levelWorld, risingWorld]
  have h59 : SuspensionForceN risingWorld 1500 FAVS1_Wheel_Config.default (levelHit 59)
      = 6250 := by
    norm_num [SuspensionForceN, SpringForceN, DamperForceN, TiltFalloff, ImpactTilt,
      NewSpringLength, SpringLengthRaw, FMath.Clamp, FMath.Min, FMath.Max, FMath.Abs,
      FVector.DotProduct, FAVS1_Wheel_Config.default,
      FAVS1_Wheel_Config.CalculateConstants, levelHit, levelWorld, risingWorld]
  refine ⟨rfl, rfl, rfl, by norm_num [levelHit], h75, h80, ?_, by norm_num [levelHit],
    h58, h59, ?_⟩
  · rw [h75, h80]; norm_num
  · rw [h58, h59]; norm_num

end AVS
